import Mathlib

/-!
# Workspace switcher: dispatch, buttons, idle loaders, theme path, icon loading

A shallow embedding of `src/workspace-switcher.cpp`.

Conventions of the embedding:

* a C++ `std::string` is a Lean `String`; every character stands for one `char`;
* a C++ `int` is a Lean `Int`; `/` on `int` is `Int.tdiv` (truncation towards zero);
* everything the program asks of the outside world (environment variables, the file
  system, child processes, the image decoder, the icon theme, the `double` trigonometry
  of the ring layout) is answered by an `Env` record, so that theorems quantify over
  every possible answer;
* what the program does to the outside world is recorded as a list of `Effect`s in
  program order;
* GTK widgets and pixbufs live in two heaps inside `State`; a pointer is an index.
-/

namespace WorkspaceSwitcher

/-! ## Outside world -/

/-- An action of the program that is visible outside of it, in program order. -/
inductive Effect where
  | popen (command : String)
  | system (command : String)
  | cout (line : String)
  | cerr (line : String)
  | fs_exists (path : String)
  | gtk_main_quit
  deriving DecidableEq, Repr

/-- What a GLib loader hands back: whether `GError* error` was set and whether the
returned `GdkPixbuf*` is non-null. All four combinations are kept, as the code tests
the two separately. -/
structure LoadResult where
  error : Bool
  pixbuf : Bool
  deriving DecidableEq, Repr

/-- The answers of the outside world. -/
structure Env where
  /-- The value of `getenv("HOME")`, `none` for a null pointer. -/
  HOME : Option String
  /-- The value of `std::filesystem::exists(path)` when the call returns. -/
  fs_exists : String → Bool
  /-- Whether `std::filesystem::exists(path)` throws `filesystem_error` instead of
  returning: the status of the path cannot be determined (a directory on the way may not be
  searched, a name is too long, links form a loop). -/
  fs_exists_throws : String → Bool
  /-- The value of `std::ifstream file(path)`: `none` when `is_open()` is false, else the bytes of the file. -/
  ifstream : String → Option String
  /-- The value of `popen(command, "r")`: `none` for a null pipe, else everything the child writes. -/
  popen : String → Option String
  /-- The value of `system(command)`. -/
  system : String → Int
  /-- The value of `gdk_pixbuf_new_from_file_at_size(path, width, height, &error)`. -/
  gdk_pixbuf_new_from_file_at_size : String → Int → Int → LoadResult
  /-- The value of `gtk_icon_theme_has_icon(theme, name)`. -/
  gtk_icon_theme_has_icon : String → Bool
  /-- The value of `gtk_icon_theme_load_icon(theme, name, size, GTK_ICON_LOOKUP_FORCE_SIZE, &error)`. -/
  gtk_icon_theme_load_icon : String → Int → LoadResult
  /-- The `int` that `center + radius * cos((i - 1) * (2 * M_PI / 12) - (M_PI / 2))` converts to,
  as a function of `center`, `radius` and `i` (floating point, left abstract). -/
  ring_cos : Int → Int → Int → Int
  /-- The `int` that `center + radius * sin((i - 1) * (2 * M_PI / 12) - (M_PI / 2))` converts to. -/
  ring_sin : Int → Int → Int → Int
  /-- The value of `static_cast<int>(icon_size * 1.8)` as a function of `icon_size`
  (floating point, left abstract). -/
  times_1_8 : Int → Int
  /-- The value of `gdk_screen_get_width(screen)`. -/
  gdk_screen_get_width : Int
  /-- The value of `gdk_screen_get_height(screen)`. -/
  gdk_screen_get_height : Int
  /-- The value of `static_cast<int>(min_dimension * 0.40)` as a function of `min_dimension`
  (floating point, left abstract). -/
  times_0_40 : Int → Int
  /-- The value of `static_cast<int>(min_dimension * 0.08)` as a function of `min_dimension`
  (floating point, left abstract). -/
  times_0_08 : Int → Int
  /-- The value of `static_cast<int>(button_size * 0.83)` as a function of `button_size`
  (floating point, left abstract). -/
  times_0_83 : Int → Int
  /-- The value of `static_cast<int>(button_size * 0.17)` as a function of `button_size`
  (floating point, left abstract). -/
  times_0_17 : Int → Int
  /-- The width and height that `gtk_widget_get_preferred_size(tooltip_window, ..)` stores
  in `tooltip_size`. -/
  preferred_size : Int × Int
  /-- The text of `error->message` when a thumbnail fails to decode. -/
  thumbnail_error : String

/-! ## Strings and pipes -/

/-- The text `std::to_string(n)` of an `int`: decimal, with a leading `-` when negative. -/
def to_string (n : Int) : String := toString n

/-- The pair (what `fgets` stores, what stays in the stream) for room of `room` characters:
reading stops after a newline, at the end of the stream, or when the room is used up. -/
def fgets_take : Nat → List Char → List Char × List Char
  | 0, rest => ([], rest)
  | _ + 1, [] => ([], [])
  | room + 1, c :: rest =>
    if c = '\n' then ([c], rest)
    else ((c :: (fgets_take room rest).1), (fgets_take room rest).2)

/-- The call `fgets(buffer, size, stream)`: `none` for a null result (nothing left to read),
else the characters stored in the buffer and the rest of the stream. At most `size - 1`
characters are stored. -/
def fgets (size : Nat) (stream : List Char) : Option (List Char × List Char) :=
  match stream with
  | [] => none
  | _ :: _ => some (fgets_take (size - 1) stream)

/-- The `std::string` built from a `char` buffer: the characters before the first NUL. -/
def c_str (buffer : List Char) : List Char :=
  buffer.takeWhile (fun c => c != '\x00')

/-- The loop `while (!s.empty() && p(s.back())) s.pop_back();`. -/
def strip_back (p : Char → Bool) (s : List Char) : List Char :=
  (s.reverse.dropWhile p).reverse

/-! ## Dispatch -/

/-- The command of the special-workspace toggle (line 702). -/
def toggle_command : String := "hyprctl dispatch togglespecialworkspace elysia &"

/-- The command of a plain workspace switch (line 723). -/
def workspace_command (workspace_num : Int) : String :=
  "hyprctl dispatch workspace " ++ to_string workspace_num ++ " &"

/-- The command that leaves the special workspace and then switches (line 714). -/
def combined_command (workspace_num : Int) : String :=
  "bash -c \"hyprctl dispatch togglespecialworkspace elysia && hyprctl dispatch workspace "
    ++ to_string workspace_num ++ "\" &"

/-- The position `haystack.find(needle)` of the first occurrence, `none` for `npos`. -/
def find (needle : List Char) : List Char → Option Nat
  | [] => if needle.isPrefixOf [] then some 0 else none
  | c :: rest =>
    if needle.isPrefixOf (c :: rest) then some 0
    else (find needle rest).map (fun i => i + 1)

/-- The C-locale `isspace`, which `strtol` skips before a number. -/
def isspace (c : Char) : Bool :=
  c = ' ' || c = '\t' || c = '\n' || c = '\x0b' || c = '\x0c' || c = '\r'

/-- The value of a run of decimal digits. -/
def digits_value (ds : List Char) : Int :=
  ds.foldl (fun acc d => acc * 10 + ((d.toNat - '0'.toNat : Nat) : Int)) 0

/-- The call `std::stoi(s)`: `none` when it throws (`invalid_argument` when no digit can
be converted, `out_of_range` when the value does not fit an `int`). Leading white space
and one sign are accepted, text after the digits is ignored. -/
def stoi (s : List Char) : Option Int :=
  let body := s.dropWhile isspace
  let negative := body.head? = some '-'
  let unsigned := if body.head? = some '-' ∨ body.head? = some '+' then body.tail else body
  let ds := unsigned.takeWhile Char.isDigit
  if ds = [] then none
  else
    let value := if negative then - digits_value ds else digits_value ds
    if -2147483648 ≤ value ∧ value ≤ 2147483647 then some value else none

/-- The test of the stripping loops of lines 653 and 669. -/
def is_nl_cr_space (c : Char) : Bool := c = '\n' || c = '\r' || c = ' '

/-- The test of the stripping loop of line 692. -/
def is_nl_cr (c : Char) : Bool := c = '\n' || c = '\r'

/-- The query of line 643. -/
def id_command : String :=
  "hyprctl -j activewindow 2>/dev/null | jq -r '.workspace.id' 2>/dev/null"

/-- The query of line 663. -/
def name_command : String :=
  "hyprctl -j activewindow 2>/dev/null | jq -r '.workspace.name' 2>/dev/null"

/-- The query of line 686. -/
def debug_cmd : String :=
  "hyprctl -j activewindow 2>/dev/null | jq -r '\"Window WS ID: \" + (.workspace.id | tostring) + \", Name: \" + .workspace.name' 2>/dev/null"

/-- The fallback of lines 661-676, entered when `std::stoi` throws. -/
def special_by_name (env : Env) : Bool × List Effect :=
  match env.popen name_command with
  | none => (false, [Effect.popen name_command])
  | some output =>
    match fgets 128 output.data with
    | none => (false, [Effect.popen name_command])
    | some (name_buffer, _) =>
      let workspace_name := strip_back is_nl_cr_space (c_str name_buffer)
      (workspace_name = "special:elysia".data || find "special:".data workspace_name = some 0,
        [Effect.popen name_command])

/-- The method `is_currently_on_special_workspace` (lines 640-681): its result and its effects. -/
def is_currently_on_special_workspace (env : Env) : Bool × List Effect :=
  match env.popen id_command with
  | none => (false, [Effect.popen id_command])
  | some output =>
    match fgets 128 output.data with
    | none => (false, [Effect.popen id_command])
    | some (buffer, _) =>
      let workspace_id_str := strip_back is_nl_cr_space (c_str buffer)
      match stoi workspace_id_str with
      | some workspace_id => (decide (workspace_id < 0), [Effect.popen id_command])
      | none => ((special_by_name env).1, Effect.popen id_command :: (special_by_name env).2)

/-- The debug block of lines 686-698. -/
def switch_debug (env : Env) (workspace_num : Int) (is_on_special : Bool) : List Effect :=
  match env.popen debug_cmd with
  | none => [Effect.popen debug_cmd]
  | some output =>
    match fgets 256 output.data with
    | none => [Effect.popen debug_cmd]
    | some (debug_buffer, _) =>
      let debug_info := strip_back is_nl_cr (c_str debug_buffer)
      [Effect.popen debug_cmd,
       Effect.cerr ("DEBUG: Switching to workspace " ++ to_string workspace_num
          ++ ", is_on_special=" ++ (if is_on_special then "true" else "false")
          ++ ", " ++ String.mk debug_info)]

/-- The dispatch block of lines 700-731. -/
def switch_dispatch (env : Env) (workspace_num : Int) (is_on_special : Bool) : List Effect :=
  if workspace_num = 13 then
    [Effect.system toggle_command,
     if env.system toggle_command = 0 then Effect.cout "Toggled special workspace elysia"
     else Effect.cerr "Error toggling special workspace"]
  else if is_on_special then
    [Effect.system (combined_command workspace_num),
     if env.system (combined_command workspace_num) = 0 then
       Effect.cout ("Toggled special workspace off and switched to workspace " ++ to_string workspace_num)
     else
       Effect.cerr ("Error switching from special workspace to workspace " ++ to_string workspace_num)]
  else
    [Effect.system (workspace_command workspace_num),
     if env.system (workspace_command workspace_num) = 0 then
       Effect.cout ("Switched to workspace " ++ to_string workspace_num)
     else
       Effect.cerr ("Error switching to workspace " ++ to_string workspace_num)]

/-- The method `switch_workspace` (lines 683-732): its effects in program order. -/
def switch_workspace (env : Env) (workspace_num : Int) : List Effect :=
  (is_currently_on_special_workspace env).2
    ++ switch_debug env workspace_num (is_currently_on_special_workspace env).1
    ++ switch_dispatch env workspace_num (is_currently_on_special_workspace env).1

/-- The commands handed to `system()` in a run, in order. -/
def system_calls : List Effect → List String
  | [] => []
  | Effect.system command :: rest => command :: system_calls rest
  | _ :: rest => system_calls rest

/-! ### Keys

The key values are those of `gdk/gdkkeysyms.h`. -/

def GDK_KEY_Escape : Nat := 0xff1b
def GDK_KEY_BackSpace : Nat := 0xff08
def GDK_KEY_0 : Nat := 0x030
def GDK_KEY_1 : Nat := 0x031
def GDK_KEY_2 : Nat := 0x032
def GDK_KEY_3 : Nat := 0x033
def GDK_KEY_4 : Nat := 0x034
def GDK_KEY_5 : Nat := 0x035
def GDK_KEY_6 : Nat := 0x036
def GDK_KEY_7 : Nat := 0x037
def GDK_KEY_8 : Nat := 0x038
def GDK_KEY_9 : Nat := 0x039
def GDK_KEY_minus : Nat := 0x02d
def GDK_KEY_equal : Nat := 0x03d

/-- What a handler did: the workspaces it passed to `switch_workspace`, in call order,
and the effects of the whole call. -/
structure Calls where
  dispatched : List Int
  effects : List Effect
  deriving DecidableEq, Repr

/-- The statement sequence `switch_workspace(n); gtk_main_quit();`. -/
def dispatch_and_quit (env : Env) (n : Int) : Calls :=
  { dispatched := [n], effects := switch_workspace env n ++ [Effect.gtk_main_quit] }

/-- The method `on_key_press` (lines 734-753) for `event->keyval = keyval`: what it did
and the `gboolean` it returned. -/
def on_key_press (env : Env) (keyval : Nat) : Calls × Bool :=
  if keyval = GDK_KEY_Escape then
    ({ dispatched := [], effects := [Effect.gtk_main_quit] }, true)
  else if keyval = GDK_KEY_1 then (dispatch_and_quit env 1, true)
  else if keyval = GDK_KEY_2 then (dispatch_and_quit env 2, true)
  else if keyval = GDK_KEY_3 then (dispatch_and_quit env 3, true)
  else if keyval = GDK_KEY_4 then (dispatch_and_quit env 4, true)
  else if keyval = GDK_KEY_5 then (dispatch_and_quit env 5, true)
  else if keyval = GDK_KEY_6 then (dispatch_and_quit env 6, true)
  else if keyval = GDK_KEY_7 then (dispatch_and_quit env 7, true)
  else if keyval = GDK_KEY_8 then (dispatch_and_quit env 8, true)
  else if keyval = GDK_KEY_9 then (dispatch_and_quit env 9, true)
  else if keyval = GDK_KEY_0 then (dispatch_and_quit env 10, true)
  else if keyval = GDK_KEY_minus then (dispatch_and_quit env 11, true)
  else if keyval = GDK_KEY_equal then (dispatch_and_quit env 12, true)
  else if keyval = GDK_KEY_BackSpace then (dispatch_and_quit env 13, true)
  else ({ dispatched := [], effects := [] }, false)

/-! ## Theme path -/

/-- The call `std::getline(file, line)` on what is left of the file: `none` when the
extraction fails (nothing left), else the line without its newline and the rest. -/
def getline : List Char → Option (List Char × List Char)
  | [] => none
  | c :: rest =>
    if c = '\n' then some ([], rest)
    else
      match getline rest with
      | none => some ([c], [])
      | some (line, after) => some (c :: line, after)

/-- The loop `while (std::getline(file, line)) content += line;` of lines 103-105;
`fuel` bounds the number of lines read. -/
def read_content : Nat → List Char → List Char
  | 0, _ => []
  | fuel + 1, file =>
    match getline file with
    | none => []
    | some (line, after) => line ++ read_content fuel after

/-- The content string of line 101 after the loop, for a file holding `file`. Every
`getline` that succeeds consumes a character, so `file.length` rounds are enough. -/
def file_content (file : String) : List Char :=
  read_content file.length file.data

/-- The method `determine_workspace_icon_path` (lines 83-122): the path returned, `none`
when no path is returned because the call `std::filesystem::exists` of line 91 throws and
the exception, which nothing catches, leaves the method. -/
def determine_workspace_icon_path (env : Env) : Option String :=
  let home_dir := match env.HOME with
    | some home => home
    | none => ""
  let light_txt_path := home_dir ++ "/.config/hypr/Light.txt"
  let default_path := home_dir ++ "/.config/Elysia/assets/workspace/"
  if env.fs_exists_throws light_txt_path then none
  else if !env.fs_exists light_txt_path then some default_path
  else
    match env.ifstream light_txt_path with
    | none => some default_path
    | some file =>
      let content := file_content file
      if find "cyrene".data content != none then
        some (home_dir ++ "/.config/Elysia/assets/workspace/AMPH/")
      else if find "ely".data content != none then some default_path
      else some default_path

/-! ## Widgets, pixbufs and the object state -/

/-- The static callbacks that are connected to signals. -/
inductive Callback where
  | on_button_enter_static
  | on_button_leave_static
  | on_workspace_click_static
  | on_key_press_static
  | on_destroy_static
  deriving DecidableEq, Repr

/-- The kinds of widget the program creates. An image may hold a pixbuf (a pointer
into the pixbuf heap), on which it owns one reference. -/
inductive WidgetKind where
  | button
  | label (text : String)
  | image (pixbuf : Option Nat)
  | window
  | box
  deriving DecidableEq, Repr

/-- A GTK widget, as far as the program touches it. -/
structure Widget where
  kind : WidgetKind
  /-- The children of a container, as `gtk_container_get_children` lists them. -/
  children : List Nat
  /-- The argument pair of the last `gtk_widget_set_size_request`. -/
  size_request : Option (Int × Int)
  /-- Whether `gtk_button_set_relief(.., GTK_RELIEF_NONE)` was called. -/
  relief_none : Bool
  /-- The style classes, in the order added. -/
  classes : List String
  /-- The signal connections, in the order made. -/
  signals : List (String × Callback)
  /-- The mask of the last `gtk_widget_set_events`. -/
  events : Nat
  /-- The key/value pairs of `g_object_set_data`, latest first. -/
  data : List (String × Int)
  visible : Bool
  destroyed : Bool
  deriving DecidableEq, Repr

/-- The members of `WorkspaceSwitcher` (lines 23-52), the two heaps, the children of the
`GtkFixed` with their positions, and the two function-local `static int current_workspace`. -/
structure State where
  /-- The widget heap: a `GtkWidget*` is an index into it. -/
  widgets : List Widget
  /-- The pixbuf heap: a `GdkPixbuf*` is an index into it, the entry is the reference count. -/
  pixbufs : List Nat
  /-- The children of `fixed` in the order put, each with its position. -/
  fixed_children : List (Nat × Int × Int)
  tooltip_window : Option Nat
  tooltip_label : Option Nat
  tooltip_image : Option Nat
  workspace_icon_cache : List (Int × Option Nat)
  app_icon_cache : List (Int × List (Option Nat))
  theme_icon_cache : List (String × Option Nat)
  app_icon_widgets : List (Int × List Nat)
  workspace_app_classes : List (Int × List String)
  workspace_buttons : List (Int × Nat)
  fade_in_complete : Bool
  fade_timeout_id : Nat
  app_icon_loader_id : Nat
  workspace_icon_loader_id : Nat
  screen_width : Int
  screen_height : Int
  center_x : Int
  center_y : Int
  radius : Int
  button_size : Int
  icon_size : Int
  app_icon_size : Int
  special_button_size : Int
  workspace_icon_path : String
  /-- The `static int current_workspace` of `load_workspace_icons_async` (line 187). -/
  icons_current_workspace : Int
  /-- The `static int current_workspace` of `load_app_icons_async` (line 246). -/
  apps_current_workspace : Int
  /-- The effects so far, oldest first. -/
  log : List Effect
  /-- The left margin of the tooltip window, as last set by `gtk_layer_set_margin`. -/
  tooltip_margin_left : Int
  /-- The top margin of the tooltip window, as last set by `gtk_layer_set_margin`. -/
  tooltip_margin_top : Int
  deriving DecidableEq, Repr

/-- The lookup `m.find(k)` of an `unordered_map`, `none` for `end()`. -/
def map_find {κ ν : Type} [DecidableEq κ] (k : κ) : List (κ × ν) → Option ν
  | [] => none
  | (k1, v1) :: rest => if k1 = k then some v1 else map_find k rest

/-- The assignment `m[k] = v` of an `unordered_map`: the entry of `k` is replaced, or
added when there is none. -/
def map_assign {κ ν : Type} [DecidableEq κ] (k : κ) (v : ν) : List (κ × ν) → List (κ × ν)
  | [] => [(k, v)]
  | (k1, v1) :: rest => if k1 = k then (k, v) :: rest else (k1, v1) :: map_assign k v rest

/-- The keys of a map. -/
def map_keys {κ ν : Type} (m : List (κ × ν)) : List κ := m.map Prod.fst

/-- The heap with the object at `i` replaced by its image under `f`. -/
def heap_update {α : Type} (f : α → α) : Nat → List α → List α
  | _, [] => []
  | 0, a :: rest => f a :: rest
  | i + 1, a :: rest => a :: heap_update f i rest

namespace State

/-- The state with one more effect recorded. -/
def emit (s : State) (e : Effect) : State := { s with log := s.log ++ [e] }

/-- The state with the widget `w` changed by `f`. -/
def update_widget (s : State) (w : Nat) (f : Widget → Widget) : State :=
  { s with widgets := heap_update f w s.widgets }

/-- A new widget: its pointer and the state holding it. -/
def new_widget (s : State) (w : Widget) : Nat × State :=
  (s.widgets.length, { s with widgets := s.widgets ++ [w] })

/-- A new pixbuf with one reference: its pointer and the state holding it. -/
def new_pixbuf (s : State) : Nat × State :=
  (s.pixbufs.length, { s with pixbufs := s.pixbufs ++ [1] })

/-- The call `g_object_ref(pixbuf)`. -/
def g_object_ref (s : State) (pixbuf : Nat) : State :=
  { s with pixbufs := heap_update (fun n => n + 1) pixbuf s.pixbufs }

/-- The call `g_object_unref(pixbuf)`. -/
def g_object_unref (s : State) (pixbuf : Nat) : State :=
  { s with pixbufs := heap_update (fun n => n - 1) pixbuf s.pixbufs }

end State

/-- A widget of the given kind with nothing set. -/
def blank_widget (kind : WidgetKind) : Widget :=
  { kind := kind, children := [], size_request := none, relief_none := false, classes := [],
    signals := [], events := 0, data := [], visible := false, destroyed := false }

/-- The call `gtk_button_new_with_label(text)`: a label, and a button whose only child it is. -/
def gtk_button_new_with_label (text : String) (s : State) : Nat × State :=
  let label := s.new_widget (blank_widget (WidgetKind.label text))
  label.2.new_widget { blank_widget WidgetKind.button with children := [label.1] }

/-- The call `gtk_image_new_from_pixbuf(pixbuf)`: the image takes a reference of its own. -/
def gtk_image_new_from_pixbuf (pixbuf : Nat) (s : State) : Nat × State :=
  (s.g_object_ref pixbuf).new_widget (blank_widget (WidgetKind.image (some pixbuf)))

/-- The calls `gtk_style_context_add_class(gtk_widget_get_style_context(w), name)`. -/
def add_class (w : Nat) (name : String) (s : State) : State :=
  s.update_widget w (fun x => { x with classes := x.classes ++ [name] })

/-- The call `g_signal_connect(w, signal, G_CALLBACK(handler), this)`. -/
def g_signal_connect (w : Nat) (signal : String) (handler : Callback) (s : State) : State :=
  s.update_widget w (fun x => { x with signals := x.signals ++ [(signal, handler)] })

/-- The call `g_object_set_data(G_OBJECT(w), key, GINT_TO_POINTER(value))`. -/
def g_object_set_data (w : Nat) (key : String) (value : Int) (s : State) : State :=
  s.update_widget w (fun x => { x with data := (key, value) :: x.data })

/-- The value `GPOINTER_TO_INT(g_object_get_data(G_OBJECT(w), key))`: 0 for a null pointer. -/
def g_object_get_data (w : Nat) (key : String) (s : State) : Int :=
  match s.widgets[w]? with
  | none => 0
  | some x => (map_find key x.data).getD 0

/-- The call `gtk_fixed_put(GTK_FIXED(fixed), w, x, y)`. -/
def gtk_fixed_put (w : Nat) (x y : Int) (s : State) : State :=
  { s with fixed_children := s.fixed_children ++ [(w, x, y)] }

/-- The call `gtk_widget_show(w)`. -/
def gtk_widget_show (w : Nat) (s : State) : State :=
  s.update_widget w (fun x => { x with visible := true })

/-- The call `gtk_container_add(GTK_CONTAINER(parent), child)`. -/
def gtk_container_add (parent child : Nat) (s : State) : State :=
  s.update_widget parent (fun x => { x with children := x.children ++ [child] })

/-- The call `gtk_widget_destroy(w)` on a widget without children: it leaves every
container, gives up the reference on its pixbuf if it is an image, and is marked destroyed. -/
def gtk_widget_destroy (w : Nat) (s : State) : State :=
  let released := match s.widgets[w]? with
    | some { kind := WidgetKind.image (some pixbuf), .. } => s.g_object_unref pixbuf
    | _ => s
  { released with
    widgets := heap_update (fun x => { x with destroyed := true }) w
      (released.widgets.map (fun x => { x with children := x.children.filter (fun c => c != w) })),
    fixed_children := released.fixed_children.filter (fun p => p.1 != w) }

/-- The mask `GDK_ENTER_NOTIFY_MASK | GDK_LEAVE_NOTIFY_MASK` (bits 12 and 13). -/
def enter_leave_mask : Nat := 4096 + 8192

/-! ## Buttons -/

/-- One round of the loop of lines 509-529, for the loop variable `i`. -/
def create_ring_button (env : Env) (i : Int) (s : State) : State :=
  let x := env.ring_cos s.center_x s.radius i
  let y := env.ring_sin s.center_y s.radius i
  let created := gtk_button_new_with_label (to_string i) s
  let button := created.1
  let s1 := created.2.update_widget button
    (fun w => { w with size_request := some (s.button_size, s.button_size) })
  let s2 := s1.update_widget button (fun w => { w with relief_none := true })
  let s3 := add_class button "workspace-button" s2
  let s4 := add_class button ("workspace-" ++ to_string i) s3
  let s5 := g_signal_connect button "enter-notify-event" Callback.on_button_enter_static s4
  let s6 := g_signal_connect button "leave-notify-event" Callback.on_button_leave_static s5
  let s7 := s6.update_widget button (fun w => { w with events := enter_leave_mask })
  let s8 := g_object_set_data button "workspace" i s7
  let s9 := g_signal_connect button "clicked" Callback.on_workspace_click_static s8
  let s10 := gtk_fixed_put button (x - s.button_size.tdiv 2) (y - s.button_size.tdiv 2) s9
  { s10 with workspace_buttons := map_assign i button s10.workspace_buttons }

/-- The loop `for (int i = ...; i <= 12; i++)` of line 509, entered with the loop variable
at `i`; `fuel` bounds the number of rounds. -/
def create_ring_buttons (env : Env) : Nat → Int → State → State
  | 0, _, s => s
  | fuel + 1, i, s =>
    if i ≤ 12 then create_ring_buttons env fuel (i + 1) (create_ring_button env i s) else s

/-- The centre button of lines 531-548. -/
def create_special_button (s : State) : State :=
  let created := gtk_button_new_with_label "13" s
  let special_button := created.1
  let s1 := created.2.update_widget special_button
    (fun w => { w with size_request := some (s.special_button_size, s.special_button_size) })
  let s2 := s1.update_widget special_button (fun w => { w with relief_none := true })
  let s3 := add_class special_button "workspace-button" s2
  let s4 := add_class special_button "workspace-13" s3
  let s5 := g_signal_connect special_button "enter-notify-event" Callback.on_button_enter_static s4
  let s6 := g_signal_connect special_button "leave-notify-event" Callback.on_button_leave_static s5
  let s7 := s6.update_widget special_button (fun w => { w with events := enter_leave_mask })
  let s8 := g_object_set_data special_button "workspace" 13 s7
  let s9 := g_signal_connect special_button "clicked" Callback.on_workspace_click_static s8
  let s10 := gtk_fixed_put special_button (s.center_x - s.special_button_size.tdiv 2)
    (s.center_y - s.special_button_size.tdiv 2) s9
  { s10 with workspace_buttons := map_assign 13 special_button s10.workspace_buttons }

/-- The method `create_workspace_buttons_minimal` (lines 507-549): the loop starts at
`i = 1`, then the centre button is made. The loop leaves by its condition after 12
rounds, so 13 rounds of fuel are more than it uses. -/
def create_workspace_buttons_minimal (env : Env) (s : State) : State :=
  create_special_button (create_ring_buttons env 13 1 s)

/-- The callback `on_workspace_click_static` (lines 1076-1081) for a click on `button`. -/
def on_workspace_click_static (env : Env) (button : Nat) (s : State) : Calls :=
  let workspace := g_object_get_data button "workspace" s
  dispatch_and_quit env workspace

/-! ## Workspace icons -/

/-- The block of lines 224-234: the first child of the button, if any, is destroyed and
an image of the pixbuf is added and shown. -/
def set_button_icon (button pixbuf : Nat) (s : State) : State :=
  let children := match s.widgets[button]? with
    | some w => w.children
    | none => []
  let s1 := match children with
    | child :: _ => gtk_widget_destroy child s
    | [] => s
  let image := gtk_image_new_from_pixbuf pixbuf s1
  let s2 := add_class image.1 "workspace-icon" image.2
  let s3 := gtk_container_add button image.1 s2
  gtk_widget_show image.1 s3

/-- Lines 214-241 of `load_workspace_icon`, entered with the answer `loaded` of the
decoder: a non-null pixbuf is a new object with one reference. -/
def store_loaded_icon (loaded : LoadResult) (workspace_id : Int) (s0 : State) : State :=
  let made := if loaded.pixbuf then (some s0.new_pixbuf.1, s0.new_pixbuf.2) else (none, s0)
  if loaded.error then made.2
  else
    match made.1 with
    | none => made.2
    | some pixbuf =>
      let s1 := match map_find workspace_id made.2.workspace_buttons with
        | some button => set_button_icon button pixbuf made.2
        | none => made.2
      { s1 with workspace_icon_cache := map_assign workspace_id (some pixbuf) s1.workspace_icon_cache }

/-- The method `load_workspace_icon` (lines 198-242), for a call of
`std::filesystem::exists` (line 200) that returns. -/
def load_workspace_icon (env : Env) (workspace_id : Int) (s : State) : State :=
  let image_path := s.workspace_icon_path ++ to_string workspace_id ++ ".png"
  let s0 := s.emit (Effect.fs_exists image_path)
  if !env.fs_exists image_path then s0
  else
    let current_icon_size := if workspace_id = 13 then env.times_1_8 s.icon_size else s.icon_size
    store_loaded_icon
      (env.gdk_pixbuf_new_from_file_at_size image_path current_icon_size current_icon_size)
      workspace_id s0

/-- The command of lines 356-363. -/
def classes_command (workspace_id : Int) : String :=
  if workspace_id = 13 then
    "hyprctl clients -j 2>/dev/null | jq -r '.[] | select(.workspace.name == \"special:elysia\") | .class' 2>/dev/null"
  else
    "hyprctl clients -j 2>/dev/null | jq -r '.[] | select(.workspace.id == "
      ++ to_string workspace_id ++ ") | .class' 2>/dev/null"

/-- The loop `while (fgets(buffer, size, pipe) != nullptr)` of lines 369-377 and 439-447:
each chunk loses one trailing newline and is kept when something is left; `fuel` bounds
the number of chunks read. -/
def read_entries (size : Nat) : Nat → List Char → List String
  | 0, _ => []
  | fuel + 1, stream =>
    match fgets size stream with
    | none => []
    | some (buffer, rest) =>
      let entry := c_str buffer
      let entry := if entry.getLast? = some '\n' then entry.dropLast else entry
      if entry ≠ [] then String.mk entry :: read_entries size fuel rest
      else read_entries size fuel rest

/-- The method `get_workspace_app_classes` (lines 353-380). Every `fgets` that succeeds
consumes a character, so as many rounds as the output has characters are enough. -/
def get_workspace_app_classes (env : Env) (workspace_id : Int) (s : State) : List String × State :=
  let command := classes_command workspace_id
  match env.popen command with
  | none => ([], s.emit (Effect.popen command))
  | some output => (read_entries 128 output.length output.data, s.emit (Effect.popen command))

/-- The names tried when the icon of the class cannot be loaded (line 405). -/
def fallbacks : List String :=
  ["application-x-executable", "application-default-icon", "application", "window", "folder"]

/-- One `gtk_icon_theme_load_icon` call: the pointer returned (a new pixbuf with one
reference, or null), the state, and whether `error` was set. -/
def load_icon (env : Env) (name : String) (s : State) : Option Nat × State × Bool :=
  let loaded := env.gtk_icon_theme_load_icon name s.app_icon_size
  if loaded.pixbuf then (some s.new_pixbuf.1, s.new_pixbuf.2, loaded.error)
  else (none, s, loaded.error)

/-- The loop of lines 408-414 over the names still to try, from the current `pixbuf`. -/
def try_fallbacks (env : Env) : List String → Option Nat × State → Option Nat × State
  | [], current => current
  | fallback :: rest, current =>
    let got := load_icon env fallback current.2
    if got.1.isSome && !got.2.2 then (got.1, got.2.1)
    else try_fallbacks env rest (got.1, got.2.1)

/-- Lines 394-415 of `get_app_icon`: the icon of the class, or of its lower-case
spelling when the theme has none under the class name, then the fallbacks if `error` was set. -/
def lookup_icon (env : Env) (app_class : String) (s : State) : Option Nat × State :=
  let icon_name :=
    if !env.gtk_icon_theme_has_icon app_class then app_class.map Char.toLower else app_class
  let got := load_icon env icon_name s
  if got.2.2 then try_fallbacks env fallbacks (got.1, got.2.1) else (got.1, got.2.1)

/-- Lines 417-421 of `get_app_icon`: the result is cached, with a reference of its own
when it is not null. -/
def cache_icon (app_class : String) (final : Option Nat × State) : Option Nat × State :=
  let s1 := match final.1 with
    | some pixbuf => final.2.g_object_ref pixbuf
    | none => final.2
  (final.1, { s1 with theme_icon_cache := map_assign app_class final.1 s1.theme_icon_cache })

/-- The method `get_app_icon` (lines 382-422): the pointer returned and the new state. -/
def get_app_icon (env : Env) (app_class : String) (s : State) : Option Nat × State :=
  if app_class = "" then (none, s)
  else
    match map_find app_class s.theme_icon_cache with
    | some (some cached) => (some cached, s.g_object_ref cached)
    | some none => (none, s)
    | none => cache_icon app_class (lookup_icon env app_class s)

/-- What the loop of lines 279-300 carries: the two vectors and the object state. -/
structure IconLoop where
  workspace_app_icons : List (Option Nat)
  workspace_icon_widgets : List Nat
  state : State

/-- The loop of lines 279-300 over the classes still to visit, `j` being the loop variable. -/
def place_app_icons (env : Env) (workspace_id base_x base_y start_offset icon_spacing : Int) :
    List String → Int → IconLoop → IconLoop
  | [], _, acc => acc
  | app_class :: rest, j, acc =>
    let got := get_app_icon env app_class acc.state
    match got.1 with
    | none =>
      place_app_icons env workspace_id base_x base_y start_offset icon_spacing rest (j + 1)
        { acc with state := got.2 }
    | some app_icon =>
      let icon_x := base_x + start_offset + (j * icon_spacing) - got.2.app_icon_size.tdiv 2
      let icon_y := if workspace_id = 13 then base_y else base_y + got.2.button_size.tdiv 2 + 10
      let image := gtk_image_new_from_pixbuf app_icon got.2
      let s1 := add_class image.1 "app-icon" image.2
      let s2 := gtk_fixed_put image.1 icon_x icon_y s1
      let s3 := gtk_widget_show image.1 s2
      let s4 := s3.g_object_ref app_icon
      let s5 := s4.g_object_unref app_icon
      place_app_icons env workspace_id base_x base_y start_offset icon_spacing rest (j + 1)
        { workspace_app_icons := acc.workspace_app_icons ++ [some app_icon],
          workspace_icon_widgets := acc.workspace_icon_widgets ++ [image.1],
          state := s5 }

/-- Lines 301-306 of `load_workspace_app_icons`: the vectors are stored when an icon was placed. -/
def store_app_icons (workspace_id : Int) (app_classes : List String) (done : IconLoop) : State :=
  if done.workspace_app_icons ≠ [] then
    { done.state with
      app_icon_cache := map_assign workspace_id done.workspace_app_icons done.state.app_icon_cache,
      app_icon_widgets := map_assign workspace_id done.workspace_icon_widgets done.state.app_icon_widgets,
      workspace_app_classes := map_assign workspace_id app_classes done.state.workspace_app_classes }
  else done.state

/-- The method `load_workspace_app_icons` (lines 257-307). -/
def load_workspace_app_icons (env : Env) (workspace_id : Int) (s : State) : State :=
  let queried := get_workspace_app_classes env workspace_id s
  let app_classes := queried.1
  let s0 := queried.2
  if app_classes = [] then s0
  else
    let base_x := if workspace_id = 13 then s0.center_x
      else env.ring_cos s0.center_x s0.radius workspace_id
    let base_y := if workspace_id = 13 then s0.center_y + s0.special_button_size.tdiv 2 + 20
      else env.ring_sin s0.center_y s0.radius workspace_id
    let max_icons : Int := min 4 (app_classes.length : Int)
    let icon_spacing : Int := max 20 (s0.app_icon_size + 5)
    let start_offset : Int := (-(max_icons - 1) * icon_spacing).tdiv 2
    store_app_icons workspace_id app_classes
      (place_app_icons env workspace_id base_x base_y start_offset icon_spacing
        (app_classes.take max_icons.toNat) 0
        { workspace_app_icons := [], workspace_icon_widgets := [], state := s0 })

/-- The method `calculate_dimensions` (lines 64-81). The product `button_size * 2` stays
within `int`, as `button_size` is 120 or the `int` made of 0.08 times an `int`. -/
def calculate_dimensions (env : Env) (s : State) : State :=
  let screen_width := env.gdk_screen_get_width
  let screen_height := env.gdk_screen_get_height
  let min_dimension := min screen_width screen_height
  let button_size := max 120 (env.times_0_08 min_dimension)
  { s with
    screen_width := screen_width,
    screen_height := screen_height,
    center_x := screen_width.tdiv 2,
    center_y := screen_height.tdiv 2,
    radius := max 200 (env.times_0_40 min_dimension),
    button_size := button_size,
    icon_size := max 50 (env.times_0_83 button_size),
    app_icon_size := max 16 (env.times_0_17 button_size),
    special_button_size := button_size * 2 }

/-- The loop `for (auto* pixbuf : v) if (pixbuf) g_object_unref(pixbuf);` over the
pointers still to visit. -/
def unref_all : List (Option Nat) → State → State
  | [], s => s
  | none :: rest, s => unref_all rest s
  | some pixbuf :: rest, s => unref_all rest (s.g_object_unref pixbuf)

/-- The nested loop of lines 173-177 over the entries of `app_icon_cache` still to visit. -/
def unref_vectors : List (Int × List (Option Nat)) → State → State
  | [], s => s
  | pair :: rest, s => unref_vectors rest (unref_all pair.2 s)

/-- The method `cleanup_caches` (lines 167-183). An `unordered_map` is visited in the
order of its entries here. -/
def cleanup_caches (s : State) : State :=
  let s1 := unref_all (s.workspace_icon_cache.map Prod.snd) s
  let s2 := { s1 with workspace_icon_cache := [] }
  let s3 := unref_vectors s2.app_icon_cache s2
  let s4 := { s3 with app_icon_cache := [] }
  let s5 := unref_all (s4.theme_icon_cache.map Prod.snd) s4
  { s5 with theme_icon_cache := [] }

/-! ## Tooltip -/

/-- The command of lines 428-435. -/
def titles_command (workspace_id : Int) : String :=
  if workspace_id = 13 then
    "hyprctl clients -j 2>/dev/null | jq -r '.[] | select(.workspace.name == \"special:elysia\") | .title' 2>/dev/null"
  else
    "hyprctl clients -j 2>/dev/null | jq -r '.[] | select(.workspace.id == "
      ++ to_string workspace_id ++ ") | .title' 2>/dev/null"

/-- The method `get_workspace_apps` (lines 425-450). Every `fgets` that succeeds consumes
a character, so as many rounds as the output has characters are enough. -/
def get_workspace_apps (env : Env) (workspace_id : Int) (s : State) : List String × State :=
  let command := titles_command workspace_id
  match env.popen command with
  | none => ([], s.emit (Effect.popen command))
  | some output => (read_entries 256 output.length output.data, s.emit (Effect.popen command))

/-- The mask `GDK_KEY_PRESS_MASK` (bit 10). -/
def key_press_mask : Nat := 1024

/-- The method `create_tooltip` (lines 452-479): a window holding a box that holds an
empty image and an empty label. Window hints, layer-shell settings and box margins have
no place in `Widget` and are left out. -/
def create_tooltip (s : State) : State :=
  let window := s.new_widget (blank_widget WidgetKind.window)
  let vbox := window.2.new_widget (blank_widget WidgetKind.box)
  let image := vbox.2.new_widget (blank_widget (WidgetKind.image none))
  let s1 := gtk_container_add vbox.1 image.1 image.2
  let label := s1.new_widget (blank_widget (WidgetKind.label ""))
  let s2 := gtk_container_add vbox.1 label.1 label.2
  let s3 := gtk_container_add window.1 vbox.1 s2
  let s4 := add_class window.1 "tooltip-window" s3
  let s5 := s4.update_widget window.1 (fun w => { w with events := w.events ||| key_press_mask })
  let s6 := g_signal_connect window.1 "key-press-event" Callback.on_key_press_static s5
  { s6 with tooltip_window := some window.1, tooltip_image := some image.1,
            tooltip_label := some label.1 }

/-- The function `get_screenshot_path` (lines 331-333). -/
def get_screenshot_path (workspace_id : Int) : String :=
  "/tmp/workspace_previews/workspace_" ++ to_string workspace_id ++ ".png"

/-- The method `create_workspace_thumbnail_from_path` (lines 335-351), for a call of
`std::filesystem::exists` (line 336) that returns: the pointer returned and the new
state. The height `static_cast<int>(thumb_width * 9.0 / 16.0)` is
exact in `double` (an `int` times 9, divided by a power of two), hence the truncated quotient. -/
def create_workspace_thumbnail_from_path (env : Env) (screenshot_path : String) (s : State) :
    Option Nat × State :=
  if screenshot_path = "" then (none, s)
  else
    let s0 := s.emit (Effect.fs_exists screenshot_path)
    if !env.fs_exists screenshot_path then (none, s0)
    else
      let thumb_width := max 200 (s.screen_width.tdiv 6)
      let thumb_height := max 112 ((thumb_width * 9).tdiv 16)
      let loaded := env.gdk_pixbuf_new_from_file_at_size screenshot_path thumb_width thumb_height
      let made := if loaded.pixbuf then (some s0.new_pixbuf.1, s0.new_pixbuf.2) else (none, s0)
      if loaded.error then
        (none, made.2.emit (Effect.cerr ("Error creating thumbnail: " ++ env.thumbnail_error)))
      else made

/-- A GTK call on a member pointer: on a null pointer the call returns without effect. -/
def on_member (member : Option Nat) (call : Nat → State → State) (s : State) : State :=
  match member with
  | some w => call w s
  | none => s

/-- The state after an image widget gave up the reference on the pixbuf it shows, if any. -/
def release_shown (image : Nat) (s : State) : State :=
  match s.widgets[image]? with
  | some { kind := WidgetKind.image (some old), .. } => s.g_object_unref old
  | _ => s

/-- The call `gtk_image_set_from_pixbuf(GTK_IMAGE(image), pixbuf)`: the image takes a
reference on the new pixbuf and gives up the one on the old. -/
def gtk_image_set_from_pixbuf (pixbuf image : Nat) (s : State) : State :=
  (release_shown image (s.g_object_ref pixbuf)).update_widget image
    (fun w => { w with kind := WidgetKind.image (some pixbuf) })

/-- The call `gtk_image_clear(GTK_IMAGE(image))`. -/
def gtk_image_clear (image : Nat) (s : State) : State :=
  (release_shown image s).update_widget image (fun w => { w with kind := WidgetKind.image none })

/-- The call `gtk_widget_hide(w)`. -/
def gtk_widget_hide (w : Nat) (s : State) : State :=
  s.update_widget w (fun x => { x with visible := false })

/-- The call `gtk_label_set_text(GTK_LABEL(label), text)`. -/
def gtk_label_set_text (text : String) (label : Nat) (s : State) : State :=
  s.update_widget label (fun w => { w with kind := WidgetKind.label text })

/-- The widget `w` and everything below it, down to `depth` levels. -/
def descendants (s : State) : Nat → Nat → List Nat
  | 0, w => [w]
  | depth + 1, w =>
    match s.widgets[w]? with
    | none => [w]
    | some x => w :: (x.children.map (descendants s depth)).flatten

/-- The call `gtk_widget_show_all(w)`: the widget and everything below it is shown. No
widget lies deeper than the heap has widgets. -/
def gtk_widget_show_all (w : Nat) (s : State) : State :=
  (descendants s s.widgets.length w).foldl (fun acc x => gtk_widget_show x acc) s

/-- Lines 558-575 of `show_tooltip`: the thumbnail is set and shown when the workspace has
apps and a screenshot decodes, the image is cleared and hidden otherwise. -/
def show_thumbnail (env : Env) (workspace_id : Int) (apps : List String) (s : State) : State :=
  if apps ≠ [] then
    let made := create_workspace_thumbnail_from_path env (get_screenshot_path workspace_id) s
    match made.1 with
    | some thumbnail =>
      let s1 := on_member made.2.tooltip_image (gtk_image_set_from_pixbuf thumbnail) made.2
      let s2 := on_member s1.tooltip_image gtk_widget_show s1
      s2.g_object_unref thumbnail
    | none =>
      let s1 := on_member made.2.tooltip_image gtk_image_clear made.2
      on_member s1.tooltip_image gtk_widget_hide s1
  else
    let s1 := on_member s.tooltip_image gtk_image_clear s
    on_member s1.tooltip_image gtk_widget_hide s1

/-- The marker in front of every title (line 586): a newline, the seven bytes the source
holds between the quotes, and a space. -/
def bullet : String := "\n\xc3\xa2\xe2\x82\xac\xc2\xa2 "

/-- Lines 577-588 of `show_tooltip`: the text for the label. -/
def tooltip_text (workspace_id : Int) (apps : List String) : String :=
  let header := "Workspace " ++ to_string workspace_id
  let header := if workspace_id = 13 then "Special Workspace (Elysia)" else header
  if apps = [] then header ++ "\nNothing"
  else
    apps.foldl (fun text app => text ++ (bullet ++ app))
      (header ++ (" (" ++ to_string (apps.length : Int) ++ " apps):"))

/-- The least value of a C++ `int`, of 32 bits. -/
def INT_MIN : Int := -2147483648

/-- The greatest value of a C++ `int`, of 32 bits. -/
def INT_MAX : Int := 2147483647

/-- The `int` that stands for the integer `n`: the value between `INT_MIN` and `INT_MAX`
that differs from `n` by a multiple of `2^32`. -/
def wrap_int (n : Int) : Int := (n + 2147483648) % 4294967296 - 2147483648

/-- The C++ sum `a + b` of two `int`. The language leaves the sum undefined when it
overflows; what is given for it then is what two's-complement hardware computes. -/
def int_add (a b : Int) : Int := wrap_int (a + b)

/-- The C++ difference `a - b` of two `int`, with overflow as in `int_add`. -/
def int_sub (a b : Int) : Int := wrap_int (a - b)

/-- Lines 595-628 of `show_tooltip`: the final `x` and `y` for a tooltip of the given size,
every sum and difference computed on `int`, in the order of the source. -/
def tooltip_position (s : State) (workspace_id x y : Int) (tooltip_size : Int × Int) : Int × Int :=
  if workspace_id = 13 then
    let x := s.center_x
    let y := int_add (int_add s.center_y (s.special_button_size.tdiv 2)) 20
    let x :=
      if int_add x tooltip_size.1 > s.screen_width then
        int_sub (int_sub s.screen_width tooltip_size.1) 10
      else x
    let y :=
      if y < 10 then 10
      else if int_add y tooltip_size.2 > int_sub s.screen_height 10 then
        int_sub (int_sub s.screen_height tooltip_size.2) 10
      else y
    (x, y)
  else
    let x := int_sub x (tooltip_size.1.tdiv 2)
    let y := int_sub (int_sub y tooltip_size.2) 40
    let x :=
      if int_add x tooltip_size.1 > s.screen_width then
        int_sub (int_sub s.screen_width tooltip_size.1) 10
      else x
    let x := if x < 10 then 10 else x
    let y := if y < 10 then int_add (int_add y tooltip_size.2) 80 else y
    let y :=
      if int_add y tooltip_size.2 > s.screen_height then
        int_sub (int_sub s.screen_height tooltip_size.2) 10
      else y
    (x, y)

/-- The method `show_tooltip` (lines 551-632). -/
def show_tooltip (env : Env) (workspace_id x y : Int) (s : State) : State :=
  match s.tooltip_window with
  | none => s
  | some window =>
    let queried := get_workspace_apps env workspace_id s
    let apps := queried.1
    let s1 := show_thumbnail env workspace_id apps queried.2
    let s2 := on_member s1.tooltip_label (gtk_label_set_text (tooltip_text workspace_id apps)) s1
    let s3 := gtk_widget_show_all window s2
    let place := tooltip_position s3 workspace_id x y env.preferred_size
    { s3 with tooltip_margin_left := place.1, tooltip_margin_top := place.2 }

/-- The method `hide_tooltip` (lines 634-638). -/
def hide_tooltip (s : State) : State :=
  on_member s.tooltip_window gtk_widget_hide s

/-! ## Reference data for the statements -/

/-- An outside world in which nothing exists, no pipe opens and every command returns 0;
the screen is 1920x1080 and the tooltip asks for 200x100. -/
def quiet_env : Env :=
  { HOME := none, fs_exists := fun _ => false, fs_exists_throws := fun _ => false,
    ifstream := fun _ => none,
    popen := fun _ => none, system := fun _ => 0,
    gdk_pixbuf_new_from_file_at_size := fun _ _ _ => { error := true, pixbuf := false },
    gtk_icon_theme_has_icon := fun _ => false,
    gtk_icon_theme_load_icon := fun _ _ => { error := true, pixbuf := false },
    ring_cos := fun center _ _ => center, ring_sin := fun center _ _ => center,
    times_1_8 := fun n => n, gdk_screen_get_width := 1920, gdk_screen_get_height := 1080,
    times_0_40 := fun n => (2 * n).tdiv 5, times_0_08 := fun n => (2 * n).tdiv 25,
    times_0_83 := fun n => (83 * n).tdiv 100, times_0_17 := fun n => (17 * n).tdiv 100,
    preferred_size := (200, 100), thumbnail_error := "" }

/-- The outside world in which the two `activewindow` queries print the given lines. -/
def window_env (id_line name_line : String) : Env :=
  { quiet_env with
    popen := fun command =>
      if command = id_command then some id_line
      else if command = name_command then some name_line
      else none }

/-- The key map as the specification words it: key, workspace. -/
def claimed_key_map : List (Nat × Int) :=
  [(GDK_KEY_1, 1), (GDK_KEY_2, 2), (GDK_KEY_3, 3), (GDK_KEY_4, 4), (GDK_KEY_5, 5),
   (GDK_KEY_6, 6), (GDK_KEY_7, 7), (GDK_KEY_8, 8), (GDK_KEY_9, 9), (GDK_KEY_0, 10),
   (GDK_KEY_minus, 11), (GDK_KEY_equal, 12), (GDK_KEY_BackSpace, 13)]

/-- The outside world with home directory `/home/u` whose marker file holds `marker`. -/
def marker_env (marker : String) : Env :=
  { quiet_env with
    HOME := some "/home/u",
    fs_exists := fun path => path = "/home/u/.config/hypr/Light.txt",
    ifstream := fun path => if path = "/home/u/.config/hypr/Light.txt" then some marker else none }

/-- The outside world with home directory `/home/u` in which the status of the marker file
cannot be determined: `std::filesystem::exists` throws on it. -/
def unsearchable_env : Env :=
  { marker_env "cyrene\n" with
    fs_exists_throws := fun path => path = "/home/u/.config/hypr/Light.txt" }

/-- What IEEE 754 double arithmetic gives for the four conversions of
`calculate_dimensions`: for every `int` value `n`, `static_cast<int>(n * 0.40)` is
`2 * n / 5`, `static_cast<int>(n * 0.08)` is `2 * n / 25`, `static_cast<int>(n * 0.83)` is
`83 * n / 100` and `static_cast<int>(n * 0.17)` is `17 * n / 100`, with the division of
C++, which drops the fraction. The four equations hold at each of the `2^32` values of
`n`: the rounded product never falls on the other side of a whole number than the exact
one. -/
def ieee_products (env : Env) : Prop :=
  ∀ n : Int, INT_MIN ≤ n → n ≤ INT_MAX →
    env.times_0_40 n = (2 * n).tdiv 5
      ∧ env.times_0_08 n = (2 * n).tdiv 25
      ∧ env.times_0_83 n = (83 * n).tdiv 100
      ∧ env.times_0_17 n = (17 * n).tdiv 100

/-- An outside world whose screen is as wide and as high as an `int` can say, with a
tooltip ten pixels narrower than the screen. -/
def widest_screen_env : Env :=
  { quiet_env with
    gdk_screen_get_width := 2147483647
    gdk_screen_get_height := 2147483647
    preferred_size := (2147483637, 100) }

/-- The condition of the specification: the marker file exists, can be opened, and the
concatenation of its lines contains `cyrene`. -/
def cyrene_marked (env : Env) : Prop :=
  env.fs_exists (env.HOME.getD "" ++ "/.config/hypr/Light.txt") = true
    ∧ ∃ file, env.ifstream (env.HOME.getD "" ++ "/.config/hypr/Light.txt") = some file
        ∧ "cyrene".data <:+: file.data.filter (fun c => c != '\n')

/-- The button that the creation code leaves behind: child `label`, square size request,
relief off, two classes, three signals, enter/leave events and the workspace datum. -/
def finished_button (label : Nat) (size : Int) (cls : String) (datum : Int) : Widget :=
  { kind := WidgetKind.button, children := [label], size_request := some (size, size),
    relief_none := true, classes := ["workspace-button", cls],
    signals := [("enter-notify-event", Callback.on_button_enter_static),
                ("leave-notify-event", Callback.on_button_leave_static),
                ("clicked", Callback.on_workspace_click_static)],
    events := enter_leave_mask, data := [("workspace", datum)], visible := false,
    destroyed := false }

/-- The widgets that `rounds` rounds of the ring loop append, starting at loop variable
`i` with a heap of `base` widgets: per round a label and its button. -/
def ring_widgets (size : Int) : Nat → Int → Nat → List Widget
  | 0, _, _ => []
  | rounds + 1, i, base =>
    blank_widget (WidgetKind.label (to_string i))
      :: finished_button base size ("workspace-" ++ to_string i) i
      :: ring_widgets size rounds (i + 1) (base + 2)

/-- The positions at which `rounds` rounds of the ring loop put their buttons. -/
def ring_places (env : Env) (center_x center_y radius size : Int) :
    Nat → Int → Nat → List (Nat × Int × Int)
  | 0, _, _ => []
  | rounds + 1, i, base =>
    (base + 1, env.ring_cos center_x radius i - size.tdiv 2,
      env.ring_sin center_y radius i - size.tdiv 2)
      :: ring_places env center_x center_y radius size rounds (i + 1) (base + 2)

/-- The button map after `rounds` rounds of the ring loop. -/
def ring_assign : Nat → Int → Nat → List (Int × Nat) → List (Int × Nat)
  | 0, _, _, m => m
  | rounds + 1, i, base, m => ring_assign rounds (i + 1) (base + 2) (map_assign i (base + 1) m)

/-- The button stored for workspace `i` after `create_workspace_buttons_minimal`, when the
heap held `base` widgets before. -/
def button_of (base : Nat) (i : Int) : Nat := base + (2 * i.toNat - 1)

/-- A switcher on a 1920x1080 screen before any button exists: empty heaps, empty maps,
the sizes `calculate_dimensions` gives there, both loader counters at 1. -/
def blank_state : State :=
  { widgets := [], pixbufs := [], fixed_children := [], tooltip_window := none,
    tooltip_label := none, tooltip_image := none, workspace_icon_cache := [],
    app_icon_cache := [], theme_icon_cache := [], app_icon_widgets := [],
    workspace_app_classes := [], workspace_buttons := [], fade_in_complete := false,
    fade_timeout_id := 0, app_icon_loader_id := 0, workspace_icon_loader_id := 0,
    screen_width := 1920, screen_height := 1080, center_x := 960, center_y := 540,
    radius := 432, button_size := 120, icon_size := 99, app_icon_size := 20,
    special_button_size := 240, workspace_icon_path := "/home/u/.config/Elysia/assets/workspace/",
    icons_current_workspace := 1, apps_current_workspace := 1, log := [],
    tooltip_margin_left := 0, tooltip_margin_top := 0 }

/-- The part of the state that widget and pixbuf operations leave alone: the two loader
counters, the icon directory and the effect log. -/
def State.frame (s : State) : Int × Int × String × List Effect :=
  (s.icons_current_workspace, s.apps_current_workspace, s.workspace_icon_path, s.log)

/-- The outside world in which every file exists and no image decodes. -/
def broken_png_env : Env :=
  { quiet_env with fs_exists := fun _ => true }

/-- The outside world in which every file exists and every image decodes. -/
def good_png_env : Env :=
  { quiet_env with
    fs_exists := fun _ => true
    gdk_pixbuf_new_from_file_at_size := fun _ _ _ => { error := false, pixbuf := true } }

/-- The reference count of the pixbuf at `p`, 0 outside the heap. -/
def refcount (s : State) (p : Nat) : Nat := (s.pixbufs[p]?).getD 0

/-- The non-null pointers stored in the three pixbuf caches, one per slot that holds one:
those of `workspace_icon_cache`, of the vectors of `app_icon_cache`, of `theme_icon_cache`. -/
def cached_pixbufs (s : State) : List Nat :=
  (s.workspace_icon_cache.map Prod.snd ++ (s.app_icon_cache.map Prod.snd).flatten
    ++ s.theme_icon_cache.map Prod.snd).filterMap id

/-- The heap after one `g_object_unref` for every pointer of the list, in order. -/
def unref_each (released : List Nat) (heap : List Nat) : List Nat :=
  released.foldl (fun h p => heap_update (fun n => n - 1) p h) heap

/-- The convention of GLib loaders: `error` is set exactly when the result is null. -/
def loader_contract (env : Env) : Prop :=
  ∀ name size, (env.gtk_icon_theme_load_icon name size).error
    = !(env.gtk_icon_theme_load_icon name size).pixbuf

/-- Every pixbuf the theme cache answers with lies in the heap. -/
def theme_cache_valid (s : State) : Prop :=
  ∀ c p, map_find c s.theme_icon_cache = some (some p) → p < s.pixbufs.length

/-- The state after a run of `get_app_icon` calls, each with its own outside world and class. -/
def icon_calls : List (Env × String) → State → State
  | [], s => s
  | call :: rest, s => icon_calls rest (get_app_icon call.1 call.2 s).2

/-- The cached pointer handed out again: with a reference more when it is not null. -/
def hand_out (entry : Option Nat) (s : State) : State :=
  match entry with
  | some pixbuf => s.g_object_ref pixbuf
  | none => s

/-- The part of the state that `show_tooltip` reads and only its last step may change: the
tooltip pointers, the screen geometry and the number of widgets. -/
def State.layout (s : State) : Option Nat × Option Nat × Option Nat × Int × Int × Int × Int × Int × Nat :=
  (s.tooltip_window, s.tooltip_label, s.tooltip_image, s.screen_width, s.screen_height,
    s.center_x, s.center_y, s.special_button_size, s.widgets.length)

/-- The screen geometry that the tooltip position depends on. -/
def State.geometry (s : State) : Int × Int × Int × Int × Int :=
  (s.screen_width, s.screen_height, s.center_x, s.center_y, s.special_button_size)

/-- The outside world with a screen of the given size and a tooltip of the given size. -/
def screen_env (screen tooltip : Int × Int) : Env :=
  { quiet_env with
    gdk_screen_get_width := screen.1
    gdk_screen_get_height := screen.2
    preferred_size := tooltip }

/-- A switcher in the given outside world right after its buttons and its tooltip were made. -/
def ready_state (env : Env) : State :=
  create_tooltip (create_workspace_buttons_minimal env (calculate_dimensions env blank_state))

/-- The tooltip text as the specification words it: the header, then `Nothing` on a line of
its own for no title, else the count and one marked line per title, in order. -/
def claimed_tooltip_text (workspace_id : Int) (titles : List String) : String :=
  (if workspace_id = 13 then "Special Workspace (Elysia)"
    else "Workspace " ++ to_string workspace_id)
    ++ (if titles = [] then "\nNothing"
        else " (" ++ to_string (titles.length : Int) ++ " apps):"
          ++ (titles.map (fun title => bullet ++ title)).foldr (fun line rest => line ++ rest) "")

/-- The quiet outside world in which workspace 2 holds the windows `Firefox` and `kitty`. -/
def titles_env : Env :=
  { quiet_env with
    popen := fun command => if command = titles_command 2 then some "Firefox\nkitty\n" else none }

/-- An outside world with a screen 200 wide and 100 high, and a tooltip 50 wide and 85 high. -/
def low_screen_env : Env := screen_env (200, 100) (50, 85)

/-- An outside world with a 1920x1080 screen and a tooltip 300 wide and 600 high. -/
def tall_tooltip_env : Env := screen_env (1920, 1080) (300, 600)

/-- The string that lines 651-655 (and 668-671) make of an output: what `fgets` stores of
it in a buffer of 128, cut at the first NUL, without trailing newlines, carriage returns
and spaces. -/
def first_line_stripped (output : String) : List Char :=
  strip_back is_nl_cr_space (c_str (fgets_take 127 output.data).1)

/-! ### Reference data for the entries of a pipe -/

/-- The lines of an output, each with its newline when it has one. -/
def raw_lines : List Char → List (List Char)
  | [] => []
  | c :: rest =>
    if c = '\n' then [c] :: raw_lines rest
    else
      match raw_lines rest with
      | [] => [[c]]
      | line :: more => (c :: line) :: more

/-- A line without its newline. -/
def without_newline (line : List Char) : List Char :=
  if line.getLast? = some '\n' then line.dropLast else line

/-- The entries as the specification words them: the lines of the output that are not
empty, in order, each without its newline. -/
def claimed_entries (output : List Char) : List String :=
  (((raw_lines output).map without_newline).filter (fun line => decide (line ≠ []))).map String.mk

/-- The outside world in which every query prints the given output. -/
def output_env (output : String) : Env :=
  { quiet_env with popen := fun _ => some output }

/-! ### Reference data for the application icons -/

/-- The image widget of one application icon as the loop leaves it (lines 291-295). -/
def app_icon_image (pixbuf : Nat) : Widget :=
  { blank_widget (WidgetKind.image (some pixbuf)) with classes := ["app-icon"], visible := true }

/-- The pixbufs held by the images among the widgets, one per image that holds one. -/
def image_pixbufs (widgets : List Widget) : List Nat :=
  widgets.filterMap (fun w =>
    match w.kind with
    | WidgetKind.image (some pixbuf) => some pixbuf
    | _ => none)

/-- The pixbufs of the images created between two states. -/
def new_images (s done : State) : List Nat :=
  image_pixbufs (done.widgets.drop s.widgets.length)

/-- The entries added to the theme cache between two states. -/
def new_theme_entries (s done : State) : List (String × Option Nat) :=
  done.theme_icon_cache.drop s.theme_icon_cache.length

/-- What the loop of `load_workspace_app_icons` adds between two states: image widgets
for the pixbufs `placed`, the theme-cache entries `entries`, and for every pixbuf two
references per image placed (the image and the vector slot) and one per theme-cache slot. -/
def accounts (s t : State) (placed : List Nat) (entries : List (String × Option Nat)) : Prop :=
  t.widgets = s.widgets ++ placed.map app_icon_image
    ∧ t.theme_icon_cache = s.theme_icon_cache ++ entries
    ∧ t.app_icon_cache = s.app_icon_cache
    ∧ t.workspace_icon_cache = s.workspace_icon_cache
    ∧ (∀ p, refcount t p = refcount s p + 2 * placed.count p
        + (entries.map Prod.snd).count (some p))

/-- An outside world for workspace 2: the windows are of the classes Firefox, kitty and
Firefox again; the icon theme answers that it has every icon and loads the icon `Firefox`
only. -/
def firefox_env : Env :=
  { quiet_env with
    popen := fun command =>
      if command = classes_command 2 then some "Firefox\nkitty\nFirefox\n" else none
    gtk_icon_theme_has_icon := fun _ => true
    gtk_icon_theme_load_icon := fun name _ =>
      if name = "Firefox" then { error := false, pixbuf := true }
      else { error := true, pixbuf := false } }

/-- What `get_app_icon` reads of the state: the theme cache, the size of the pixbuf heap
(the next pointer) and `app_icon_size`. -/
def State.icon_view (s : State) : List (String × Option Nat) × Nat × Int :=
  (s.theme_icon_cache, s.pixbufs.length, s.app_icon_size)

/-- The pointers returned by a run of `get_app_icon` calls, in order. -/
def icon_results : List (Env × String) → State → List (Option Nat)
  | [], _ => []
  | call :: rest, s =>
    (get_app_icon call.1 call.2 s).1 :: icon_results rest (get_app_icon call.1 call.2 s).2

/-- The positions of the icons placed for a list of returned pointers: the pointer of index
`j` goes to `slot j` when it is not null, and a null pointer leaves its slot empty. -/
def claimed_slots (slot : Int → Int × Int) : List (Option Nat) → Int → List (Int × Int)
  | [], _ => []
  | none :: rest, j => claimed_slots slot rest (j + 1)
  | some _ :: rest, j => slot j :: claimed_slots slot rest (j + 1)

/-- The position of the icon of loop index `j` (lines 282-290), given the values of the
local variables and of the two members read. -/
def icon_slot (workspace_id base_x base_y start_offset icon_spacing app_icon_size button_size : Int)
    (j : Int) : Int × Int :=
  (base_x + start_offset + (j * icon_spacing) - app_icon_size.tdiv 2,
    if workspace_id = 13 then base_y else base_y + button_size.tdiv 2 + 10)

/-- The `get_app_icon` calls for the first four classes of a list, in order. -/
def requested (env : Env) (app_classes : List String) : List (Env × String) :=
  (app_classes.take 4).map (fun c => (env, c))

/-- The slot of loop index `j` in `load_workspace_app_icons` for a workspace with `n`
classes, with the values that lines 264-278 give to the local variables. -/
def app_icon_slot (env : Env) (workspace_id : Int) (s : State) (n : Nat) (j : Int) : Int × Int :=
  icon_slot workspace_id
    (if workspace_id = 13 then s.center_x else env.ring_cos s.center_x s.radius workspace_id)
    (if workspace_id = 13 then s.center_y + s.special_button_size.tdiv 2 + 20
      else env.ring_sin s.center_y s.radius workspace_id)
    ((-(min 4 (n : Int) - 1) * max 20 (s.app_icon_size + 5)).tdiv 2)
    (max 20 (s.app_icon_size + 5)) s.app_icon_size s.button_size j

/-- The outside world in which the title query of every workspace prints one line: the
given title and a newline. -/
def one_title_env (title : List Char) : Env :=
  output_env (String.mk (title ++ ['\n']))

/-! ## Construction and hover -/

/-- The constructor (lines 125-152), run on an object whose three tooltip pointers hold
the given values: they have no initializer (lines 25-27) and main's `WorkspaceSwitcher app;`
gives them none, and no line of the constructor assigns them. The maps and the members
with an initializer start as declared (lines 29-41); then come `calculate_dimensions`, the
icon path, the buttons, `gtk_widget_show_all(window)`, which shows the buttons, and the
ids of the timer and of the two idle loaders, as GLib hands them back. The main window,
its layer-shell settings and the style sheet have no place in `State`. When line 128
throws, the constructor does not complete and there is no object: what is given here for
such a world, with the path left empty, is the state of no run. -/
def switcher_constructor (env : Env) (source_ids : Nat × Nat × Nat)
    (tooltip_window tooltip_label tooltip_image : Option Nat) : State :=
  let s0 := { blank_state with
    tooltip_window := tooltip_window, tooltip_label := tooltip_label,
    tooltip_image := tooltip_image }
  let s1 := calculate_dimensions env s0
  let s2 := { s1 with workspace_icon_path := (determine_workspace_icon_path env).getD "" }
  let s3 := create_workspace_buttons_minimal env s2
  let s4 := s3.fixed_children.foldl (fun acc child => gtk_widget_show_all child.1 acc) s3
  { s4 with
    fade_timeout_id := source_ids.1, workspace_icon_loader_id := source_ids.2.1,
    app_icon_loader_id := source_ids.2.2 }

/-- The tick of `fade_in_timeout` on which the opacity reaches 1 (lines 319-325). -/
def fade_in_timeout_last (s : State) : State :=
  { s with fade_in_complete := true, fade_timeout_id := 0 }

/-- The callback `on_button_enter_static` (lines 1041-1065) for the pointer entering
`button`: the new state and the `gboolean` returned. The point `anchor` is what lines
1055-1061 compute from the allocation of the button and the position of the window. -/
def on_button_enter_static (env : Env) (anchor : Int × Int) (button : Nat) (s : State) :
    State × Bool :=
  let workspace := g_object_get_data button "workspace" s
  if !s.fade_in_complete then (s, false)
  else
    let tooltip_x := if workspace = 13 then s.center_x else anchor.1
    let tooltip_y :=
      if workspace = 13 then s.center_y + s.special_button_size.tdiv 2 else anchor.2
    (show_tooltip env workspace tooltip_x tooltip_y s, false)

/-! ### Reference data for the tooltip image -/

/-- The children of every widget, in heap order. -/
def State.tree (s : State) : List (List Nat) :=
  s.widgets.map (fun w => w.children)

/-- The shape `create_tooltip` builds: `window` holds `box`, `box` holds `image`, the three
members point to the window, to the image, and not with `tooltip_label` to the image. -/
def tooltip_tree (s : State) (window box image : Nat) : Prop :=
  s.tooltip_window = some window ∧ s.tooltip_image = some image
    ∧ s.tooltip_label ≠ some image ∧ window ≠ box ∧ image < s.tree.length
    ∧ (∃ cs, s.tree[window]? = some cs ∧ box ∈ cs)
    ∧ (∃ cs, s.tree[box]? = some cs ∧ image ∈ cs)

/-- The quiet outside world in which every file exists and every image decodes, and
workspace 2 holds the windows `Firefox` and `kitty`. -/
def preview_env : Env :=
  { good_png_env with
    popen := fun command => if command = titles_command 2 then some "Firefox\nkitty\n" else none }

/-! ## Theorems -/

/-! ### Dispatch -/

theorem system_calls_append (a b : List Effect) :
    system_calls (a ++ b) = system_calls a ++ system_calls b := by
  induction a with
  | nil => rfl
  | cons e rest ih => cases e <;> simp [system_calls, ih]

theorem system_calls_special_by_name (env : Env) :
    system_calls (special_by_name env).2 = [] := by
  unfold special_by_name
  split
  · rfl
  · split <;> rfl

theorem system_calls_is_special (env : Env) :
    system_calls (is_currently_on_special_workspace env).2 = [] := by
  unfold is_currently_on_special_workspace
  split
  · rfl
  · split
    · rfl
    · dsimp only
      split
      · rfl
      · simp [system_calls, system_calls_special_by_name]

theorem system_calls_debug (env : Env) (n : Int) (b : Bool) :
    system_calls (switch_debug env n b) = [] := by
  unfold switch_debug
  split
  · rfl
  · split <;> rfl

/-- The flag is true in some outside world: the active window sits on workspace -98. -/
theorem is_on_special_true_example :
    (is_currently_on_special_workspace (window_env "-98\n" "special:elysia\n")).1 = true := by
  decide

/-- The flag is false in some outside world: the active window sits on workspace 3. -/
theorem is_on_special_false_example :
    (is_currently_on_special_workspace (window_env "3\n" "3\n")).1 = false := by
  decide

/-- C1: for every outside world (hence every value of the flag that
`is_currently_on_special_workspace` returns there) and every workspace number `n`,
`switch_workspace` hands exactly one command to `system()`: the toggle of special
workspace `elysia` when `n = 13`; otherwise, when the flag is true, the single `bash -c`
command that toggles and then (`&&`) dispatches workspace `n`; otherwise the plain
dispatch of workspace `n`, with `n` in decimal. -/
theorem switch_workspace_system_calls (env : Env) (n : Int) :
    system_calls (switch_workspace env n) =
      [if n = 13 then "hyprctl dispatch togglespecialworkspace elysia &"
       else if (is_currently_on_special_workspace env).1 = true then
         "bash -c \"hyprctl dispatch togglespecialworkspace elysia && hyprctl dispatch workspace "
           ++ to_string n ++ "\" &"
       else "hyprctl dispatch workspace " ++ to_string n ++ " &"] := by
  unfold switch_workspace
  rw [system_calls_append, system_calls_append, system_calls_is_special, system_calls_debug]
  unfold switch_dispatch
  by_cases h13 : n = 13
  · simp [h13, system_calls, toggle_command]
    split <;> simp [system_calls]
  · by_cases hs : (is_currently_on_special_workspace env).1 = true
    · simp [h13, hs, system_calls, combined_command]
      split <;> simp [system_calls]
    · simp [h13, hs, system_calls, workspace_command]
      split <;> simp [system_calls]

/-- The three commands of `switch_workspace` on concrete inputs, with the number printed in decimal. -/
theorem switch_workspace_examples :
    system_calls (switch_workspace (window_env "3\n" "3\n") 13)
        = ["hyprctl dispatch togglespecialworkspace elysia &"]
      ∧ system_calls (switch_workspace (window_env "3\n" "3\n") 12)
        = ["hyprctl dispatch workspace 12 &"]
      ∧ system_calls (switch_workspace (window_env "-98\n" "special:elysia\n") 7)
        = ["bash -c \"hyprctl dispatch togglespecialworkspace elysia && hyprctl dispatch workspace 7\" &"] := by
  refine ⟨?_, ?_, ?_⟩ <;> decide

/-- A key of the key map runs `switch_workspace(n); gtk_main_quit(); return TRUE;`. -/
theorem on_key_press_of_mem (env : Env) (keyval : Nat) (n : Int)
    (h : (keyval, n) ∈ claimed_key_map) :
    on_key_press env keyval = (dispatch_and_quit env n, true) := by
  simp only [claimed_key_map, List.mem_cons, Prod.mk.injEq, List.mem_singleton, List.mem_nil_iff,
    or_false] at h
  rcases h with h | h | h | h | h | h | h | h | h | h | h | h | h <;>
    (obtain ⟨hk, hn⟩ := h
     subst hk
     subst hn
     rfl)

/-- A key outside the switch falls to `default: return FALSE;`. -/
theorem on_key_press_of_not_mem (env : Env) (keyval : Nat) (hesc : keyval ≠ GDK_KEY_Escape)
    (hmap : keyval ∉ claimed_key_map.map Prod.fst) :
    on_key_press env keyval = ({ dispatched := [], effects := [] }, false) := by
  simp only [claimed_key_map, List.map_cons, List.map_nil, List.mem_cons, List.mem_singleton,
    List.mem_nil_iff, or_false, not_or] at hmap
  obtain ⟨h1, h2, h3, h4, h5, h6, h7, h8, h9, h10, h11, h12, h13⟩ := hmap
  simp only [on_key_press, hesc, h1, h2, h3, h4, h5, h6, h7, h8, h9, h10, h11, h12, h13, if_false]

/-- Only BackSpace dispatches workspace 13. -/
theorem key_for_13 (env : Env) (keyval : Nat)
    (h : (on_key_press env keyval).1.dispatched = [13]) : keyval = GDK_KEY_BackSpace := by
  by_cases hesc : keyval = GDK_KEY_Escape
  · subst hesc
    have h0 : (on_key_press env GDK_KEY_Escape).1.dispatched = [] := rfl
    rw [h0] at h
    exact absurd h (by decide)
  · by_cases hmem : keyval ∈ claimed_key_map.map Prod.fst
    · obtain ⟨p, hp, hk⟩ := List.mem_map.mp hmem
      obtain ⟨k, n⟩ := p
      simp only at hk
      subst hk
      rw [on_key_press_of_mem env k n hp] at h
      have hn : n = 13 := by simpa [dispatch_and_quit] using h
      subst hn
      simp only [claimed_key_map, List.mem_cons, Prod.mk.injEq, List.mem_singleton,
        List.mem_nil_iff, or_false] at hp
      rcases hp with hp | hp | hp | hp | hp | hp | hp | hp | hp | hp | hp | hp | hp
      all_goals first
        | exact hp.1
        | exact absurd hp.2 (by decide)
    · rw [on_key_press_of_not_mem env keyval hesc hmem] at h
      exact absurd h (by decide)

/-- The workspaces of the key map lie in 1..13. -/
theorem claimed_key_map_range (keyval : Nat) (n : Int) (h : (keyval, n) ∈ claimed_key_map) :
    1 ≤ n ∧ n ≤ 13 := by
  simp only [claimed_key_map, List.mem_cons, Prod.mk.injEq, List.mem_singleton, List.mem_nil_iff,
    or_false] at h
  rcases h with h | h | h | h | h | h | h | h | h | h | h | h | h <;>
    (obtain ⟨_, hn⟩ := h
     subst hn
     exact ⟨by decide, by decide⟩)

/-- C2: for every pair (key, workspace) of the key map 1..9 -> 1..9, 0 -> 10,
minus -> 11, equal -> 12, BackSpace -> 13, `on_key_press` calls `switch_workspace` once,
with that workspace, then `gtk_main_quit`, and returns TRUE; the workspace lies in 1..13. -/
theorem on_key_press_dispatches (env : Env) (keyval : Nat) (n : Int)
    (h : (keyval, n) ∈ claimed_key_map) :
    on_key_press env keyval
        = ({ dispatched := [n], effects := switch_workspace env n ++ [Effect.gtk_main_quit] }, true)
      ∧ 1 ≤ n ∧ n ≤ 13 :=
  ⟨on_key_press_of_mem env keyval n h, claimed_key_map_range keyval n h⟩

/-- Witness for C2, at the key `0`: workspace 10 is dispatched. -/
theorem on_key_press_dispatches_witness :
    on_key_press quiet_env GDK_KEY_0
        = ({ dispatched := [10],
             effects := switch_workspace quiet_env 10 ++ [Effect.gtk_main_quit] }, true)
      ∧ (1 : Int) ≤ 10 ∧ (10 : Int) ≤ 13 :=
  on_key_press_dispatches quiet_env GDK_KEY_0 10 (by decide)

/-- C3: for Escape `on_key_press` calls `gtk_main_quit` without any call of
`switch_workspace` (no command reaches `system()`) and returns TRUE; for a key that is
neither Escape nor one of the thirteen keys of the key map it returns FALSE, calls
nothing and has no effect. -/
theorem on_key_press_escape_or_unhandled (env : Env) :
    on_key_press env GDK_KEY_Escape
        = ({ dispatched := [], effects := [Effect.gtk_main_quit] }, true)
      ∧ system_calls (on_key_press env GDK_KEY_Escape).1.effects = []
      ∧ ∀ keyval : Nat, keyval ≠ GDK_KEY_Escape → keyval ∉ claimed_key_map.map Prod.fst →
          on_key_press env keyval = ({ dispatched := [], effects := [] }, false) :=
  ⟨rfl, rfl, on_key_press_of_not_mem env⟩

/-- Witness for C3, at the key `a` (0x61), which is not handled. -/
theorem on_key_press_escape_or_unhandled_witness :
    on_key_press quiet_env 0x61 = ({ dispatched := [], effects := [] }, false) :=
  (on_key_press_escape_or_unhandled quiet_env).2.2 0x61 (by decide) (by decide)

/-- Counterexample to C4 as stated, at workspace 11: none of the ten digit keys `GDK_KEY_0 + d`,
`d = 0, ..., 9`, makes `on_key_press` call `switch_workspace(11)`. -/
theorem no_digit_key_dispatches_11 :
    (List.range 10).all
      (fun d => decide ((on_key_press quiet_env (GDK_KEY_0 + d)).1.dispatched ≠ [11])) = true := by
  decide

/-- C4, amended: every workspace 1..10 is reached by a digit key and every digit key
reaches a workspace in 1..10; workspaces 11 and 12 are reached by the keys minus and
equal, which are no digit keys; workspace 13 is reached by BackSpace and by no other
key, and BackSpace is no digit key. -/
theorem digit_keys_reach_1_to_10 (env : Env) :
    (∀ n : Int, 1 ≤ n → n ≤ 10 →
        ∃ keyval, GDK_KEY_0 ≤ keyval ∧ keyval ≤ GDK_KEY_9
          ∧ (on_key_press env keyval).1.dispatched = [n])
      ∧ (∀ keyval, GDK_KEY_0 ≤ keyval → keyval ≤ GDK_KEY_9 →
          ∃ n : Int, 1 ≤ n ∧ n ≤ 10 ∧ (on_key_press env keyval).1.dispatched = [n])
      ∧ (on_key_press env GDK_KEY_minus).1.dispatched = [11]
      ∧ (on_key_press env GDK_KEY_equal).1.dispatched = [12]
      ∧ (GDK_KEY_minus < GDK_KEY_0 ∧ GDK_KEY_9 < GDK_KEY_equal)
      ∧ (∀ keyval, (on_key_press env keyval).1.dispatched = [13] ↔ keyval = GDK_KEY_BackSpace)
      ∧ GDK_KEY_9 < GDK_KEY_BackSpace := by
  refine ⟨?_, ?_, rfl, rfl, by decide, ?_, by decide⟩
  · intro n h1 h10
    obtain rfl | rfl | rfl | rfl | rfl | rfl | rfl | rfl | rfl | rfl :
        n = 1 ∨ n = 2 ∨ n = 3 ∨ n = 4 ∨ n = 5 ∨ n = 6 ∨ n = 7 ∨ n = 8 ∨ n = 9 ∨ n = 10 := by
      omega
    · exact ⟨GDK_KEY_1, by decide, by decide, rfl⟩
    · exact ⟨GDK_KEY_2, by decide, by decide, rfl⟩
    · exact ⟨GDK_KEY_3, by decide, by decide, rfl⟩
    · exact ⟨GDK_KEY_4, by decide, by decide, rfl⟩
    · exact ⟨GDK_KEY_5, by decide, by decide, rfl⟩
    · exact ⟨GDK_KEY_6, by decide, by decide, rfl⟩
    · exact ⟨GDK_KEY_7, by decide, by decide, rfl⟩
    · exact ⟨GDK_KEY_8, by decide, by decide, rfl⟩
    · exact ⟨GDK_KEY_9, by decide, by decide, rfl⟩
    · exact ⟨GDK_KEY_0, by decide, by decide, rfl⟩
  · intro keyval hlo hhi
    have hlo1 : 48 ≤ keyval := hlo
    have hhi1 : keyval ≤ 57 := hhi
    interval_cases keyval
    · exact ⟨10, by decide, by decide, rfl⟩
    · exact ⟨1, by decide, by decide, rfl⟩
    · exact ⟨2, by decide, by decide, rfl⟩
    · exact ⟨3, by decide, by decide, rfl⟩
    · exact ⟨4, by decide, by decide, rfl⟩
    · exact ⟨5, by decide, by decide, rfl⟩
    · exact ⟨6, by decide, by decide, rfl⟩
    · exact ⟨7, by decide, by decide, rfl⟩
    · exact ⟨8, by decide, by decide, rfl⟩
    · exact ⟨9, by decide, by decide, rfl⟩
  · intro keyval
    exact ⟨key_for_13 env keyval, fun h => by subst h; rfl⟩

/-- Witness for C4 as amended, in the quiet outside world: key `0` reaches workspace 10 and the only
key for 13 is BackSpace. -/
theorem digit_keys_reach_1_to_10_witness :
    (∃ keyval, GDK_KEY_0 ≤ keyval ∧ keyval ≤ GDK_KEY_9
        ∧ (on_key_press quiet_env keyval).1.dispatched = [10])
      ∧ (on_key_press quiet_env GDK_KEY_BackSpace).1.dispatched = [13] :=
  ⟨(digit_keys_reach_1_to_10 quiet_env).1 10 (by decide) (by decide),
   ((digit_keys_reach_1_to_10 quiet_env).2.2.2.2.2.1 GDK_KEY_BackSpace).2 rfl⟩

/-! ### Buttons -/

/-- Updating behind a prefix leaves the prefix alone. -/
theorem heap_update_append {α : Type} (f : α → α) (l r : List α) (k : Nat) :
    heap_update f (l.length + k) (l ++ r) = l ++ heap_update f k r := by
  induction l with
  | nil => simp
  | cons a l ih =>
    have : (a :: l).length + k = (l.length + k) + 1 := by simp only [List.length_cons]; omega
    rw [this]
    simp [heap_update, ih]

/-- Updating the newer of two objects just pushed. -/
theorem heap_update_last_of_two {α : Type} (f : α → α) (l : List α) (a b : α) :
    heap_update f (l.length + 1) (l ++ [a, b]) = l ++ [a, f b] := by
  rw [heap_update_append]
  rfl

/-- One round of the ring loop in closed form: a label and its finished button are pushed,
the button is put at its ring position and stored under `i`. -/
theorem create_ring_button_eq (env : Env) (i : Int) (s : State) :
    create_ring_button env i s =
      { s with
        widgets := s.widgets ++ [blank_widget (WidgetKind.label (to_string i)),
          finished_button s.widgets.length s.button_size ("workspace-" ++ to_string i) i],
        fixed_children := s.fixed_children ++
          [(s.widgets.length + 1, env.ring_cos s.center_x s.radius i - s.button_size.tdiv 2,
            env.ring_sin s.center_y s.radius i - s.button_size.tdiv 2)],
        workspace_buttons := map_assign i (s.widgets.length + 1) s.workspace_buttons } := by
  simp [create_ring_button, gtk_button_new_with_label, State.new_widget, State.update_widget,
    add_class, g_signal_connect, g_object_set_data, gtk_fixed_put, heap_update_last_of_two,
    finished_button, blank_widget]

/-- The centre button in closed form. -/
theorem create_special_button_eq (s : State) :
    create_special_button s =
      { s with
        widgets := s.widgets ++ [blank_widget (WidgetKind.label "13"),
          finished_button s.widgets.length s.special_button_size "workspace-13" 13],
        fixed_children := s.fixed_children ++
          [(s.widgets.length + 1, s.center_x - s.special_button_size.tdiv 2,
            s.center_y - s.special_button_size.tdiv 2)],
        workspace_buttons := map_assign 13 (s.widgets.length + 1) s.workspace_buttons } := by
  simp [create_special_button, gtk_button_new_with_label, State.new_widget, State.update_widget,
    add_class, g_signal_connect, g_object_set_data, gtk_fixed_put, heap_update_last_of_two,
    finished_button, blank_widget]

/-- The ring loop in closed form: entered at `i` with at least `13 - i` rounds of fuel,
it runs `13 - i` rounds and leaves by its condition. -/
theorem create_ring_buttons_eq (env : Env) (fuel : Nat) (i : Int) (s : State)
    (hfuel : 13 - i ≤ fuel) :
    create_ring_buttons env fuel i s =
      { s with
        widgets := s.widgets ++ ring_widgets s.button_size (13 - i).toNat i s.widgets.length,
        fixed_children := s.fixed_children ++
          ring_places env s.center_x s.center_y s.radius s.button_size (13 - i).toNat i
            s.widgets.length,
        workspace_buttons := ring_assign (13 - i).toNat i s.widgets.length s.workspace_buttons } := by
  induction fuel generalizing i s with
  | zero =>
    have h0 : (13 - i).toNat = 0 := by omega
    simp [create_ring_buttons, ring_widgets, ring_places, ring_assign, h0]
  | succ fuel ih =>
    unfold create_ring_buttons
    by_cases hi : i ≤ 12
    · have hr : (13 - i).toNat = (13 - (i + 1)).toNat + 1 := by omega
      rw [if_pos hi, ih _ _ (by omega), create_ring_button_eq, hr]
      simp [ring_widgets, ring_places, ring_assign]
    · have h0 : (13 - i).toNat = 0 := by omega
      rw [if_neg hi, h0]
      simp [ring_widgets, ring_places, ring_assign]

/-- The ring loop does not depend on the fuel once there is enough of it. -/
theorem create_ring_buttons_fuel (env : Env) (fuel : Nat) (s : State) (hfuel : 12 ≤ fuel) :
    create_ring_buttons env fuel 1 s = create_ring_buttons env 12 1 s := by
  rw [create_ring_buttons_eq env fuel 1 s (by omega), create_ring_buttons_eq env 12 1 s (by omega)]

/-- The whole method in closed form. -/
theorem create_workspace_buttons_minimal_eq (env : Env) (s : State) :
    create_workspace_buttons_minimal env s =
      { s with
        widgets := s.widgets ++ (ring_widgets s.button_size 12 1 s.widgets.length ++
          [blank_widget (WidgetKind.label "13"),
           finished_button (s.widgets.length + 24) s.special_button_size "workspace-13" 13]),
        fixed_children := s.fixed_children ++
          (ring_places env s.center_x s.center_y s.radius s.button_size 12 1 s.widgets.length ++
            [(s.widgets.length + 25, s.center_x - s.special_button_size.tdiv 2,
              s.center_y - s.special_button_size.tdiv 2)]),
        workspace_buttons :=
          map_assign 13 (s.widgets.length + 25) (ring_assign 12 1 s.widgets.length s.workspace_buttons) } := by
  have hlen : ∀ (size : Int) (rounds : Nat) (i : Int) (base : Nat),
      (ring_widgets size rounds i base).length = 2 * rounds := by
    intro size rounds
    induction rounds with
    | zero => intro i base; rfl
    | succ rounds ih => intro i base; simp [ring_widgets, ih]; omega
  have h12 : ((13 : Int) - 1).toNat = 12 := by decide
  unfold create_workspace_buttons_minimal
  rw [create_ring_buttons_eq env 13 1 s (by omega), create_special_button_eq, h12]
  simp [hlen, add_assoc]

/-- After `m[k] = v` the lookup of `k` gives `v`. -/
theorem map_find_assign_same {κ ν : Type} [DecidableEq κ] (k : κ) (v : ν) (m : List (κ × ν)) :
    map_find k (map_assign k v m) = some v := by
  induction m with
  | nil => simp [map_assign, map_find]
  | cons p rest ih =>
    obtain ⟨k1, v1⟩ := p
    by_cases h : k1 = k
    · simp [map_assign, map_find, h]
    · simp [map_assign, map_find, h, ih]

/-- The assignment `m[k2] = v` leaves the other keys alone. -/
theorem map_find_assign_ne {κ ν : Type} [DecidableEq κ] (k k2 : κ) (v : ν) (m : List (κ × ν))
    (hne : k2 ≠ k) : map_find k (map_assign k2 v m) = map_find k m := by
  induction m with
  | nil => simp [map_assign, map_find, hne]
  | cons p rest ih =>
    obtain ⟨k1, v1⟩ := p
    by_cases h : k1 = k2
    · subst h
      simp [map_assign, map_find, hne]
    · by_cases h2 : k1 = k
      · subst h2
        simp [map_assign, map_find, h]
      · simp [map_assign, map_find, h, h2, ih]

/-- Reading behind a prefix. -/
theorem getElem?_append_add {α : Type} (l r : List α) (k : Nat) :
    (l ++ r)[l.length + k]? = r[k]? := by
  rw [List.getElem?_append_right (by omega)]
  congr 1
  omega

/-- For `i` in 1..13 the map holds the pointer `button_of base i`, and the heap holds there
the finished button with datum `i`. -/
theorem stored_button (env : Env) (s : State) (i : Int) (h1 : 1 ≤ i) (h13 : i ≤ 13) :
    map_find i (create_workspace_buttons_minimal env s).workspace_buttons
        = some (button_of s.widgets.length i)
      ∧ (create_workspace_buttons_minimal env s).widgets[button_of s.widgets.length i]?
        = some (finished_button (button_of s.widgets.length i - 1)
            (if i = 13 then s.special_button_size else s.button_size)
            ("workspace-" ++ to_string i) i) := by
  rw [create_workspace_buttons_minimal_eq]
  obtain rfl | rfl | rfl | rfl | rfl | rfl | rfl | rfl | rfl | rfl | rfl | rfl | rfl :
      i = 1 ∨ i = 2 ∨ i = 3 ∨ i = 4 ∨ i = 5 ∨ i = 6 ∨ i = 7 ∨ i = 8 ∨ i = 9 ∨ i = 10
        ∨ i = 11 ∨ i = 12 ∨ i = 13 := by omega
  all_goals
    refine ⟨?_, ?_⟩
    · simp [ring_assign, map_find_assign_same, map_find_assign_ne, button_of]
    · have hcls : "workspace-" ++ to_string 13 = "workspace-13" := by decide
      simp only [button_of]
      rw [getElem?_append_add]
      simp [ring_widgets, finished_button, add_assoc, hcls]

/-- C5: for every `i` in 1..13 the button stored under `workspace_buttons[i]` by
`create_workspace_buttons_minimal` (from any state) carries the workspace datum `i`, so a
click on it makes `on_workspace_click_static` call `switch_workspace(i)` once and then
`gtk_main_quit`. -/
theorem click_dispatches_stored_workspace (env world : Env) (s : State) (i : Int)
    (h1 : 1 ≤ i) (h13 : i ≤ 13) :
    ∃ button,
      map_find i (create_workspace_buttons_minimal env s).workspace_buttons = some button
        ∧ g_object_get_data button "workspace" (create_workspace_buttons_minimal env s) = i
        ∧ on_workspace_click_static world button (create_workspace_buttons_minimal env s)
          = { dispatched := [i], effects := switch_workspace world i ++ [Effect.gtk_main_quit] } := by
  obtain ⟨hfind, hwidget⟩ := stored_button env s i h1 h13
  have hdata : g_object_get_data (button_of s.widgets.length i) "workspace"
      (create_workspace_buttons_minimal env s) = i := by
    unfold g_object_get_data
    rw [hwidget]
    simp [finished_button, map_find]
  refine ⟨button_of s.widgets.length i, hfind, hdata, ?_⟩
  unfold on_workspace_click_static
  rw [hdata]
  rfl

/-- Witness for C5, at workspace 7 on a fresh 1920x1080 switcher. -/
theorem click_dispatches_stored_workspace_witness :
    ∃ button,
      map_find 7 (create_workspace_buttons_minimal quiet_env blank_state).workspace_buttons
          = some button
        ∧ g_object_get_data button "workspace"
            (create_workspace_buttons_minimal quiet_env blank_state) = 7
        ∧ on_workspace_click_static quiet_env button
            (create_workspace_buttons_minimal quiet_env blank_state)
          = { dispatched := [7],
              effects := switch_workspace quiet_env 7 ++ [Effect.gtk_main_quit] } :=
  click_dispatches_stored_workspace quiet_env quiet_env blank_state 7 (by decide) (by decide)

/-- C6: when `workspace_buttons` is empty before, `create_workspace_buttons_minimal` keeps
the widgets and the placements that exist, creates exactly 13 new buttons, puts exactly
13 widgets into the `GtkFixed`, these being the buttons it stores, and leaves
`workspace_buttons` with exactly the keys 1, 2, ..., 13. -/
theorem thirteen_buttons_created (env : Env) (s : State) (h : s.workspace_buttons = []) :
    (create_workspace_buttons_minimal env s).widgets.take s.widgets.length = s.widgets
      ∧ (((create_workspace_buttons_minimal env s).widgets.drop s.widgets.length).filter
          (fun w => w.kind = WidgetKind.button)).length = 13
      ∧ (create_workspace_buttons_minimal env s).fixed_children.take s.fixed_children.length
          = s.fixed_children
      ∧ ((create_workspace_buttons_minimal env s).fixed_children.drop
          s.fixed_children.length).length = 13
      ∧ ((create_workspace_buttons_minimal env s).fixed_children.drop
          s.fixed_children.length).map (fun p => p.1)
          = (create_workspace_buttons_minimal env s).workspace_buttons.map (fun p => p.2)
      ∧ map_keys (create_workspace_buttons_minimal env s).workspace_buttons
          = [1, 2, 3, 4, 5, 6, 7, 8, 9, 10, 11, 12, 13] := by
  rw [create_workspace_buttons_minimal_eq, h]
  refine ⟨by simp, ?_, by simp, ?_, ?_, ?_⟩
  · simp [ring_widgets, finished_button, blank_widget]
  · simp [ring_places]
  · simp [ring_places, ring_assign, map_assign, add_assoc]
  · simp [ring_assign, map_assign, map_keys]

/-- Witness for C6, on a fresh 1920x1080 switcher: 13 placements, keys 1..13. -/
theorem thirteen_buttons_created_witness :
    (create_workspace_buttons_minimal quiet_env blank_state).fixed_children.length = 13
      ∧ map_keys (create_workspace_buttons_minimal quiet_env blank_state).workspace_buttons
          = [1, 2, 3, 4, 5, 6, 7, 8, 9, 10, 11, 12, 13] :=
  ⟨(thirteen_buttons_created quiet_env blank_state rfl).2.2.2.1,
   (thirteen_buttons_created quiet_env blank_state rfl).2.2.2.2.2⟩

/-- Changing a widget leaves counters, icon directory and log alone. -/
@[simp]
theorem frame_update_widget (s : State) (w : Nat) (f : Widget → Widget) :
    (s.update_widget w f).frame = s.frame := rfl

/-- Creating a widget leaves counters, icon directory and log alone. -/
@[simp]
theorem frame_new_widget (s : State) (w : Widget) : (s.new_widget w).2.frame = s.frame := rfl

/-- Creating a pixbuf leaves counters, icon directory and log alone. -/
@[simp]
theorem frame_new_pixbuf (s : State) : s.new_pixbuf.2.frame = s.frame := rfl

/-- Taking a reference leaves counters, icon directory and log alone. -/
@[simp]
theorem frame_g_object_ref (s : State) (p : Nat) : (s.g_object_ref p).frame = s.frame := rfl

/-- Dropping a reference leaves counters, icon directory and log alone. -/
@[simp]
theorem frame_g_object_unref (s : State) (p : Nat) : (s.g_object_unref p).frame = s.frame := rfl

/-- Placing a widget leaves counters, icon directory and log alone. -/
@[simp]
theorem frame_gtk_fixed_put (w : Nat) (x y : Int) (s : State) :
    (gtk_fixed_put w x y s).frame = s.frame := rfl

/-- Destroying a widget leaves counters, icon directory and log alone. -/
@[simp]
theorem frame_gtk_widget_destroy (w : Nat) (s : State) :
    (gtk_widget_destroy w s).frame = s.frame := by
  unfold gtk_widget_destroy
  split <;> rfl

/-- Asking the icon theme leaves counters, icon directory and log alone. -/
@[simp]
theorem frame_load_icon (env : Env) (name : String) (s : State) :
    (load_icon env name s).2.1.frame = s.frame := by
  unfold load_icon
  simp only
  split <;> rfl

/-- Trying the fallback names leaves counters, icon directory and log alone. -/
@[simp]
theorem frame_try_fallbacks (env : Env) (names : List String) (current : Option Nat × State) :
    (try_fallbacks env names current).2.frame = current.2.frame := by
  induction names generalizing current with
  | nil => rfl
  | cons name rest ih =>
    unfold try_fallbacks
    simp only
    split
    · simp
    · rw [ih]
      simp

/-- Looking an icon up leaves counters, icon directory and log alone. -/
@[simp]
theorem frame_lookup_icon (env : Env) (app_class : String) (s : State) :
    (lookup_icon env app_class s).2.frame = s.frame := by
  unfold lookup_icon
  simp only
  split <;> split <;> simp

/-- Caching an icon leaves counters, icon directory and log alone. -/
@[simp]
theorem frame_cache_icon (app_class : String) (final : Option Nat × State) :
    (cache_icon app_class final).2.frame = final.2.frame := by
  obtain ⟨p, s⟩ := final
  cases p <;> rfl

/-- The method `get_app_icon` leaves counters, icon directory and log alone. -/
@[simp]
theorem frame_get_app_icon (env : Env) (app_class : String) (s : State) :
    (get_app_icon env app_class s).2.frame = s.frame := by
  unfold get_app_icon
  split
  · rfl
  · split
    · rfl
    · rfl
    · simp

/-- The call `haystack.find(needle)` finds something exactly when `needle` is a
contiguous part of `haystack`. -/
theorem find_ne_none_iff (needle hay : List Char) :
    find needle hay ≠ none ↔ needle <:+: hay := by
  induction hay with
  | nil =>
    unfold find
    by_cases h : needle.isPrefixOf [] = true
    · have hp : needle <+: [] := List.isPrefixOf_iff_prefix.mp h
      simp [h, hp.isInfix]
    · have hp : ¬ needle <+: [] := fun hp => h (List.isPrefixOf_iff_prefix.mpr hp)
      have hi : ¬ needle <:+: [] := by
        intro hi
        apply hp
        rw [List.infix_nil] at hi
        rw [hi]
      simp [h, hi]
  | cons c rest ih =>
    unfold find
    rw [List.infix_cons_iff]
    by_cases h : needle.isPrefixOf (c :: rest) = true
    · have hp : needle <+: c :: rest := List.isPrefixOf_iff_prefix.mp h
      simp [h, hp]
    · have hp : ¬ needle <+: c :: rest := fun hp => h (List.isPrefixOf_iff_prefix.mpr hp)
      rw [if_neg h]
      constructor
      · intro hne
        right
        apply ih.mp
        intro hnone
        apply hne
        rw [hnone]
        rfl
      · intro hor
        rcases hor with hor | hor
        · exact absurd hor hp
        · have := ih.mpr hor
          cases hf : find needle rest with
          | none => exact absurd hf this
          | some i => simp

/-- A successful `getline` splits off a newline-free line: what is left is shorter, and
dropping the newlines of the whole input gives the line followed by the newline-free rest. -/
theorem getline_some (file line after : List Char) (h : getline file = some (line, after)) :
    after.length < file.length
      ∧ file.filter (fun c => c != '\n') = line ++ after.filter (fun c => c != '\n') := by
  induction file generalizing line after with
  | nil => simp [getline] at h
  | cons c rest ih =>
    unfold getline at h
    by_cases hc : c = '\n'
    · simp only [hc, if_true, Option.some.injEq, Prod.mk.injEq] at h
      obtain ⟨h1, h2⟩ := h
      subst h1
      subst h2
      simp [hc]
    · rw [if_neg hc] at h
      cases hg : getline rest with
      | none =>
        rw [hg] at h
        simp only [Option.some.injEq, Prod.mk.injEq] at h
        obtain ⟨h1, h2⟩ := h
        subst h1
        subst h2
        have hrest : rest = [] := by
          cases rest with
          | nil => rfl
          | cons d r =>
            unfold getline at hg
            split at hg
            · simp at hg
            · split at hg <;> simp at hg
        subst hrest
        simp [hc]
      | some p =>
        obtain ⟨l2, a2⟩ := p
        rw [hg] at h
        simp only [Option.some.injEq, Prod.mk.injEq] at h
        obtain ⟨h1, h2⟩ := h
        subst h1
        subst h2
        obtain ⟨hlen, hfil⟩ := ih l2 a2 hg
        refine ⟨by simp only [List.length_cons]; omega, ?_⟩
        simp [hc, hfil]

/-- With enough rounds the reading loop yields the file without its newlines, that is,
the concatenation of its lines. -/
theorem read_content_eq_filter (fuel : Nat) (file : List Char) (h : file.length ≤ fuel) :
    read_content fuel file = file.filter (fun c => c != '\n') := by
  induction fuel generalizing file with
  | zero =>
    have : file = [] := List.length_eq_zero.mp (Nat.le_zero.mp h)
    subst this
    rfl
  | succ fuel ih =>
    unfold read_content
    cases hg : getline file with
    | none =>
      cases file with
      | nil => rfl
      | cons c rest =>
        unfold getline at hg
        split at hg
        · simp at hg
        · split at hg <;> simp at hg
    | some p =>
      obtain ⟨line, after⟩ := p
      obtain ⟨hlen, hfil⟩ := getline_some file line after hg
      simp only
      rw [ih after (by omega), hfil]

/-- The content the method searches is the concatenation of the lines of the file. -/
theorem file_content_eq_filter (file : String) :
    file_content file = file.data.filter (fun c => c != '\n') :=
  read_content_eq_filter file.length file.data (le_refl _)

/-- Two paths under the same home directory are equal only if their tails are. -/
theorem append_left_cancel_string (home a b : String) (h : home ++ a = home ++ b) : a = b := by
  have hd : (home ++ a).data = (home ++ b).data := by rw [h]
  rw [String.data_append, String.data_append] at hd
  exact String.ext (List.append_cancel_left hd)

/-- When the call of line 91 returns, the method returns one of two paths, chosen by the
`cyrene` test alone. -/
theorem determine_workspace_icon_path_cases (env : Env)
    (hret : env.fs_exists_throws (env.HOME.getD "" ++ "/.config/hypr/Light.txt") = false) :
    (cyrene_marked env ∧ determine_workspace_icon_path env
        = some (env.HOME.getD "" ++ "/.config/Elysia/assets/workspace/AMPH/"))
      ∨ (¬ cyrene_marked env ∧ determine_workspace_icon_path env
        = some (env.HOME.getD "" ++ "/.config/Elysia/assets/workspace/")) := by
  have hhome : (match env.HOME with | some home => home | none => "") = env.HOME.getD "" := by
    cases env.HOME <;> rfl
  unfold determine_workspace_icon_path cyrene_marked
  simp only [hhome, hret, Bool.false_eq_true, if_false]
  cases hex : env.fs_exists (env.HOME.getD "" ++ "/.config/hypr/Light.txt") with
  | false => right; simp
  | true =>
    cases hopen : env.ifstream (env.HOME.getD "" ++ "/.config/hypr/Light.txt") with
    | none => right; simp
    | some file =>
      by_cases hc : "cyrene".data <:+: file.data.filter (fun c => c != '\n')
      · left
        have hf : find "cyrene".data (file_content file) ≠ none := by
          rw [find_ne_none_iff, file_content_eq_filter]
          exact hc
        simp [hc, hf]
      · right
        have hf : find "cyrene".data (file_content file) = none := by
          by_contra hne
          rw [← ne_eq, find_ne_none_iff, file_content_eq_filter] at hne
          exact hc hne
        simp [hc, hf]

/-- When the call of line 91 throws, no path is returned. -/
theorem determine_workspace_icon_path_throws (env : Env)
    (hthrow : env.fs_exists_throws (env.HOME.getD "" ++ "/.config/hypr/Light.txt") = true) :
    determine_workspace_icon_path env = none := by
  have hhome : (match env.HOME with | some home => home | none => "") = env.HOME.getD "" := by
    cases env.HOME <;> rfl
  unfold determine_workspace_icon_path
  simp only [hhome, hthrow, if_true]

/-- Counterexample to C9 as stated: the marker file holds `cyrene`, but its status cannot be
determined, `std::filesystem::exists` throws, and the method returns neither of the two
paths: it returns no path. -/
theorem no_path_when_exists_throws :
    (determine_workspace_icon_path unsearchable_env == none) = true
      ∧ (determine_workspace_icon_path unsearchable_env
          == some "/home/u/.config/Elysia/assets/workspace/AMPH/") = false
      ∧ (determine_workspace_icon_path unsearchable_env
          == some "/home/u/.config/Elysia/assets/workspace/") = false := by
  refine ⟨?_, ?_, ?_⟩ <;> decide

/-- C9, amended: when the call `std::filesystem::exists` on the marker file
`HOME + "/.config/hypr/Light.txt"` throws, `determine_workspace_icon_path` returns no path.
When it returns, the method returns `HOME + "/.config/Elysia/assets/workspace/AMPH/"` if
and only if the marker file exists, can be opened and the concatenation of its lines
contains `cyrene`, and in every other case it returns
`HOME + "/.config/Elysia/assets/workspace/"`; the result then depends on the home directory
and on the `cyrene` test only, so never on whether the content contains `ely`. -/
theorem determine_workspace_icon_path_theme (env : Env) :
    (env.fs_exists_throws (env.HOME.getD "" ++ "/.config/hypr/Light.txt") = true →
        determine_workspace_icon_path env = none)
      ∧ (env.fs_exists_throws (env.HOME.getD "" ++ "/.config/hypr/Light.txt") = false →
        (determine_workspace_icon_path env
            = some (env.HOME.getD "" ++ "/.config/Elysia/assets/workspace/AMPH/")
          ↔ cyrene_marked env)
        ∧ (¬ cyrene_marked env → determine_workspace_icon_path env
            = some (env.HOME.getD "" ++ "/.config/Elysia/assets/workspace/"))
        ∧ (∀ other : Env,
            other.fs_exists_throws (other.HOME.getD "" ++ "/.config/hypr/Light.txt") = false →
            other.HOME = env.HOME → (cyrene_marked other ↔ cyrene_marked env) →
            determine_workspace_icon_path other = determine_workspace_icon_path env)) := by
  refine ⟨determine_workspace_icon_path_throws env, ?_⟩
  intro hret
  refine ⟨⟨?_, ?_⟩, ?_, ?_⟩
  · intro h
    rcases determine_workspace_icon_path_cases env hret with ⟨hm, _⟩ | ⟨_, hd⟩
    · exact hm
    · rw [hd] at h
      exact absurd (append_left_cancel_string _ _ _ (Option.some.inj h)) (by decide)
  · intro h
    rcases determine_workspace_icon_path_cases env hret with ⟨_, hp⟩ | ⟨hn, _⟩
    · exact hp
    · exact absurd h hn
  · intro h
    rcases determine_workspace_icon_path_cases env hret with ⟨hm, _⟩ | ⟨_, hd⟩
    · exact absurd hm h
    · exact hd
  · intro other hret2 hhome hiff
    rcases determine_workspace_icon_path_cases env hret with ⟨hm, hp⟩ | ⟨hn, hd⟩
    · rcases determine_workspace_icon_path_cases other hret2 with ⟨_, hp2⟩ | ⟨hn2, _⟩
      · rw [hp, hp2, hhome]
      · exact absurd (hiff.mpr hm) hn2
    · rcases determine_workspace_icon_path_cases other hret2 with ⟨hm2, _⟩ | ⟨_, hd2⟩
      · exact absurd (hiff.mp hm2) hn
      · rw [hd, hd2, hhome]

/-- The theme path on concrete marker files: `cyrene` split over two lines still selects the second
theme, with or without `ely`; `ely` alone, an empty file and a missing file select the first;
a marker file whose status cannot be determined gives no path. -/
theorem determine_workspace_icon_path_examples :
    determine_workspace_icon_path (marker_env "cyr\nene\n")
        = some "/home/u/.config/Elysia/assets/workspace/AMPH/"
      ∧ determine_workspace_icon_path (marker_env "cyrene ely\n")
        = some "/home/u/.config/Elysia/assets/workspace/AMPH/"
      ∧ determine_workspace_icon_path (marker_env "ely\n")
        = some "/home/u/.config/Elysia/assets/workspace/"
      ∧ determine_workspace_icon_path (marker_env "")
        = some "/home/u/.config/Elysia/assets/workspace/"
      ∧ determine_workspace_icon_path quiet_env = some "/.config/Elysia/assets/workspace/"
      ∧ determine_workspace_icon_path unsearchable_env = none := by
  refine ⟨?_, ?_, ?_, ?_, ?_, ?_⟩ <;> decide

/-- Witness for C9 as amended, for the marker file `theme=cyrene`. -/
theorem determine_workspace_icon_path_theme_witness :
    determine_workspace_icon_path (marker_env "theme=cyrene\n")
      = some "/home/u/.config/Elysia/assets/workspace/AMPH/" :=
  ((determine_workspace_icon_path_theme (marker_env "theme=cyrene\n")).2 rfl).1.mpr
    ⟨rfl, "theme=cyrene\n", rfl, "theme=".data, [], rfl⟩

/-! ### Workspace icons -/

/-- A missing icon file: only the file probe is logged. -/
theorem load_workspace_icon_missing (env : Env) (workspace_id : Int) (s : State)
    (h : env.fs_exists (s.workspace_icon_path ++ to_string workspace_id ++ ".png") = false) :
    load_workspace_icon env workspace_id s
      = s.emit (Effect.fs_exists (s.workspace_icon_path ++ to_string workspace_id ++ ".png")) := by
  simp [load_workspace_icon, h]

/-- A decode that sets `error`: widgets, cache, button map and placements stay as they are. -/
theorem load_workspace_icon_error (env : Env) (workspace_id : Int) (s : State)
    (h : (env.gdk_pixbuf_new_from_file_at_size
            (s.workspace_icon_path ++ to_string workspace_id ++ ".png")
            (if workspace_id = 13 then env.times_1_8 s.icon_size else s.icon_size)
            (if workspace_id = 13 then env.times_1_8 s.icon_size else s.icon_size)).error = true) :
    (load_workspace_icon env workspace_id s).workspace_icon_cache = s.workspace_icon_cache
      ∧ (load_workspace_icon env workspace_id s).widgets = s.widgets
      ∧ (load_workspace_icon env workspace_id s).workspace_buttons = s.workspace_buttons
      ∧ (load_workspace_icon env workspace_id s).fixed_children = s.fixed_children := by
  unfold load_workspace_icon
  by_cases hex : env.fs_exists (s.workspace_icon_path ++ to_string workspace_id ++ ".png") = true
  · simp only [hex]
    generalize env.gdk_pixbuf_new_from_file_at_size _ _ _ = loaded at h ⊢
    obtain ⟨error, pixbuf⟩ := loaded
    simp only at h
    subst h
    cases pixbuf <;> simp [store_loaded_icon, State.emit, State.new_pixbuf]
  · simp [hex, State.emit]

/-- C10: when the icon file `workspace_icon_path + "<id>.png"` does not exist, or its
decode reports an error, `load_workspace_icon` leaves `workspace_icon_cache` unchanged and
leaves every widget unchanged, hence the button and its child (the text label), as well
as the button map and the placements. -/
theorem load_workspace_icon_skips (env : Env) (workspace_id : Int) (s : State)
    (h : env.fs_exists (s.workspace_icon_path ++ to_string workspace_id ++ ".png") = false
      ∨ (env.gdk_pixbuf_new_from_file_at_size
            (s.workspace_icon_path ++ to_string workspace_id ++ ".png")
            (if workspace_id = 13 then env.times_1_8 s.icon_size else s.icon_size)
            (if workspace_id = 13 then env.times_1_8 s.icon_size else s.icon_size)).error = true) :
    (load_workspace_icon env workspace_id s).workspace_icon_cache = s.workspace_icon_cache
      ∧ (load_workspace_icon env workspace_id s).widgets = s.widgets
      ∧ (load_workspace_icon env workspace_id s).workspace_buttons = s.workspace_buttons
      ∧ (load_workspace_icon env workspace_id s).fixed_children = s.fixed_children := by
  rcases h with h | h
  · rw [load_workspace_icon_missing env workspace_id s h]
    exact ⟨rfl, rfl, rfl, rfl⟩
  · exact load_workspace_icon_error env workspace_id s h

/-- Witness for C10, for workspace 5 right after the buttons were made: with the file missing, and with
a file that fails to decode. -/
theorem load_workspace_icon_skips_witness :
    ((load_workspace_icon quiet_env 5
          (create_workspace_buttons_minimal quiet_env blank_state)).workspace_icon_cache
        = (create_workspace_buttons_minimal quiet_env blank_state).workspace_icon_cache
      ∧ (load_workspace_icon quiet_env 5
          (create_workspace_buttons_minimal quiet_env blank_state)).widgets
        = (create_workspace_buttons_minimal quiet_env blank_state).widgets)
      ∧ ((load_workspace_icon broken_png_env 5
          (create_workspace_buttons_minimal quiet_env blank_state)).workspace_icon_cache
        = (create_workspace_buttons_minimal quiet_env blank_state).workspace_icon_cache
      ∧ (load_workspace_icon broken_png_env 5
          (create_workspace_buttons_minimal quiet_env blank_state)).widgets
        = (create_workspace_buttons_minimal quiet_env blank_state).widgets) :=
  ⟨⟨(load_workspace_icon_skips quiet_env 5
        (create_workspace_buttons_minimal quiet_env blank_state) (Or.inl rfl)).1,
    (load_workspace_icon_skips quiet_env 5
        (create_workspace_buttons_minimal quiet_env blank_state) (Or.inl rfl)).2.1⟩,
   ⟨(load_workspace_icon_skips broken_png_env 5
        (create_workspace_buttons_minimal quiet_env blank_state) (Or.inr rfl)).1,
    (load_workspace_icon_skips broken_png_env 5
        (create_workspace_buttons_minimal quiet_env blank_state) (Or.inr rfl)).2.1⟩⟩

/-- The placeholder on a concrete run: after a failed decode the button of workspace 5
(heap index 9) still has the label `5` (heap index 8) as its only child, and nothing is
cached; after a good decode the label is destroyed, the child is an image of the new
pixbuf, and the pixbuf is cached. -/
theorem load_workspace_icon_examples :
    ((load_workspace_icon broken_png_env 5
          (create_workspace_buttons_minimal quiet_env blank_state)).widgets[9]?).map
        (fun w => w.children) = some [8]
      ∧ ((load_workspace_icon broken_png_env 5
          (create_workspace_buttons_minimal quiet_env blank_state)).widgets[8]?).map
        (fun w => (w.kind, w.destroyed)) = some (WidgetKind.label "5", false)
      ∧ (load_workspace_icon broken_png_env 5
          (create_workspace_buttons_minimal quiet_env blank_state)).workspace_icon_cache = []
      ∧ ((load_workspace_icon good_png_env 5
          (create_workspace_buttons_minimal quiet_env blank_state)).widgets[9]?).map
        (fun w => w.children) = some [26]
      ∧ ((load_workspace_icon good_png_env 5
          (create_workspace_buttons_minimal quiet_env blank_state)).widgets[26]?).map
        (fun w => w.kind) = some (WidgetKind.image (some 0))
      ∧ ((load_workspace_icon good_png_env 5
          (create_workspace_buttons_minimal quiet_env blank_state)).widgets[8]?).map
        (fun w => w.destroyed) = some true
      ∧ (load_workspace_icon good_png_env 5
          (create_workspace_buttons_minimal quiet_env blank_state)).workspace_icon_cache
        = [(5, some 0)] := by
  refine ⟨?_, ?_, ?_, ?_, ?_, ?_, ?_⟩ <;> decide

/-! ### Cache cleanup -/

/-- Reading a heap after an update. -/
theorem getElem?_heap_update {α : Type} (f : α → α) (i j : Nat) (l : List α) :
    (heap_update f i l)[j]? = if j = i then (l[j]?).map f else l[j]? := by
  induction l generalizing i j with
  | nil => simp [heap_update]
  | cons a l ih =>
    cases i with
    | zero =>
      cases j with
      | zero => simp [heap_update]
      | succ j => simp [heap_update]
    | succ i =>
      cases j with
      | zero => simp [heap_update]
      | succ j => simp [heap_update, ih]

/-- An update keeps the size of the heap. -/
theorem length_heap_update {α : Type} (f : α → α) (i : Nat) (l : List α) :
    (heap_update f i l).length = l.length := by
  induction l generalizing i with
  | nil => cases i <;> rfl
  | cons a l ih => cases i <;> simp [heap_update, ih]

/-- Releasing two lists in a row. -/
theorem unref_each_append (a b : List Nat) (heap : List Nat) :
    unref_each (a ++ b) heap = unref_each b (unref_each a heap) := by
  simp [unref_each, List.foldl_append]

/-- After the releases the count of `p` is down by the number of times `p` was released. -/
theorem getElem?_unref_each (released : List Nat) (heap : List Nat) (p : Nat) :
    ((unref_each released heap)[p]?).getD 0 = (heap[p]?).getD 0 - released.count p := by
  induction released generalizing heap with
  | nil => simp [unref_each]
  | cons q rest ih =>
    have hstep : unref_each (q :: rest) heap
        = unref_each rest (heap_update (fun n => n - 1) q heap) := rfl
    rw [hstep, ih, getElem?_heap_update]
    by_cases h : p = q
    · subst h
      cases hp : heap[p]? with
      | none => simp
      | some n => simp; omega
    · have hne : q ≠ p := fun e => h e.symm
      simp [h, List.count_cons, hne]

/-- Releases keep the size of the heap. -/
theorem length_unref_each (released : List Nat) (heap : List Nat) :
    (unref_each released heap).length = heap.length := by
  induction released generalizing heap with
  | nil => rfl
  | cons q rest ih =>
    have hstep : unref_each (q :: rest) heap
        = unref_each rest (heap_update (fun n => n - 1) q heap) := rfl
    rw [hstep, ih, length_heap_update]

/-- The inner loop releases the non-null pointers of the vector, one time each, in order. -/
theorem unref_all_eq (l : List (Option Nat)) (s : State) :
    unref_all l s = { s with pixbufs := unref_each (l.filterMap id) s.pixbufs } := by
  induction l generalizing s with
  | nil => rfl
  | cons a rest ih =>
    cases a with
    | none => simp [unref_all, ih]
    | some p => simp [unref_all, ih, State.g_object_unref, unref_each]

/-- The nested loop releases the non-null pointers of all vectors, one time each, in order. -/
theorem unref_vectors_eq (m : List (Int × List (Option Nat))) (s : State) :
    unref_vectors m s
      = { s with pixbufs := unref_each ((m.map Prod.snd).flatten.filterMap id) s.pixbufs } := by
  induction m generalizing s with
  | nil => rfl
  | cons pair rest ih =>
    simp [unref_vectors, ih, unref_all_eq, unref_each_append, List.filterMap_append]

/-- The method `cleanup_caches` in closed form. -/
theorem cleanup_caches_eq (s : State) :
    cleanup_caches s
      = { s with
          pixbufs := unref_each (cached_pixbufs s) s.pixbufs,
          workspace_icon_cache := [], app_icon_cache := [], theme_icon_cache := [] } := by
  simp [cleanup_caches, unref_all_eq, unref_vectors_eq, cached_pixbufs, unref_each_append,
    List.filterMap_append]

/-- C11: for every state, `cleanup_caches` leaves the three caches empty and does exactly
one `g_object_unref` for every non-null pointer stored in `workspace_icon_cache`, in the
vectors of `app_icon_cache` and in `theme_icon_cache` (none for a null entry): the heap is
the old one after one release per stored pointer, so the count of every pixbuf goes down
by the number of cache slots that hold it. Widgets keep their own references. -/
theorem cleanup_caches_releases (s : State) :
    (cleanup_caches s).workspace_icon_cache = []
      ∧ (cleanup_caches s).app_icon_cache = []
      ∧ (cleanup_caches s).theme_icon_cache = []
      ∧ (cleanup_caches s).pixbufs = unref_each (cached_pixbufs s) s.pixbufs
      ∧ (cleanup_caches s).pixbufs.length = s.pixbufs.length
      ∧ (∀ p, refcount (cleanup_caches s) p = refcount s p - (cached_pixbufs s).count p)
      ∧ (∀ p, (cached_pixbufs s).count p ≤ refcount s p →
          refcount (cleanup_caches s) p + (cached_pixbufs s).count p = refcount s p)
      ∧ (cleanup_caches s).widgets = s.widgets := by
  rw [cleanup_caches_eq]
  refine ⟨rfl, rfl, rfl, rfl, length_unref_each _ _, ?_, ?_, rfl⟩
  · intro p
    exact getElem?_unref_each _ _ p
  · intro p hp
    have h := getElem?_unref_each (cached_pixbufs s) s.pixbufs p
    unfold refcount at hp ⊢
    simp only at hp ⊢
    omega

/-! ### Icon memoization -/

/-- One theme query changes the pixbuf heap only. -/
theorem load_icon_state (env : Env) (name : String) (s : State) :
    ∃ heap, (load_icon env name s).2.1 = { s with pixbufs := heap } := by
  unfold load_icon
  simp only
  split
  · exact ⟨s.pixbufs ++ [1], rfl⟩
  · exact ⟨s.pixbufs, rfl⟩

/-- The fallback loop changes the pixbuf heap only. -/
theorem try_fallbacks_state (env : Env) (names : List String) (current : Option Nat × State) :
    ∃ heap, (try_fallbacks env names current).2 = { current.2 with pixbufs := heap } := by
  induction names generalizing current with
  | nil => exact ⟨current.2.pixbufs, rfl⟩
  | cons name rest ih =>
    unfold try_fallbacks
    simp only
    obtain ⟨h1, e1⟩ := load_icon_state env name current.2
    split
    · exact ⟨h1, e1⟩
    · obtain ⟨h2, e2⟩ := ih ((load_icon env name current.2).1, (load_icon env name current.2).2.1)
      refine ⟨h2, ?_⟩
      rw [e2]
      simp only [e1]

/-- The theme lookup changes the pixbuf heap only. -/
theorem lookup_icon_state (env : Env) (app_class : String) (s : State) :
    ∃ heap, (lookup_icon env app_class s).2 = { s with pixbufs := heap } := by
  unfold lookup_icon
  simp only
  generalize (if (!env.gtk_icon_theme_has_icon app_class) = true then String.map Char.toLower app_class
      else app_class) = icon_name
  obtain ⟨h1, e1⟩ := load_icon_state env icon_name s
  split
  · obtain ⟨h2, e2⟩ := try_fallbacks_state env fallbacks
      ((load_icon env icon_name s).1, (load_icon env icon_name s).2.1)
    refine ⟨h2, ?_⟩
    rw [e2]
    simp only [e1]
  · exact ⟨h1, e1⟩

/-- Assigning to a key that is not in the map adds an entry at the end. -/
theorem map_assign_of_find_none {κ ν : Type} [DecidableEq κ] (k : κ) (v : ν) (m : List (κ × ν))
    (h : map_find k m = none) : map_assign k v m = m ++ [(k, v)] := by
  induction m with
  | nil => rfl
  | cons p rest ih =>
    obtain ⟨k1, v1⟩ := p
    by_cases hk : k1 = k
    · simp [map_find, hk] at h
    · simp only [map_find, hk, if_false] at h
      simp [map_assign, hk, ih h]

/-- An entry that is found stays found when entries are added behind. -/
theorem map_find_append_left {κ ν : Type} [DecidableEq κ] (k : κ) (v : ν) (m extra : List (κ × ν))
    (h : map_find k m = some v) : map_find k (m ++ extra) = some v := by
  induction m with
  | nil => simp [map_find] at h
  | cons p rest ih =>
    obtain ⟨k1, v1⟩ := p
    by_cases hk : k1 = k
    · simp only [map_find, hk, if_true] at h
      simp [map_find, hk, h]
    · simp only [map_find, hk, if_false] at h
      simp [map_find, hk, ih h]

/-- The theme cache after `get_app_icon`: unchanged on a hit or an empty class, one entry
longer on a miss. -/
theorem get_app_icon_cache (env : Env) (app_class : String) (s : State) :
    (get_app_icon env app_class s).2.theme_icon_cache = s.theme_icon_cache
      ∨ (app_class ≠ "" ∧ map_find app_class s.theme_icon_cache = none
          ∧ (get_app_icon env app_class s).2.theme_icon_cache
            = s.theme_icon_cache ++ [(app_class, (get_app_icon env app_class s).1)]) := by
  unfold get_app_icon
  by_cases he : app_class = ""
  · simp [he]
  · rw [if_neg he]
    cases hf : map_find app_class s.theme_icon_cache with
    | some entry =>
      cases entry with
      | none => left; rfl
      | some p => left; rfl
    | none =>
      right
      refine ⟨he, rfl, ?_⟩
      obtain ⟨heap, e⟩ := lookup_icon_state env app_class s
      have hc : (lookup_icon env app_class s).2.theme_icon_cache = s.theme_icon_cache := by
        rw [e]
      simp only [cache_icon]
      cases hl : (lookup_icon env app_class s).1 with
      | none =>
        simp only
        rw [hc, map_assign_of_find_none _ _ _ hf]
      | some p =>
        simp only [State.g_object_ref]
        rw [hc, map_assign_of_find_none _ _ _ hf]

/-- A cache hit: the entry is returned, with one more reference when it is not null; no
answer of the outside world is used. -/
theorem get_app_icon_hit (world : Env) (app_class : String) (t : State) (entry : Option Nat)
    (hne : app_class ≠ "") (h : map_find app_class t.theme_icon_cache = some entry) :
    get_app_icon world app_class t = (entry, hand_out entry t) := by
  unfold get_app_icon
  rw [if_neg hne, h]
  cases entry <;> rfl

/-- The method `get_app_icon` keeps every entry of the theme cache. -/
theorem get_app_icon_keeps (world : Env) (c : String) (t : State) (k : String) (v : Option Nat)
    (h : map_find k t.theme_icon_cache = some v) :
    map_find k (get_app_icon world c t).2.theme_icon_cache = some v := by
  rcases get_app_icon_cache world c t with e | ⟨_, _, e⟩
  · rw [e]
    exact h
  · rw [e]
    exact map_find_append_left k v _ _ h

/-- A run of `get_app_icon` calls keeps every entry of the theme cache. -/
theorem icon_calls_keeps (calls : List (Env × String)) (t : State) (k : String) (v : Option Nat)
    (h : map_find k t.theme_icon_cache = some v) :
    map_find k (icon_calls calls t).theme_icon_cache = some v := by
  induction calls generalizing t with
  | nil => exact h
  | cons call rest ih => exact ih _ (get_app_icon_keeps call.1 call.2 t k v h)

/-- The caching step leaves the returned pointer under the class. -/
theorem cache_icon_entry (app_class : String) (final : Option Nat × State) :
    map_find app_class (cache_icon app_class final).2.theme_icon_cache
      = some (cache_icon app_class final).1 := by
  simp only [cache_icon]
  exact map_find_assign_same _ _ _

/-- After `get_app_icon` for a non-empty class, the cache holds the returned pointer under it. -/
theorem get_app_icon_entry (env : Env) (app_class : String) (s : State) (hne : app_class ≠ "") :
    map_find app_class (get_app_icon env app_class s).2.theme_icon_cache
      = some (get_app_icon env app_class s).1 := by
  cases hf : map_find app_class s.theme_icon_cache with
  | some entry =>
    rw [get_app_icon_hit env app_class s entry hne hf]
    cases entry <;> exact hf
  | none =>
    have h2 : get_app_icon env app_class s = cache_icon app_class (lookup_icon env app_class s) := by
      unfold get_app_icon
      rw [if_neg hne, hf]
    rw [h2]
    exact cache_icon_entry _ _

/-- A theme that has no icon at all: a query returns null. -/
theorem load_icon_null (env : Env) (name : String) (s : State)
    (hnull : ∀ n size, (env.gtk_icon_theme_load_icon n size).pixbuf = false) :
    (load_icon env name s).1 = none := by
  simp [load_icon, hnull]

/-- A theme that has no icon at all: the fallback loop ends with null. -/
theorem try_fallbacks_null (env : Env) (names : List String) (current : Option Nat × State)
    (hnull : ∀ n size, (env.gtk_icon_theme_load_icon n size).pixbuf = false)
    (hcur : current.1 = none) :
    (try_fallbacks env names current).1 = none := by
  induction names generalizing current with
  | nil => exact hcur
  | cons name rest ih =>
    unfold try_fallbacks
    simp only [load_icon_null env name current.2 hnull, Option.isSome_none, Bool.false_and,
      Bool.false_eq_true, if_false]
    exact ih _ rfl

/-- A theme that has no icon at all: the lookup returns null. -/
theorem lookup_icon_null (env : Env) (app_class : String) (s : State)
    (hnull : ∀ n size, (env.gtk_icon_theme_load_icon n size).pixbuf = false) :
    (lookup_icon env app_class s).1 = none := by
  unfold lookup_icon
  simp only
  generalize (if (!env.gtk_icon_theme_has_icon app_class) = true then String.map Char.toLower app_class
      else app_class) = icon_name
  split
  · exact try_fallbacks_null env fallbacks
      ((load_icon env icon_name s).1, (load_icon env icon_name s).2.1) hnull
      (load_icon_null env icon_name s hnull)
  · exact load_icon_null env icon_name s hnull

/-- C12: for a non-empty class `c`, after `get_app_icon(c)` the theme cache holds under `c`
the pointer that was returned, null when the class was not cached and no icon and no
fallback could be loaded; whenever the cache holds an entry for `c`, and so after any run of
further `get_app_icon` calls, `get_app_icon(c)` returns that entry (with one more
reference when it is not null) whatever the icon theme would answer; and `get_app_icon`
keeps every existing entry of the cache as it is. -/
theorem get_app_icon_memoizes (env : Env) (app_class : String) (s : State)
    (hne : app_class ≠ "") :
    map_find app_class (get_app_icon env app_class s).2.theme_icon_cache
        = some (get_app_icon env app_class s).1
      ∧ (map_find app_class s.theme_icon_cache = none →
          (∀ n size, (env.gtk_icon_theme_load_icon n size).pixbuf = false) →
          map_find app_class (get_app_icon env app_class s).2.theme_icon_cache = some none)
      ∧ (∀ (world : Env) (t : State) (entry : Option Nat),
          map_find app_class t.theme_icon_cache = some entry →
          get_app_icon world app_class t = (entry, hand_out entry t))
      ∧ (∀ (calls : List (Env × String)) (world : Env),
          get_app_icon world app_class (icon_calls calls (get_app_icon env app_class s).2)
            = ((get_app_icon env app_class s).1,
               hand_out (get_app_icon env app_class s).1
                 (icon_calls calls (get_app_icon env app_class s).2)))
      ∧ (∀ (world : Env) (c : String) (t : State) (k : String) (v : Option Nat),
          map_find k t.theme_icon_cache = some v →
          map_find k (get_app_icon world c t).2.theme_icon_cache = some v) := by
  refine ⟨get_app_icon_entry env app_class s hne, ?_, ?_, ?_, ?_⟩
  · intro hmiss hnull
    have h2 : get_app_icon env app_class s = cache_icon app_class (lookup_icon env app_class s) := by
      unfold get_app_icon
      rw [if_neg hne, hmiss]
    have h3 : (get_app_icon env app_class s).1 = none := by
      rw [h2]
      simp only [cache_icon]
      exact lookup_icon_null env app_class s hnull
    rw [get_app_icon_entry env app_class s hne, h3]
  · intro world t entry h
    exact get_app_icon_hit world app_class t entry hne h
  · intro calls world
    exact get_app_icon_hit world app_class _ _ hne
      (icon_calls_keeps calls _ _ _ (get_app_icon_entry env app_class s hne))
  · intro world c t k v h
    exact get_app_icon_keeps world c t k v h

/-- Witness for C12: the class Firefox on a fresh state. -/
theorem get_app_icon_memoizes_witness :
    map_find "Firefox" (get_app_icon firefox_env "Firefox" blank_state).2.theme_icon_cache
      = some (get_app_icon firefox_env "Firefox" blank_state).1 :=
  (get_app_icon_memoizes firefox_env "Firefox" blank_state (by decide)).1

/-! ### Dimensions -/

/-- The quotient of C++ by a positive divisor, by the sign of the dividend. -/
theorem tdiv_cases (a b : Int) (hb : 0 < b) :
    (0 ≤ a ∧ a.tdiv b = a / b) ∨ (a < 0 ∧ a.tdiv b = -((-a) / b)) := by
  by_cases ha : 0 ≤ a
  · exact Or.inl ⟨ha, Int.tdiv_eq_ediv ha (le_of_lt hb)⟩
  · right
    refine ⟨by omega, ?_⟩
    have h := Int.neg_tdiv a b
    rw [Int.tdiv_eq_ediv (by omega : 0 ≤ -a) (le_of_lt hb)] at h
    omega

/-- The outside world `quiet_env` converts as IEEE 754 doubles do. -/
theorem ieee_products_quiet_env : ieee_products quiet_env :=
  fun _ _ _ => ⟨rfl, rfl, rfl, rfl⟩

/-- C14: for every screen width and height, `calculate_dimensions` yields `radius >= 200`,
`button_size >= 120`, `icon_size >= 50`, `app_icon_size >= 16`,
`center_x = screen_width / 2`, `center_y = screen_height / 2` (the `int` division), and
`special_button_size` equal to `2 * button_size`, hence at least 240 and larger than
`button_size`. The sizes are scaled to the screen: with `m` the smaller of width and
height, `radius` is the larger of 200 and the `int` made of `m * 0.40`, `button_size` the
larger of 120 and the `int` made of `m * 0.08`, `icon_size` and `app_icon_size` the larger
of 50 and of 16 and the `int` made of `button_size * 0.83` and of `button_size * 0.17`.
With the conversions of IEEE 754 doubles and `m` an `int`, that is: `radius` is 200 for
`m < 500` and `2 * m / 5` from there on, `button_size` is 120 for `m < 1500` and
`2 * m / 25` from there on, `icon_size` is `83 * button_size / 100` and `app_icon_size` is
`17 * button_size / 100` (the minimums 50 and 16 never apply), and no size shrinks when
`m` grows. -/
theorem calculate_dimensions_bounds (env : Env) (s : State) :
    (calculate_dimensions env s).radius ≥ 200
      ∧ (calculate_dimensions env s).button_size ≥ 120
      ∧ (calculate_dimensions env s).icon_size ≥ 50
      ∧ (calculate_dimensions env s).app_icon_size ≥ 16
      ∧ (calculate_dimensions env s).screen_width = env.gdk_screen_get_width
      ∧ (calculate_dimensions env s).screen_height = env.gdk_screen_get_height
      ∧ (calculate_dimensions env s).center_x = (calculate_dimensions env s).screen_width.tdiv 2
      ∧ (calculate_dimensions env s).center_y = (calculate_dimensions env s).screen_height.tdiv 2
      ∧ (calculate_dimensions env s).special_button_size
          = 2 * (calculate_dimensions env s).button_size
      ∧ (calculate_dimensions env s).special_button_size ≥ 240
      ∧ (calculate_dimensions env s).special_button_size > (calculate_dimensions env s).button_size
      ∧ (calculate_dimensions env s).radius
          = max 200 (env.times_0_40 (min env.gdk_screen_get_width env.gdk_screen_get_height))
      ∧ (calculate_dimensions env s).button_size
          = max 120 (env.times_0_08 (min env.gdk_screen_get_width env.gdk_screen_get_height))
      ∧ (calculate_dimensions env s).icon_size
          = max 50 (env.times_0_83 (calculate_dimensions env s).button_size)
      ∧ (calculate_dimensions env s).app_icon_size
          = max 16 (env.times_0_17 (calculate_dimensions env s).button_size)
      ∧ (ieee_products env →
          INT_MIN ≤ min env.gdk_screen_get_width env.gdk_screen_get_height →
          min env.gdk_screen_get_width env.gdk_screen_get_height ≤ INT_MAX →
          (min env.gdk_screen_get_width env.gdk_screen_get_height < 500 →
              (calculate_dimensions env s).radius = 200)
            ∧ (500 ≤ min env.gdk_screen_get_width env.gdk_screen_get_height →
              (calculate_dimensions env s).radius
                = (2 * min env.gdk_screen_get_width env.gdk_screen_get_height).tdiv 5)
            ∧ (min env.gdk_screen_get_width env.gdk_screen_get_height < 1500 →
              (calculate_dimensions env s).button_size = 120)
            ∧ (1500 ≤ min env.gdk_screen_get_width env.gdk_screen_get_height →
              (calculate_dimensions env s).button_size
                = (2 * min env.gdk_screen_get_width env.gdk_screen_get_height).tdiv 25)
            ∧ (calculate_dimensions env s).icon_size
                = (83 * (calculate_dimensions env s).button_size).tdiv 100
            ∧ (calculate_dimensions env s).app_icon_size
                = (17 * (calculate_dimensions env s).button_size).tdiv 100
            ∧ (∀ (larger : Env) (t : State), ieee_products larger →
                min env.gdk_screen_get_width env.gdk_screen_get_height
                  ≤ min larger.gdk_screen_get_width larger.gdk_screen_get_height →
                min larger.gdk_screen_get_width larger.gdk_screen_get_height ≤ INT_MAX →
                (calculate_dimensions env s).radius ≤ (calculate_dimensions larger t).radius
                  ∧ (calculate_dimensions env s).button_size
                      ≤ (calculate_dimensions larger t).button_size
                  ∧ (calculate_dimensions env s).icon_size
                      ≤ (calculate_dimensions larger t).icon_size
                  ∧ (calculate_dimensions env s).app_icon_size
                      ≤ (calculate_dimensions larger t).app_icon_size
                  ∧ (calculate_dimensions env s).special_button_size
                      ≤ (calculate_dimensions larger t).special_button_size)) := by
  have hb := le_max_left 120 (env.times_0_08 (min env.gdk_screen_get_width env.gdk_screen_get_height))
  refine ⟨le_max_left _ _, le_max_left _ _, le_max_left _ _, le_max_left _ _, rfl, rfl, rfl, rfl,
    ?_, ?_, ?_, rfl, rfl, rfl, rfl, ?_⟩
  · simp only [calculate_dimensions]
    ring
  · simp only [calculate_dimensions]
    omega
  · simp only [calculate_dimensions]
    omega
  · intro hieee hlo hhi
    simp only [calculate_dimensions]
    generalize min env.gdk_screen_get_width env.gdk_screen_get_height = m at hlo hhi ⊢
    simp only [INT_MIN, INT_MAX] at hlo hhi
    have hsize : ∀ (e : Env) (n : Int), ieee_products e → -2147483648 ≤ n → n ≤ 2147483647 →
        e.times_0_40 n = (2 * n).tdiv 5 ∧ e.times_0_08 n = (2 * n).tdiv 25
          ∧ -2147483648 ≤ max 120 ((2 * n).tdiv 25) ∧ max 120 ((2 * n).tdiv 25) ≤ 2147483647
          ∧ e.times_0_83 (max 120 ((2 * n).tdiv 25)) = (83 * max 120 ((2 * n).tdiv 25)).tdiv 100
          ∧ e.times_0_17 (max 120 ((2 * n).tdiv 25)) = (17 * max 120 ((2 * n).tdiv 25)).tdiv 100 := by
      intro e n he h1 h2
      have hn := he n (by simp only [INT_MIN]; exact h1) (by simp only [INT_MAX]; exact h2)
      have hr1 : -2147483648 ≤ max 120 ((2 * n).tdiv 25) := le_trans (by decide) (le_max_left _ _)
      have hr2 : max 120 ((2 * n).tdiv 25) ≤ 2147483647 := by
        apply max_le (by decide)
        rcases tdiv_cases (2 * n) 25 (by decide) with ⟨_, h⟩ | ⟨_, h⟩ <;> rw [h] <;> omega
      have hbs := he (max 120 ((2 * n).tdiv 25)) (by simp only [INT_MIN]; exact hr1)
        (by simp only [INT_MAX]; exact hr2)
      exact ⟨hn.1, hn.2.1, hr1, hr2, hbs.2.2.1, hbs.2.2.2⟩
    obtain ⟨e40, e08, -, -, e83, e17⟩ := hsize env m hieee hlo hhi
    rw [e08, e83, e17, e40]
    have hicon : ∀ b : Int, 120 ≤ b → max 50 ((83 * b).tdiv 100) = (83 * b).tdiv 100
        ∧ max 16 ((17 * b).tdiv 100) = (17 * b).tdiv 100 := by
      intro b hb2
      rw [Int.tdiv_eq_ediv (by omega) (by decide), Int.tdiv_eq_ediv (by omega) (by decide)]
      exact ⟨max_eq_right (by omega), max_eq_right (by omega)⟩
    have hmono : ∀ a b : Int, a ≤ b → (2 * a).tdiv 5 ≤ (2 * b).tdiv 5
        ∧ (2 * a).tdiv 25 ≤ (2 * b).tdiv 25 := by
      intro a b hab
      rcases tdiv_cases (2 * a) 5 (by decide) with ⟨_, h5a⟩ | ⟨_, h5a⟩ <;>
      rcases tdiv_cases (2 * b) 5 (by decide) with ⟨_, h5b⟩ | ⟨_, h5b⟩ <;>
      rcases tdiv_cases (2 * a) 25 (by decide) with ⟨_, h25a⟩ | ⟨_, h25a⟩ <;>
      rcases tdiv_cases (2 * b) 25 (by decide) with ⟨_, h25b⟩ | ⟨_, h25b⟩ <;>
      rw [h5a, h5b, h25a, h25b] <;> omega
    refine ⟨?_, ?_, ?_, ?_, (hicon _ (le_max_left _ _)).1, (hicon _ (le_max_left _ _)).2, ?_⟩
    · intro hm
      apply max_eq_left
      rcases tdiv_cases (2 * m) 5 (by decide) with ⟨_, h⟩ | ⟨_, h⟩ <;> rw [h] <;> omega
    · intro hm
      apply max_eq_right
      rw [Int.tdiv_eq_ediv (by omega) (by decide)]
      omega
    · intro hm
      apply max_eq_left
      rcases tdiv_cases (2 * m) 25 (by decide) with ⟨_, h⟩ | ⟨_, h⟩ <;> rw [h] <;> omega
    · intro hm
      apply max_eq_right
      rw [Int.tdiv_eq_ediv (by omega) (by decide)]
      omega
    · intro larger t hl hle hhi2
      generalize min larger.gdk_screen_get_width larger.gdk_screen_get_height = m2 at hle hhi2 ⊢
      simp only [INT_MAX] at hhi2
      obtain ⟨f40, f08, -, -, f83, f17⟩ := hsize larger m2 hl (by omega) hhi2
      rw [f08, f83, f17, f40]
      have hbs : max 120 ((2 * m).tdiv 25) ≤ max 120 ((2 * m2).tdiv 25) :=
        max_le_max (le_refl _) (hmono m m2 hle).2
      rw [(hicon _ (le_max_left _ _)).1, (hicon _ (le_max_left _ _)).1,
        (hicon _ (le_max_left _ _)).2, (hicon _ (le_max_left _ _)).2]
      have hb1 := le_max_left 120 ((2 * m).tdiv 25)
      have hb2 := le_max_left 120 ((2 * m2).tdiv 25)
      generalize max 120 ((2 * m).tdiv 25) = b1 at hbs hb1 ⊢
      generalize max 120 ((2 * m2).tdiv 25) = b2 at hbs hb2 ⊢
      refine ⟨max_le_max (le_refl _) (hmono m m2 hle).1, hbs, ?_, ?_, by omega⟩
      · rw [Int.tdiv_eq_ediv (by omega) (by decide), Int.tdiv_eq_ediv (by omega) (by decide)]
        omega
      · rw [Int.tdiv_eq_ediv (by omega) (by decide), Int.tdiv_eq_ediv (by omega) (by decide)]
        omega

/-- Witness for C14, on the 1920x1080 screen of `quiet_env`, whose smaller side is 1080:
the radius is `2 * 1080 / 5 = 432`, the button size stays at its minimum 120, and the icon
sizes are `83 * 120 / 100 = 99` and `17 * 120 / 100 = 20`. -/
theorem calculate_dimensions_bounds_witness :
    (calculate_dimensions quiet_env blank_state).radius = 432
      ∧ (calculate_dimensions quiet_env blank_state).button_size = 120
      ∧ (calculate_dimensions quiet_env blank_state).icon_size = 99
      ∧ (calculate_dimensions quiet_env blank_state).app_icon_size = 20 :=
  ⟨((calculate_dimensions_bounds quiet_env blank_state).2.2.2.2.2.2.2.2.2.2.2.2.2.2.2
      ieee_products_quiet_env (by decide) (by decide)).2.1 (by decide),
   ((calculate_dimensions_bounds quiet_env blank_state).2.2.2.2.2.2.2.2.2.2.2.2.2.2.2
      ieee_products_quiet_env (by decide) (by decide)).2.2.1 (by decide),
   ((calculate_dimensions_bounds quiet_env blank_state).2.2.2.2.2.2.2.2.2.2.2.2.2.2.2
      ieee_products_quiet_env (by decide) (by decide)).2.2.2.2.1,
   ((calculate_dimensions_bounds quiet_env blank_state).2.2.2.2.2.2.2.2.2.2.2.2.2.2.2
      ieee_products_quiet_env (by decide) (by decide)).2.2.2.2.2.1⟩

/-! ### Tooltip -/

/-- This step keeps the layout. -/
@[simp]
theorem layout_update_widget (s : State) (w : Nat) (f : Widget → Widget) :
    (s.update_widget w f).layout = s.layout := by
  simp [State.layout, State.update_widget, length_heap_update]

/-- This step keeps the layout. -/
@[simp]
theorem layout_emit (s : State) (e : Effect) : (s.emit e).layout = s.layout := rfl

/-- This step keeps the layout. -/
@[simp]
theorem layout_new_pixbuf (s : State) : s.new_pixbuf.2.layout = s.layout := rfl

/-- This step keeps the layout. -/
@[simp]
theorem layout_g_object_ref (s : State) (p : Nat) : (s.g_object_ref p).layout = s.layout := rfl

/-- This step keeps the layout. -/
@[simp]
theorem layout_g_object_unref (s : State) (p : Nat) : (s.g_object_unref p).layout = s.layout := rfl

/-- This step keeps the layout. -/
@[simp]
theorem layout_gtk_widget_show (w : Nat) (s : State) : (gtk_widget_show w s).layout = s.layout := by
  simp [gtk_widget_show]

/-- This step keeps the layout. -/
@[simp]
theorem layout_gtk_widget_hide (w : Nat) (s : State) : (gtk_widget_hide w s).layout = s.layout := by
  simp [gtk_widget_hide]

/-- This step keeps the layout. -/
@[simp]
theorem layout_release_shown (image : Nat) (s : State) : (release_shown image s).layout = s.layout := by
  unfold release_shown
  split <;> rfl

/-- This step keeps the layout. -/
@[simp]
theorem layout_gtk_image_clear (image : Nat) (s : State) :
    (gtk_image_clear image s).layout = s.layout := by
  simp [gtk_image_clear]

/-- This step keeps the layout. -/
@[simp]
theorem layout_gtk_image_set_from_pixbuf (pixbuf image : Nat) (s : State) :
    (gtk_image_set_from_pixbuf pixbuf image s).layout = s.layout := by
  simp [gtk_image_set_from_pixbuf]

/-- This step keeps the layout. -/
@[simp]
theorem layout_gtk_label_set_text (text : String) (label : Nat) (s : State) :
    (gtk_label_set_text text label s).layout = s.layout := by
  simp [gtk_label_set_text]

/-- A call on a member keeps the layout when the call does. -/
theorem layout_on_member (member : Option Nat) (call : Nat → State → State) (s : State)
    (h : ∀ w t, (call w t).layout = t.layout) : (on_member member call s).layout = s.layout := by
  cases member with
  | none => rfl
  | some w => exact h w s

/-- This step keeps the layout. -/
@[simp]
theorem layout_create_workspace_thumbnail_from_path (env : Env) (path : String) (s : State) :
    (create_workspace_thumbnail_from_path env path s).2.layout = s.layout := by
  unfold create_workspace_thumbnail_from_path
  simp only
  generalize env.gdk_pixbuf_new_from_file_at_size _ _ _ = loaded
  obtain ⟨error, pixbuf⟩ := loaded
  split
  · rfl
  · split
    · rfl
    · cases error <;> cases pixbuf <;> rfl

/-- This step keeps the layout. -/
@[simp]
theorem layout_show_thumbnail (env : Env) (workspace_id : Int) (apps : List String) (s : State) :
    (show_thumbnail env workspace_id apps s).layout = s.layout := by
  unfold show_thumbnail
  split
  · simp only
    split
    · rw [layout_g_object_unref, layout_on_member _ _ _ layout_gtk_widget_show,
        layout_on_member _ _ _ (layout_gtk_image_set_from_pixbuf _),
        layout_create_workspace_thumbnail_from_path]
    · rw [layout_on_member _ _ _ layout_gtk_widget_hide,
        layout_on_member _ _ _ layout_gtk_image_clear,
        layout_create_workspace_thumbnail_from_path]
  · rw [layout_on_member _ _ _ layout_gtk_widget_hide,
      layout_on_member _ _ _ layout_gtk_image_clear]

/-- Showing a list of widgets keeps the layout. -/
theorem layout_foldl_show (ws : List Nat) (s : State) :
    (ws.foldl (fun acc x => gtk_widget_show x acc) s).layout = s.layout := by
  induction ws generalizing s with
  | nil => rfl
  | cons w rest ih =>
    simp only [List.foldl_cons]
    rw [ih, layout_gtk_widget_show]

/-- This step keeps the layout. -/
@[simp]
theorem layout_gtk_widget_show_all (w : Nat) (s : State) :
    (gtk_widget_show_all w s).layout = s.layout := by
  unfold gtk_widget_show_all
  exact layout_foldl_show _ _

/-- The method `get_workspace_apps` changes the state by one logged `popen`. -/
theorem get_workspace_apps_state (env : Env) (workspace_id : Int) (s : State) :
    (get_workspace_apps env workspace_id s).2 = s.emit (Effect.popen (titles_command workspace_id)) := by
  unfold get_workspace_apps
  simp only
  split <;> rfl

/-- The state in which `show_tooltip` computes the position has the layout it started with. -/
theorem show_tooltip_margins (env : Env) (workspace_id x y : Int) (s : State) (window : Nat)
    (hw : s.tooltip_window = some window) :
    ((show_tooltip env workspace_id x y s).tooltip_margin_left,
      (show_tooltip env workspace_id x y s).tooltip_margin_top)
      = tooltip_position s workspace_id x y env.preferred_size := by
  unfold show_tooltip
  rw [hw]
  simp only
  have hl : (gtk_widget_show_all window
      (on_member (show_thumbnail env workspace_id (get_workspace_apps env workspace_id s).1
          (get_workspace_apps env workspace_id s).2).tooltip_label
        (gtk_label_set_text (tooltip_text workspace_id (get_workspace_apps env workspace_id s).1))
        (show_thumbnail env workspace_id (get_workspace_apps env workspace_id s).1
          (get_workspace_apps env workspace_id s).2))).layout = s.layout := by
    rw [layout_gtk_widget_show_all, layout_on_member _ _ _ (layout_gtk_label_set_text _),
      layout_show_thumbnail, get_workspace_apps_state, layout_emit]
  generalize (gtk_widget_show_all window _) = s3 at hl ⊢
  simp only [State.layout, Prod.mk.injEq] at hl
  obtain ⟨_, _, _, h1, h2, h3, h4, h5, _⟩ := hl
  simp only [tooltip_position, h1, h2, h3, h4, h5]

/-- The geometry of `calculate_dimensions`: centre at half the screen, centre button of
twice a size that is at least 120. -/
theorem geometry_facts (env : Env) (s : State)
    (hg : s.geometry = (calculate_dimensions env s).geometry) :
    s.center_x = s.screen_width.tdiv 2 ∧ s.center_y = s.screen_height.tdiv 2
      ∧ 120 ≤ s.special_button_size.tdiv 2 := by
  simp only [State.geometry, calculate_dimensions, Prod.mk.injEq] at hg
  obtain ⟨h1, h2, h3, h4, h5⟩ := hg
  refine ⟨by rw [h3, ← h1], by rw [h4, ← h2], ?_⟩
  rw [h5, Int.mul_tdiv_cancel _ (by decide)]
  exact le_max_left _ _

/-- An integer in the range of `int` is the `int` that stands for it. -/
theorem wrap_int_of_in_range (n : Int) (h1 : -2147483648 ≤ n) (h2 : n ≤ 2147483647) :
    wrap_int n = n := by
  unfold wrap_int
  omega

/-- The position for workspace 13 under the geometry of `calculate_dimensions`, when no sum
overflows. -/
theorem tooltip_position_special (s : State) (x y w h : Int)
    (hcx : s.center_x = s.screen_width.tdiv 2) (hcy : s.center_y = s.screen_height.tdiv 2)
    (hsb : 120 ≤ s.special_button_size.tdiv 2)
    (hw0 : 0 ≤ w) (hw : w + 10 ≤ s.screen_width) (hh0 : 0 ≤ h) (hh : h + 10 ≤ s.screen_height)
    (hsw : s.screen_width ≤ INT_MAX) (hsh : s.screen_height ≤ INT_MAX)
    (hxw : s.center_x + w ≤ INT_MAX)
    (hyh : s.center_y + s.special_button_size.tdiv 2 + 20 + h ≤ INT_MAX) :
    0 ≤ (tooltip_position s 13 x y (w, h)).1
      ∧ (tooltip_position s 13 x y (w, h)).1 + w ≤ s.screen_width
      ∧ 0 ≤ (tooltip_position s 13 x y (w, h)).2
      ∧ (tooltip_position s 13 x y (w, h)).2 + h ≤ s.screen_height - 10
      ∧ (h + 20 ≤ s.screen_height → 10 ≤ (tooltip_position s 13 x y (w, h)).2) := by
  have h1 : s.screen_width.tdiv 2 = s.screen_width / 2 := Int.tdiv_eq_ediv (by omega) (by decide)
  have h2 : s.screen_height.tdiv 2 = s.screen_height / 2 := Int.tdiv_eq_ediv (by omega) (by decide)
  simp only [INT_MAX, hcx, hcy, h1, h2] at hxw hyh hsw hsh
  simp only [tooltip_position, if_true, hcx, hcy, h1, h2, int_add, int_sub]
  generalize s.special_button_size.tdiv 2 = b at hsb hyh ⊢
  rw [wrap_int_of_in_range (s.screen_height / 2 + b) (by omega) (by omega),
    wrap_int_of_in_range (s.screen_height / 2 + b + 20) (by omega) (by omega),
    wrap_int_of_in_range (s.screen_width / 2 + w) (by omega) (by omega),
    wrap_int_of_in_range (s.screen_width - w) (by omega) (by omega),
    wrap_int_of_in_range (s.screen_width - w - 10) (by omega) (by omega),
    wrap_int_of_in_range (s.screen_height / 2 + b + 20 + h) (by omega) (by omega),
    wrap_int_of_in_range (s.screen_height - 10) (by omega) (by omega),
    wrap_int_of_in_range (s.screen_height - h) (by omega) (by omega),
    wrap_int_of_in_range (s.screen_height - h - 10) (by omega) (by omega)]
  refine ⟨?_, ?_, ?_, ?_, ?_⟩
  · split <;> omega
  · split <;> omega
  · split
    · omega
    · split <;> omega
  · split
    · omega
    · split <;> omega
  · intro h20
    split
    · omega
    · split <;> omega

/-- The position for a workspace other than 13, when no sum or difference overflows. -/
theorem tooltip_position_regular (s : State) (workspace_id x y w h : Int) (hid : workspace_id ≠ 13)
    (hy : 0 ≤ y)
    (hw0 : 0 ≤ w) (hw : w + 20 ≤ s.screen_width) (hh0 : 0 ≤ h) (hh : h + 20 ≤ s.screen_height)
    (hsw : s.screen_width ≤ INT_MAX) (hsh : s.screen_height ≤ INT_MAX)
    (hx1 : INT_MIN ≤ x - w.tdiv 2) (hx2 : x - w.tdiv 2 + w ≤ INT_MAX)
    (hy1 : INT_MIN ≤ y - h - 40) (hy2 : y + 40 + h ≤ INT_MAX) :
    10 ≤ (tooltip_position s workspace_id x y (w, h)).1
      ∧ (tooltip_position s workspace_id x y (w, h)).1 + w ≤ s.screen_width
      ∧ 10 ≤ (tooltip_position s workspace_id x y (w, h)).2
      ∧ (tooltip_position s workspace_id x y (w, h)).2 + h ≤ s.screen_height
      ∧ (10 ≤ y - h - 40 → y - h - 40 + h ≤ s.screen_height →
          (tooltip_position s workspace_id x y (w, h)).2 = y - h - 40)
      ∧ (y - h - 40 < 10 → y + 40 + h ≤ s.screen_height →
          (tooltip_position s workspace_id x y (w, h)).2 = y + 40)
      ∧ (y - h - 40 < 10 → s.screen_height < y + 40 + h →
          (tooltip_position s workspace_id x y (w, h)).2 = s.screen_height - h - 10) := by
  have hhalf : w.tdiv 2 = w / 2 := Int.tdiv_eq_ediv hw0 (by decide)
  simp only [INT_MIN, INT_MAX, hhalf] at hsw hsh hx1 hx2 hy1 hy2
  simp only [tooltip_position, if_neg hid, int_add, int_sub, hhalf]
  rw [wrap_int_of_in_range (x - w / 2) (by omega) (by omega),
    wrap_int_of_in_range (y - h) (by omega) (by omega),
    wrap_int_of_in_range (y - h - 40) (by omega) (by omega),
    wrap_int_of_in_range (x - w / 2 + w) (by omega) (by omega),
    wrap_int_of_in_range (s.screen_width - w) (by omega) (by omega),
    wrap_int_of_in_range (s.screen_width - w - 10) (by omega) (by omega),
    wrap_int_of_in_range (y - h - 40 + h) (by omega) (by omega),
    wrap_int_of_in_range (y - h - 40 + h + 80) (by omega) (by omega),
    wrap_int_of_in_range (s.screen_height - h) (by omega) (by omega),
    wrap_int_of_in_range (s.screen_height - h - 10) (by omega) (by omega)]
  generalize w / 2 = half at hx1 hx2 ⊢
  have hfit : ∀ t : Int, (if y - h - 40 < 10 then y - h - 40 + h + 80 else y - h - 40) = t →
      wrap_int (t + h) = t + h := by
    intro t ht
    apply wrap_int_of_in_range
    · split at ht <;> omega
    · split at ht <;> omega
  rw [hfit _ rfl]
  refine ⟨?_, ?_, ?_, ?_, ?_, ?_, ?_⟩
  · split <;> split <;> omega
  · split <;> split <;> omega
  · split <;> split <;> omega
  · split <;> split <;> omega
  · intro ha hf
    split <;> split <;> omega
  · intro ha hf
    split <;> split <;> omega
  · intro ha hf
    split <;> split <;> omega

/-- The loop over the titles appends the marked lines in order. -/
theorem foldl_bullets (titles : List String) (init : String) :
    titles.foldl (fun text app => text ++ (bullet ++ app)) init
      = init ++ (titles.map (fun title => bullet ++ title)).foldr (fun line rest => line ++ rest) "" := by
  induction titles generalizing init with
  | nil => simp
  | cons title rest ih =>
    simp only [List.foldl_cons, List.map_cons, List.foldr_cons]
    rw [ih, String.append_assoc]

/-- The text of lines 577-588 is the text the specification describes. -/
theorem tooltip_text_eq (workspace_id : Int) (titles : List String) :
    tooltip_text workspace_id titles = claimed_tooltip_text workspace_id titles := by
  unfold tooltip_text claimed_tooltip_text
  simp only
  by_cases h : titles = []
  · simp only [h, if_true]
  · simp only [h, if_false]
    rw [foldl_bullets]
    simp only [String.append_assoc]

/-- Showing widgets changes no widget kind. -/
theorem kind_foldl_show (ws : List Nat) (s : State) (i : Nat) :
    ((ws.foldl (fun acc x => gtk_widget_show x acc) s).widgets[i]?).map (fun w => w.kind)
      = (s.widgets[i]?).map (fun w => w.kind) := by
  induction ws generalizing s with
  | nil => rfl
  | cons w rest ih =>
    simp only [List.foldl_cons]
    rw [ih]
    simp only [gtk_widget_show, State.update_widget, getElem?_heap_update]
    split
    · cases s.widgets[i]? <;> rfl
    · rfl

/-- After `gtk_label_set_text` the label holds the text. -/
theorem kind_gtk_label_set_text (text : String) (label : Nat) (s : State)
    (h : label < s.widgets.length) :
    ((gtk_label_set_text text label s).widgets[label]?).map (fun w => w.kind)
      = some (WidgetKind.label text) := by
  simp only [gtk_label_set_text, State.update_widget, getElem?_heap_update, if_true]
  rw [List.getElem?_eq_getElem h]
  rfl

/-- The label shows the text that `show_tooltip` built. -/
theorem show_tooltip_label (env : Env) (workspace_id x y : Int) (s : State) (window label : Nat)
    (hw : s.tooltip_window = some window) (hl : s.tooltip_label = some label)
    (hlt : label < s.widgets.length) :
    ((show_tooltip env workspace_id x y s).widgets[label]?).map (fun w => w.kind)
      = some (WidgetKind.label
          (tooltip_text workspace_id (get_workspace_apps env workspace_id s).1)) := by
  unfold show_tooltip
  rw [hw]
  simp only
  have hlay : (show_thumbnail env workspace_id (get_workspace_apps env workspace_id s).1
      (get_workspace_apps env workspace_id s).2).layout = s.layout := by
    rw [layout_show_thumbnail, get_workspace_apps_state, layout_emit]
  generalize show_thumbnail env workspace_id (get_workspace_apps env workspace_id s).1
      (get_workspace_apps env workspace_id s).2 = s1 at hlay ⊢
  simp only [State.layout, Prod.mk.injEq] at hlay
  obtain ⟨_, h2, _, _, _, _, _, _, h9⟩ := hlay
  rw [h2, hl]
  simp only [on_member, gtk_widget_show_all]
  rw [kind_foldl_show]
  exact kind_gtk_label_set_text _ _ _ (by omega)

/-- Whatever `fgets` stores holds a newline at its end only. -/
theorem fgets_take_newline (room : Nat) (stream : List Char) :
    ∀ c ∈ (fgets_take room stream).1.dropLast, c ≠ '\n' := by
  induction room generalizing stream with
  | zero => simp [fgets_take]
  | succ room ih =>
    cases stream with
    | nil => simp [fgets_take]
    | cons d rest =>
      unfold fgets_take
      by_cases hd : d = '\n'
      · simp [hd]
      · rw [if_neg hd]
        intro c hc
        simp only at hc
        cases hb : (fgets_take room rest).1 with
        | nil =>
          rw [hb] at hc
          simp at hc
        | cons e more =>
          rw [hb] at hc
          rw [List.dropLast_cons₂] at hc
          rcases List.mem_cons.mp hc with h | h
          · rw [h]
            exact hd
          · have := ih rest c
            rw [hb] at this
            exact this h

/-- The step `if (!t.empty() && t.back() == '\n') t.pop_back();` on a prefix of what `fgets`
stored leaves no newline. -/
theorem entry_no_newline (buffer taken : List Char) (hpre : taken <+: buffer)
    (hb : ∀ c ∈ buffer.dropLast, c ≠ '\n') :
    ∀ c ∈ (if taken.getLast? = some '\n' then taken.dropLast else taken), c ≠ '\n' := by
  have hdrop : ∀ c ∈ taken.dropLast, c ≠ '\n' := by
    intro c hc
    apply hb c
    have h1 : taken.dropLast <+: buffer.dropLast := by
      obtain ⟨extra, rfl⟩ := hpre
      cases extra with
      | nil => simp
      | cons e es =>
        rw [List.dropLast_append_cons]
        exact (List.dropLast_prefix _).trans (List.prefix_append _ _)
    exact h1.subset hc
  by_cases hlast : taken.getLast? = some '\n'
  · rw [if_pos hlast]
    exact hdrop
  · rw [if_neg hlast]
    intro c hc
    cases hg : taken.getLast? with
    | none =>
      have : taken = [] := List.getLast?_eq_none_iff.mp hg
      rw [this] at hc
      simp at hc
    | some a =>
      have hsplit := List.dropLast_append_getLast? a (by rw [hg]; exact rfl)
      rw [← hsplit] at hc
      rcases List.mem_append.mp hc with h | h
      · exact hdrop c h
      · simp only [List.mem_singleton] at h
        rw [h]
        intro ha
        apply hlast
        rw [hg, ha]

/-- No entry that the reading loop returns is empty or holds a newline. -/
theorem read_entries_clean (size fuel : Nat) (stream : List Char) :
    ∀ entry ∈ read_entries size fuel stream, entry ≠ "" ∧ ∀ c ∈ entry.data, c ≠ '\n' := by
  induction fuel generalizing stream with
  | zero => simp [read_entries]
  | succ fuel ih =>
    unfold read_entries
    cases stream with
    | nil => simp [fgets]
    | cons d rest =>
      simp only [fgets]
      intro entry hentry
      have hclean := entry_no_newline (fgets_take (size - 1) (d :: rest)).1
        (c_str (fgets_take (size - 1) (d :: rest)).1) (List.takeWhile_prefix _)
        (fgets_take_newline _ _)
      generalize (if (c_str (fgets_take (size - 1) (d :: rest)).1).getLast? = some '\n'
          then (c_str (fgets_take (size - 1) (d :: rest)).1).dropLast
          else c_str (fgets_take (size - 1) (d :: rest)).1) = e at hentry hclean
      by_cases he : e = []
      · simp only [he, ne_eq, not_true_eq_false, if_false] at hentry
        exact ih _ entry hentry
      · simp only [ne_eq, he, not_false_eq_true, if_true] at hentry
        rcases List.mem_cons.mp hentry with h | h
        · refine ⟨?_, ?_⟩
          · rw [h]
            intro hempty
            apply he
            have := congrArg String.data hempty
            simpa using this
          · rw [h]
            exact hclean
        · exact ih _ entry h

/-- No title that `get_workspace_apps` returns is empty or holds a newline. -/
theorem get_workspace_apps_clean (env : Env) (workspace_id : Int) (s : State) :
    ∀ title ∈ (get_workspace_apps env workspace_id s).1,
      title ≠ "" ∧ ∀ c ∈ title.data, c ≠ '\n' := by
  unfold get_workspace_apps
  simp only
  split
  · simp
  · exact read_entries_clean _ _ _

/-- C13: once the tooltip exists, `show_tooltip` puts into the tooltip label, for every
workspace id and every list of titles that `get_workspace_apps` returns, the header
followed by `\nNothing` when the list is empty, and else by ` (<k> apps):` and one marked
line per title in the returned order, `k` being the length of the list; the header is
`Special Workspace (Elysia)` for 13 and `Workspace <id>` otherwise. No returned title is
empty or holds a newline, so these are exactly `k` lines. -/
theorem tooltip_text_lines (env : Env) (workspace_id x y : Int) (s : State) (window label : Nat)
    (hw : s.tooltip_window = some window) (hl : s.tooltip_label = some label)
    (hlt : label < s.widgets.length) :
    ((show_tooltip env workspace_id x y s).widgets[label]?).map (fun w => w.kind)
        = some (WidgetKind.label
            (claimed_tooltip_text workspace_id (get_workspace_apps env workspace_id s).1))
      ∧ (∀ title ∈ (get_workspace_apps env workspace_id s).1,
          title ≠ "" ∧ ∀ c ∈ title.data, c ≠ '\n')
      ∧ (∀ titles, tooltip_text workspace_id titles = claimed_tooltip_text workspace_id titles) := by
  refine ⟨?_, get_workspace_apps_clean env workspace_id s, tooltip_text_eq workspace_id⟩
  rw [← tooltip_text_eq]
  exact show_tooltip_label env workspace_id x y s window label hw hl hlt

/-- Witness for C13, for workspace 2 with two windows on a fresh 1920x1080 switcher. -/
theorem tooltip_text_lines_witness :
    ((show_tooltip titles_env 2 500 300 (ready_state quiet_env)).widgets[29]?).map
        (fun w => w.kind)
      = some (WidgetKind.label
          (claimed_tooltip_text 2 (get_workspace_apps titles_env 2 (ready_state quiet_env)).1)) :=
  (tooltip_text_lines titles_env 2 500 300 (ready_state quiet_env) 26 29 (by decide) (by decide) (by decide)).1

/-- The tooltip text on concrete inputs. -/
theorem tooltip_text_examples :
    claimed_tooltip_text 2 ["Firefox", "kitty"]
        = "Workspace 2 (2 apps):" ++ bullet ++ "Firefox" ++ bullet ++ "kitty"
      ∧ claimed_tooltip_text 13 [] = "Special Workspace (Elysia)\nNothing"
      ∧ claimed_tooltip_text 7 [] = "Workspace 7\nNothing"
      ∧ claimed_tooltip_text 13 ["a"] = "Special Workspace (Elysia) (1 apps):" ++ bullet ++ "a"
      ∧ (get_workspace_apps titles_env 2 (ready_state quiet_env)).1 = ["Firefox", "kitty"]
      ∧ ((show_tooltip titles_env 2 500 300 (ready_state quiet_env)).widgets[29]?).map
          (fun w => w.kind)
        = some (WidgetKind.label ("Workspace 2 (2 apps):" ++ bullet ++ "Firefox" ++ bullet ++ "kitty")) := by
  refine ⟨?_, ?_, ?_, ?_, ?_, ?_⟩ <;> decide

/-- Counterexample to C17 as stated, on a screen 100 high with a tooltip 85 high (so that
`h + 10 <= screen_height`): the top margin for workspace 13 is 5, not at least 10. -/
theorem special_tooltip_top_under_10 :
    (ready_state low_screen_env).screen_height = 100
      ∧ low_screen_env.preferred_size = (50, 85)
      ∧ (show_tooltip low_screen_env 13 0 0 (ready_state low_screen_env)).tooltip_margin_top = 5 := by
  refine ⟨?_, ?_, ?_⟩ <;> decide

/-- C17, amended: for workspace 13, with the geometry of `calculate_dimensions`, a screen
whose width and height are at most `INT_MAX`, and a tooltip size `(w, h)` with `0 <= w`,
`w + 10 <= screen_width`, `0 <= h` and `h + 10 <= screen_height`, for which the two sums
that the code forms on `int` do not overflow (`center_x + w <= INT_MAX` and
`center_y + special_button_size / 2 + 20 + h <= INT_MAX`), the margins that `show_tooltip`
sets satisfy `0 <= left`, `left + w <= screen_width`, `0 <= top` and
`top + h <= screen_height - 10`, and `10 <= top` when moreover `h + 20 <= screen_height`;
they do not depend on the `x` and `y` passed in. -/
theorem special_tooltip_within_screen (env : Env) (x y : Int) (s : State) (window : Nat)
    (hwin : s.tooltip_window = some window)
    (hg : s.geometry = (calculate_dimensions env s).geometry)
    (hw0 : 0 ≤ env.preferred_size.1) (hw : env.preferred_size.1 + 10 ≤ s.screen_width)
    (hh0 : 0 ≤ env.preferred_size.2) (hh : env.preferred_size.2 + 10 ≤ s.screen_height)
    (hsw : s.screen_width ≤ INT_MAX) (hsh : s.screen_height ≤ INT_MAX)
    (hxw : s.center_x + env.preferred_size.1 ≤ INT_MAX)
    (hyh : s.center_y + s.special_button_size.tdiv 2 + 20 + env.preferred_size.2 ≤ INT_MAX) :
    0 ≤ (show_tooltip env 13 x y s).tooltip_margin_left
      ∧ (show_tooltip env 13 x y s).tooltip_margin_left + env.preferred_size.1 ≤ s.screen_width
      ∧ 0 ≤ (show_tooltip env 13 x y s).tooltip_margin_top
      ∧ (show_tooltip env 13 x y s).tooltip_margin_top + env.preferred_size.2
          ≤ s.screen_height - 10
      ∧ (env.preferred_size.2 + 20 ≤ s.screen_height →
          10 ≤ (show_tooltip env 13 x y s).tooltip_margin_top)
      ∧ (∀ x2 y2 : Int,
          (show_tooltip env 13 x2 y2 s).tooltip_margin_left
              = (show_tooltip env 13 x y s).tooltip_margin_left
            ∧ (show_tooltip env 13 x2 y2 s).tooltip_margin_top
              = (show_tooltip env 13 x y s).tooltip_margin_top) := by
  obtain ⟨hcx, hcy, hsb⟩ := geometry_facts env s hg
  have hm := show_tooltip_margins env 13 x y s window hwin
  have hpos := tooltip_position_special s x y env.preferred_size.1 env.preferred_size.2
    hcx hcy hsb hw0 hw hh0 hh hsw hsh hxw hyh
  have hm1 := congrArg Prod.fst hm
  have hm2 := congrArg Prod.snd hm
  simp only at hm1 hm2
  rw [hm1, hm2]
  refine ⟨hpos.1, hpos.2.1, hpos.2.2.1, hpos.2.2.2.1, hpos.2.2.2.2, ?_⟩
  intro x2 y2
  have hn := show_tooltip_margins env 13 x2 y2 s window hwin
  have hn1 := congrArg Prod.fst hn
  have hn2 := congrArg Prod.snd hn
  simp only at hn1 hn2
  rw [hn1, hn2]
  exact ⟨rfl, rfl⟩

/-- Witness for C17 as amended, on a fresh 1920x1080 switcher with a 200x100 tooltip. -/
theorem special_tooltip_within_screen_witness :
    0 ≤ (show_tooltip quiet_env 13 7 9 (ready_state quiet_env)).tooltip_margin_left
      ∧ (show_tooltip quiet_env 13 7 9 (ready_state quiet_env)).tooltip_margin_top + 100
          ≤ 1080 - 10 :=
  ⟨(special_tooltip_within_screen quiet_env 7 9 (ready_state quiet_env) 26 (by decide) (by decide) (by decide) (by decide) (by decide)
      (by decide) (by decide) (by decide) (by decide) (by decide)).1,
   (special_tooltip_within_screen quiet_env 7 9 (ready_state quiet_env) 26 (by decide) (by decide) (by decide) (by decide) (by decide)
      (by decide) (by decide) (by decide) (by decide) (by decide)).2.2.2.1⟩

/-- Counterexample to C18 as stated, on a 1920x1080 screen with a tooltip 600 high and the
anchor at `y = 500`: `y - h - 40` is less than 10, yet the top margin is 470, not
`y + 40 = 540`, as the tooltip would not fit below the anchor. -/
theorem regular_tooltip_not_at_y_plus_40 :
    (ready_state tall_tooltip_env).screen_height = 1080
      ∧ tall_tooltip_env.preferred_size = (300, 600)
      ∧ (500 : Int) - 600 - 40 < 10
      ∧ (show_tooltip tall_tooltip_env 5 500 500 (ready_state tall_tooltip_env)).tooltip_margin_top
          = 470 := by
  refine ⟨?_, ?_, ?_, ?_⟩ <;> decide

/-- C18, amended: for a workspace other than 13, a screen whose width and height are at
most `INT_MAX`, an anchor `(x, y)` with `y >= 0` and a tooltip size `(w, h)` with `0 <= w`,
`w + 20 <= screen_width`, `0 <= h` and `h + 20 <= screen_height`, for which the sums and
differences that the code forms on `int` do not overflow (`INT_MIN <= x - w / 2`,
`x - w / 2 + w <= INT_MAX`, `INT_MIN <= y - h - 40` and `y + 40 + h <= INT_MAX`), the
margins that `show_tooltip` sets satisfy `10 <= left`, `left + w <= screen_width`,
`10 <= top` and `top + h <= screen_height`. The top margin is `y - h - 40` when that is at
least 10 and the tooltip fits; when `y - h - 40 < 10` it is `y + 40` if the tooltip fits
there, and `screen_height - h - 10` if it does not. -/
theorem regular_tooltip_within_screen (env : Env) (workspace_id x y : Int) (s : State) (window : Nat)
    (hwin : s.tooltip_window = some window) (hid : workspace_id ≠ 13) (hy : 0 ≤ y)
    (hw0 : 0 ≤ env.preferred_size.1) (hw : env.preferred_size.1 + 20 ≤ s.screen_width)
    (hh0 : 0 ≤ env.preferred_size.2) (hh : env.preferred_size.2 + 20 ≤ s.screen_height)
    (hsw : s.screen_width ≤ INT_MAX) (hsh : s.screen_height ≤ INT_MAX)
    (hx1 : INT_MIN ≤ x - env.preferred_size.1.tdiv 2)
    (hx2 : x - env.preferred_size.1.tdiv 2 + env.preferred_size.1 ≤ INT_MAX)
    (hy1 : INT_MIN ≤ y - env.preferred_size.2 - 40)
    (hy2 : y + 40 + env.preferred_size.2 ≤ INT_MAX) :
    10 ≤ (show_tooltip env workspace_id x y s).tooltip_margin_left
      ∧ (show_tooltip env workspace_id x y s).tooltip_margin_left + env.preferred_size.1
          ≤ s.screen_width
      ∧ 10 ≤ (show_tooltip env workspace_id x y s).tooltip_margin_top
      ∧ (show_tooltip env workspace_id x y s).tooltip_margin_top + env.preferred_size.2
          ≤ s.screen_height
      ∧ (10 ≤ y - env.preferred_size.2 - 40 →
          y - env.preferred_size.2 - 40 + env.preferred_size.2 ≤ s.screen_height →
          (show_tooltip env workspace_id x y s).tooltip_margin_top = y - env.preferred_size.2 - 40)
      ∧ (y - env.preferred_size.2 - 40 < 10 → y + 40 + env.preferred_size.2 ≤ s.screen_height →
          (show_tooltip env workspace_id x y s).tooltip_margin_top = y + 40)
      ∧ (y - env.preferred_size.2 - 40 < 10 → s.screen_height < y + 40 + env.preferred_size.2 →
          (show_tooltip env workspace_id x y s).tooltip_margin_top
            = s.screen_height - env.preferred_size.2 - 10) := by
  have hm := show_tooltip_margins env workspace_id x y s window hwin
  have hpos := tooltip_position_regular s workspace_id x y env.preferred_size.1
    env.preferred_size.2 hid hy hw0 hw hh0 hh hsw hsh hx1 hx2 hy1 hy2
  have hm1 := congrArg Prod.fst hm
  have hm2 := congrArg Prod.snd hm
  simp only at hm1 hm2
  rw [hm1, hm2]
  exact hpos

/-- Witness for C18 as amended, on a fresh 1920x1080 switcher with a 200x100 tooltip. -/
theorem regular_tooltip_within_screen_witness :
    10 ≤ (show_tooltip quiet_env 5 500 300 (ready_state quiet_env)).tooltip_margin_left
      ∧ (show_tooltip quiet_env 5 500 300 (ready_state quiet_env)).tooltip_margin_top = 300 - 100 - 40 :=
  ⟨(regular_tooltip_within_screen quiet_env 5 500 300 (ready_state quiet_env) 26 (by decide) (by decide) (by decide) (by decide)
      (by decide) (by decide) (by decide) (by decide) (by decide) (by decide) (by decide) (by decide)
      (by decide)).1,
   (regular_tooltip_within_screen quiet_env 5 500 300 (ready_state quiet_env) 26 (by decide) (by decide) (by decide) (by decide)
      (by decide) (by decide) (by decide) (by decide) (by decide) (by decide) (by decide) (by decide)
      (by decide)).2.2.2.2.1 (by decide) (by decide)⟩

/-- Where a sum overflows, the margins leave the screen. An anchor at `x = INT_MAX` on a
1920x1080 screen with a 200x100 tooltip: `x - 100 + 200` wraps below zero, no clamp applies
and the left margin is 2147483547. For workspace 13 on a screen 2147483647 wide with a
tooltip 2147483637 wide: `center_x + w` wraps below zero and the left margin stays at
`center_x`, 1073741823, so that the tooltip ends beyond the right edge. -/
theorem tooltip_position_overflow_examples :
    (show_tooltip quiet_env 5 2147483647 300 (ready_state quiet_env)).tooltip_margin_left
        = 2147483547
      ∧ (ready_state widest_screen_env).screen_width = 2147483647
      ∧ (show_tooltip widest_screen_env 13 0 0
          (ready_state widest_screen_env)).tooltip_margin_left = 1073741823
      ∧ ¬ ((show_tooltip widest_screen_env 13 0 0
            (ready_state widest_screen_env)).tooltip_margin_left
          + widest_screen_env.preferred_size.1 ≤ (ready_state widest_screen_env).screen_width) := by
  refine ⟨?_, ?_, ?_, ?_⟩ <;> decide

/-! ### Special workspace test -/

/-- The test `s.find(needle) == 0` holds exactly when `s` starts with `needle`. -/
theorem find_eq_some_zero_iff (needle hay : List Char) :
    find needle hay = some 0 ↔ needle <+: hay := by
  cases hay with
  | nil =>
    unfold find
    by_cases h : needle.isPrefixOf [] = true
    · simp [h, List.isPrefixOf_iff_prefix.mp h]
    · have hp : ¬ needle <+: [] := fun hp => h (List.isPrefixOf_iff_prefix.mpr hp)
      simp [h, hp]
  | cons c rest =>
    unfold find
    by_cases h : needle.isPrefixOf (c :: rest) = true
    · simp [h, List.isPrefixOf_iff_prefix.mp h]
    · have hp : ¬ needle <+: c :: rest := fun hp => h (List.isPrefixOf_iff_prefix.mpr hp)
      rw [if_neg h]
      constructor
      · intro hs
        cases hf : find needle rest with
        | none => rw [hf] at hs; simp at hs
        | some i => rw [hf] at hs; simp at hs
      · intro hs
        exact absurd hs hp

/-- On an output that is not empty `fgets` stores something. -/
theorem fgets_of_ne_empty (size : Nat) (output : String) (h : output ≠ "") :
    fgets size output.data = some (fgets_take (size - 1) output.data) := by
  cases hd : output.data with
  | nil =>
    exfalso
    apply h
    exact String.ext hd
  | cons c rest => rfl

/-- The fallback says yes exactly when the name query opens, prints something, and the
stripped name starts with `special:`. -/
theorem special_by_name_iff (env : Env) :
    (special_by_name env).1 = true ↔
      ∃ name_output, env.popen name_command = some name_output ∧ name_output ≠ ""
        ∧ "special:".data <+: first_line_stripped name_output := by
  unfold special_by_name
  cases hp : env.popen name_command with
  | none => simp
  | some output =>
    by_cases he : output = ""
    · subst he
      simp [fgets]
    · simp only [fgets_of_ne_empty 128 output he]
      have hkey : (decide (strip_back is_nl_cr_space (c_str (fgets_take (128 - 1) output.data).1)
            = "special:elysia".data)
          || decide (find "special:".data
              (strip_back is_nl_cr_space (c_str (fgets_take (128 - 1) output.data).1)) = some 0))
          = true ↔ "special:".data <+: first_line_stripped output := by
        unfold first_line_stripped
        rw [Bool.or_eq_true, decide_eq_true_iff, decide_eq_true_iff, find_eq_some_zero_iff]
        constructor
        · intro h
          rcases h with h | h
          · rw [h]
            exact ⟨"elysia".data, by decide⟩
          · exact h
        · intro h
          exact Or.inr h
      rw [hkey]
      constructor
      · intro h
        exact ⟨output, rfl, he, h⟩
      · rintro ⟨o, ho, _, hpre⟩
        have : o = output := by
          injection ho with ho
          exact ho.symm
        rw [this] at hpre
        exact hpre

/-- A digit is no white space and no sign. -/
theorem digit_not_space (c : Char) (h : c.isDigit = true) :
    isspace c = false ∧ c ≠ '-' ∧ c ≠ '+' := by
  refine ⟨?_, ?_, ?_⟩
  · by_contra hs
    simp only [isspace, Bool.not_eq_false, Bool.or_eq_true, decide_eq_true_eq] at hs
    rcases hs with ((((hs | hs) | hs) | hs) | hs) | hs <;> (rw [hs] at h; exact absurd h (by decide))
  · intro hs
    rw [hs] at h
    exact absurd h (by decide)
  · intro hs
    rw [hs] at h
    exact absurd h (by decide)

/-- The value of a run of digits is not negative. -/
theorem digits_value_nonneg (ds : List Char) : 0 ≤ digits_value ds := by
  have key : ∀ (l : List Char) (acc : Int), 0 ≤ acc →
      0 ≤ l.foldl (fun acc d => acc * 10 + ((d.toNat - '0'.toNat : Nat) : Int)) acc := by
    intro l
    induction l with
    | nil => intro acc h; exact h
    | cons d rest ih =>
      intro acc h
      simp only [List.foldl_cons]
      apply ih
      omega
  exact key ds 0 (le_refl 0)

/-- A plain decimal numeral, with or without a minus sign, is parsed to its value when
that fits an `int`, and makes `std::stoi` throw when it does not. -/
theorem stoi_decimal (ds : List Char) (hne : ds ≠ []) (hd : ∀ c ∈ ds, c.isDigit = true) :
    stoi ds = (if digits_value ds ≤ 2147483647 then some (digits_value ds) else none)
      ∧ stoi ('-' :: ds)
        = (if digits_value ds ≤ 2147483648 then some (- digits_value ds) else none) := by
  have hnn := digits_value_nonneg ds
  have htake : ds.takeWhile Char.isDigit = ds := by
    rw [List.takeWhile_eq_self_iff]
    exact hd
  obtain ⟨c, rest, rfl⟩ := List.exists_cons_of_ne_nil hne
  obtain ⟨hsp, hminus, hplus⟩ := digit_not_space c (hd c (List.mem_cons_self _ _))
  constructor
  · unfold stoi
    simp only [List.dropWhile_cons, hsp, Bool.false_eq_true, if_false, List.head?_cons,
      Option.some.injEq, hminus, hplus, or_self, htake, hne]
    by_cases hr : digits_value (c :: rest) ≤ 2147483647
    · rw [if_pos hr, if_pos ⟨by omega, hr⟩]
    · rw [if_neg hr, if_neg (fun h => hr h.2)]
  · have hsm : isspace '-' = false := by decide
    unfold stoi
    simp only [List.dropWhile_cons, hsm, Bool.false_eq_true, if_false, List.head?_cons,
      true_or, if_true, List.tail_cons, htake, hne]
    by_cases hr : digits_value (c :: rest) ≤ 2147483648
    · rw [if_pos hr, if_pos ⟨by omega, by omega⟩]
    · rw [if_neg hr, if_neg (fun h => hr (by omega))]

/-- C19: `is_currently_on_special_workspace` returns false when the pipe cannot be opened or
the query prints nothing; when `std::stoi` parses the first line (as `fgets` stores it,
stripped of trailing newlines, carriage returns and spaces) to the `int` `n`, it returns
true exactly when `n < 0`; when `std::stoi` throws, it returns true exactly when the name
query opens, prints something, and the name, stripped the same way, starts with `special:`. -/
theorem is_currently_on_special_workspace_cases (env : Env) :
    (env.popen id_command = none → (is_currently_on_special_workspace env).1 = false)
      ∧ (env.popen id_command = some "" → (is_currently_on_special_workspace env).1 = false)
      ∧ (∀ output n, env.popen id_command = some output → output ≠ "" →
          stoi (first_line_stripped output) = some n →
          (is_currently_on_special_workspace env).1 = decide (n < 0))
      ∧ (∀ output, env.popen id_command = some output → output ≠ "" →
          stoi (first_line_stripped output) = none →
          ((is_currently_on_special_workspace env).1 = true ↔
            ∃ name_output, env.popen name_command = some name_output ∧ name_output ≠ ""
              ∧ "special:".data <+: first_line_stripped name_output)) := by
  refine ⟨?_, ?_, ?_, ?_⟩
  · intro h
    unfold is_currently_on_special_workspace
    rw [h]
  · intro h
    unfold is_currently_on_special_workspace
    rw [h]
    rfl
  · intro output n h he hs
    unfold is_currently_on_special_workspace
    rw [h]
    simp only [fgets_of_ne_empty 128 output he]
    unfold first_line_stripped at hs
    rw [hs]
  · intro output h he hs
    rw [← special_by_name_iff]
    unfold is_currently_on_special_workspace
    rw [h]
    simp only [fgets_of_ne_empty 128 output he]
    unfold first_line_stripped at hs
    rw [hs]

/-- The parser and the whole test on concrete outputs. -/
theorem is_currently_on_special_workspace_examples :
    stoi "-98".data = some (-98) ∧ stoi "3".data = some 3 ∧ stoi "null".data = none
      ∧ stoi "".data = none ∧ stoi " +12 apps".data = some 12
      ∧ stoi "2147483648".data = none ∧ stoi "-2147483648".data = some (-2147483648)
      ∧ first_line_stripped "-98 \r\n" = "-98".data
      ∧ (is_currently_on_special_workspace (window_env "-98\n" "")).1 = true
      ∧ (is_currently_on_special_workspace (window_env "3\n" "special:elysia\n")).1 = false
      ∧ (is_currently_on_special_workspace (window_env "null\n" "special:magic\n")).1 = true
      ∧ (is_currently_on_special_workspace (window_env "null\n" "3\n")).1 = false
      ∧ (is_currently_on_special_workspace (window_env "null\n" "")).1 = false
      ∧ (is_currently_on_special_workspace (window_env "" "special:elysia\n")).1 = false
      ∧ (is_currently_on_special_workspace quiet_env).1 = false := by
  refine ⟨?_, ?_, ?_, ?_, ?_, ?_, ?_, ?_, ?_, ?_, ?_, ?_, ?_, ?_, ?_⟩ <;> decide

/-- Witness for C19, for an active window on workspace -98. -/
theorem is_currently_on_special_workspace_cases_witness :
    (is_currently_on_special_workspace (window_env "-98\n" "")).1 = decide ((-98 : Int) < 0) :=
  (is_currently_on_special_workspace_cases (window_env "-98\n" "")).2.2.1 "-98\n" (-98) (by decide) (by decide) (by decide)

/-! ### Reading the entries of a pipe -/

/-- Nothing is read from an empty stream. -/
theorem fgets_take_nil (room : Nat) : fgets_take room [] = ([], []) := by
  cases room <;> rfl

/-- Only the empty output has no line. -/
theorem raw_lines_eq_nil (stream : List Char) (h : raw_lines stream = []) : stream = [] := by
  cases stream with
  | nil => rfl
  | cons c rest =>
    unfold raw_lines at h
    split at h
    · simp at h
    · split at h <;> simp at h

/-- When the first line fits the room, `fgets` stores exactly that line and leaves the
other lines in the stream. -/
theorem fgets_take_line (stream line : List Char) (more : List (List Char)) (room : Nat)
    (hl : raw_lines stream = line :: more) (hroom : line.length ≤ room) :
    (fgets_take room stream).1 = line
      ∧ raw_lines (fgets_take room stream).2 = more
      ∧ line ++ (fgets_take room stream).2 = stream
      ∧ line ≠ [] := by
  induction stream generalizing line more room with
  | nil => simp [raw_lines] at hl
  | cons c rest ih =>
    unfold raw_lines at hl
    by_cases hc : c = '\n'
    · rw [if_pos hc] at hl
      simp only [List.cons.injEq] at hl
      obtain ⟨h1, h2⟩ := hl
      subst h1
      obtain ⟨r, rfl⟩ : ∃ r, room = r + 1 := ⟨room - 1, by simp at hroom; omega⟩
      simp [fgets_take, hc, h2]
    · rw [if_neg hc] at hl
      cases hr : raw_lines rest with
      | nil =>
        rw [hr] at hl
        simp only [List.cons.injEq] at hl
        obtain ⟨h1, h2⟩ := hl
        subst h1
        subst h2
        have hrest := raw_lines_eq_nil rest hr
        subst hrest
        obtain ⟨r, rfl⟩ : ∃ r, room = r + 1 := ⟨room - 1, by simp at hroom; omega⟩
        simp [fgets_take, hc, fgets_take_nil, raw_lines]
      | cons l ms =>
        rw [hr] at hl
        simp only [List.cons.injEq] at hl
        obtain ⟨h1, h2⟩ := hl
        subst h1
        subst h2
        obtain ⟨r, rfl⟩ : ∃ r, room = r + 1 := ⟨room - 1, by simp at hroom; omega⟩
        obtain ⟨i1, i2, i3, _⟩ := ih l ms r hr (by simp at hroom; omega)
        simp [fgets_take, hc, i1, i2, i3]

/-- A buffer without NUL is the string it holds. -/
theorem c_str_of_no_nul (buffer : List Char) (h : ∀ c ∈ buffer, c ≠ '\x00') :
    c_str buffer = buffer := by
  unfold c_str
  rw [List.takeWhile_eq_self_iff]
  intro c hc
  simp [h c hc]

/-- With enough rounds, on an output without NUL whose lines fit the buffer, the reading
loop returns the lines that are not empty, in order, each without its newline. -/
theorem read_entries_eq (size fuel : Nat) (stream : List Char)
    (hfuel : stream.length ≤ fuel)
    (hfit : ∀ line ∈ raw_lines stream, line.length ≤ size - 1)
    (hnul : ∀ c ∈ stream, c ≠ '\x00') :
    read_entries size fuel stream = claimed_entries stream := by
  induction fuel generalizing stream with
  | zero =>
    have : stream = [] := List.length_eq_zero.mp (Nat.le_zero.mp hfuel)
    subst this
    rfl
  | succ fuel ih =>
    cases stream with
    | nil => rfl
    | cons c rest =>
      cases hr : raw_lines (c :: rest) with
      | nil => exact absurd (raw_lines_eq_nil _ hr) (by simp)
      | cons line more =>
        obtain ⟨h1, h2, h3, h4⟩ := fgets_take_line (c :: rest) line more (size - 1) hr
          (hfit line (by rw [hr]; exact List.mem_cons_self _ _))
        have hlen : (fgets_take (size - 1) (c :: rest)).2.length ≤ fuel := by
          have := congrArg List.length h3
          simp only [List.length_append, List.length_cons] at this hfuel
          have hpos : 0 < line.length := List.length_pos.mpr h4
          omega
        have hsub : ∀ d ∈ (fgets_take (size - 1) (c :: rest)).2, d ∈ c :: rest := by
          intro d hd
          rw [← h3]
          exact List.mem_append_right _ hd
        have hline : ∀ d ∈ line, d ≠ '\x00' := by
          intro d hd
          apply hnul
          rw [← h3]
          exact List.mem_append_left _ hd
        have hrec := ih (fgets_take (size - 1) (c :: rest)).2 hlen
          (by
            intro l hl
            rw [h2] at hl
            exact hfit l (by rw [hr]; exact List.mem_cons_of_mem _ hl))
          (fun d hd => hnul d (hsub d hd))
        unfold read_entries
        simp only [fgets, h1, c_str_of_no_nul line hline]
        rw [hrec]
        unfold claimed_entries
        rw [hr, h2]
        simp only [List.map_cons, without_newline]
        by_cases he : (if line.getLast? = some '\n' then line.dropLast else line) = []
        · simp [he]
        · simp [he]

/-- No entry of the reading loop is the empty string. -/
theorem read_entries_ne_empty (size fuel : Nat) (stream : List Char) :
    ∀ entry ∈ read_entries size fuel stream, entry ≠ "" :=
  fun entry h => (read_entries_clean size fuel stream entry h).1

/-- Counterexample to C20 as stated: the output `a`, NUL, `b`, newline is one line of 4 bytes,
so the claim asks for the 3-byte entry, and both functions return the entry `a`: the
assignment `std::string title = buffer` stops at the first NUL of the buffer. -/
theorem nul_byte_truncates_entry :
    (∀ line ∈ raw_lines "a\x00b\n".data, line.length ≤ 127)
      ∧ claimed_entries "a\x00b\n".data = ["a\x00b"]
      ∧ (get_workspace_apps (output_env "a\x00b\n") 2 blank_state).1 = ["a"]
      ∧ (get_workspace_app_classes (output_env "a\x00b\n") 2 blank_state).1 = ["a"] := by
  refine ⟨?_, ?_, ?_, ?_⟩ <;> decide

/-- C20, amended: on an output without NUL byte whose lines, newline included, are at most
255 bytes, `get_workspace_apps` returns exactly the lines that are not empty, in order, each
without its newline; `get_workspace_app_classes` does the same with 127 bytes; and on
every output at all, neither returns an empty string as an entry. -/
theorem workspace_entries_are_lines (env : Env) (workspace_id : Int) (s : State) :
    (∀ output, env.popen (titles_command workspace_id) = some output →
        (∀ c ∈ output.data, c ≠ '\x00') →
        (∀ line ∈ raw_lines output.data, line.length ≤ 255) →
        (get_workspace_apps env workspace_id s).1 = claimed_entries output.data)
      ∧ (∀ output, env.popen (classes_command workspace_id) = some output →
        (∀ c ∈ output.data, c ≠ '\x00') →
        (∀ line ∈ raw_lines output.data, line.length ≤ 127) →
        (get_workspace_app_classes env workspace_id s).1 = claimed_entries output.data)
      ∧ (∀ title ∈ (get_workspace_apps env workspace_id s).1, title ≠ "")
      ∧ (∀ app_class ∈ (get_workspace_app_classes env workspace_id s).1, app_class ≠ "") := by
  refine ⟨?_, ?_, ?_, ?_⟩
  · intro output hp hnul hfit
    unfold get_workspace_apps
    simp only [hp]
    exact read_entries_eq 256 output.length output.data (le_refl _) hfit hnul
  · intro output hp hnul hfit
    unfold get_workspace_app_classes
    simp only [hp]
    exact read_entries_eq 128 output.length output.data (le_refl _) hfit hnul
  · intro title h
    exact (get_workspace_apps_clean env workspace_id s title h).1
  · intro app_class h
    unfold get_workspace_app_classes at h
    simp only at h
    split at h
    · simp at h
    · exact read_entries_ne_empty _ _ _ app_class h

/-- Witness for C20 as amended: two titles with an empty line between them and no final
newline. -/
theorem workspace_entries_are_lines_witness :
    (get_workspace_apps (output_env "Firefox\n\nkitty") 2 blank_state).1
      = claimed_entries "Firefox\n\nkitty".data :=
  (workspace_entries_are_lines (output_env "Firefox\n\nkitty") 2 blank_state).1 "Firefox\n\nkitty" rfl
    (by decide) (by decide)

/-- The entries read from a few concrete outputs. -/
theorem workspace_entries_examples :
    claimed_entries "Firefox\n\nkitty".data = ["Firefox", "kitty"]
      ∧ raw_lines "Firefox\n\nkitty".data = ["Firefox\n".data, "\n".data, "kitty".data]
      ∧ (get_workspace_apps (output_env "Firefox\n\nkitty") 2 blank_state).1 = ["Firefox", "kitty"]
      ∧ (get_workspace_app_classes (output_env "Firefox\n\nkitty\n") 13 blank_state).1
          = ["Firefox", "kitty"]
      ∧ (get_workspace_apps (output_env "") 2 blank_state).1 = []
      ∧ (get_workspace_apps quiet_env 2 blank_state).1 = [] := by
  refine ⟨?_, ?_, ?_, ?_, ?_, ?_⟩ <;> decide

/-! ### Application icons -/

/-- An update at the last object of a heap. -/
theorem heap_update_append_length {α : Type} (f : α → α) (l : List α) (a : α) :
    heap_update f l.length (l ++ [a]) = l ++ [f a] := by
  induction l with
  | nil => rfl
  | cons b l ih => simp [heap_update, ih]

/-- The loop visits the first class and goes on with the others. -/
theorem place_app_icons_cons (env : Env) (workspace_id base_x base_y start_offset icon_spacing : Int)
    (app_class : String) (rest : List String) (j : Int) (acc : IconLoop) :
    place_app_icons env workspace_id base_x base_y start_offset icon_spacing (app_class :: rest) j acc
      = place_app_icons env workspace_id base_x base_y start_offset icon_spacing rest (j + 1)
          (place_app_icons env workspace_id base_x base_y start_offset icon_spacing [app_class] j acc) := by
  simp only [place_app_icons]
  cases (get_app_icon env app_class acc.state).1 <;> rfl

/-- One round of the loop for a class without icon. -/
theorem place_one_none (env : Env) (workspace_id base_x base_y start_offset icon_spacing : Int)
    (app_class : String) (j : Int) (acc : IconLoop)
    (h : (get_app_icon env app_class acc.state).1 = none) :
    place_app_icons env workspace_id base_x base_y start_offset icon_spacing [app_class] j acc
      = { acc with state := (get_app_icon env app_class acc.state).2 } := by
  simp only [place_app_icons, h]

/-- One round of the loop for a class with an icon, in closed form. -/
theorem place_one_some (env : Env) (workspace_id base_x base_y start_offset icon_spacing : Int)
    (app_class : String) (j : Int) (acc : IconLoop) (app_icon : Nat)
    (h : (get_app_icon env app_class acc.state).1 = some app_icon) :
    place_app_icons env workspace_id base_x base_y start_offset icon_spacing [app_class] j acc
      = { workspace_app_icons := acc.workspace_app_icons ++ [some app_icon],
          workspace_icon_widgets :=
            acc.workspace_icon_widgets ++ [(get_app_icon env app_class acc.state).2.widgets.length],
          state :=
            { (get_app_icon env app_class acc.state).2 with
              widgets := (get_app_icon env app_class acc.state).2.widgets ++ [app_icon_image app_icon],
              pixbufs := heap_update (fun n => n - 1) app_icon
                (heap_update (fun n => n + 1) app_icon
                  (heap_update (fun n => n + 1) app_icon
                    (get_app_icon env app_class acc.state).2.pixbufs)),
              fixed_children := (get_app_icon env app_class acc.state).2.fixed_children ++
                [((get_app_icon env app_class acc.state).2.widgets.length,
                  base_x + start_offset + (j * icon_spacing)
                    - (get_app_icon env app_class acc.state).2.app_icon_size.tdiv 2,
                  if workspace_id = 13 then base_y
                  else base_y + (get_app_icon env app_class acc.state).2.button_size.tdiv 2 + 10)] } } := by
  simp only [place_app_icons, h]
  generalize (get_app_icon env app_class acc.state).2 = got
  simp only [gtk_image_new_from_pixbuf, State.new_widget, State.g_object_ref, add_class,
    State.update_widget, gtk_fixed_put, gtk_widget_show, State.g_object_unref,
    heap_update_append_length, app_icon_image, blank_widget, List.nil_append]

/-- The images of the loop hold the pixbufs they were made from. -/
theorem image_pixbufs_map (placed : List Nat) :
    image_pixbufs (placed.map app_icon_image) = placed := by
  induction placed with
  | nil => rfl
  | cons p rest ih =>
    simp only [image_pixbufs] at ih
    simp [image_pixbufs, app_icon_image, blank_widget, ih]

/-- Under the loader convention one theme query returns null with `error` set, or a new
pixbuf with one reference and no `error`. -/
theorem load_icon_contract (env : Env) (hc : loader_contract env) (name : String) (s : State) :
    load_icon env name s = (none, s, true)
      ∨ load_icon env name s
          = (some s.pixbufs.length, { s with pixbufs := s.pixbufs ++ [1] }, false) := by
  unfold load_icon
  have h := hc name s.app_icon_size
  cases hp : (env.gtk_icon_theme_load_icon name s.app_icon_size).pixbuf
  · rw [hp] at h
    left
    simp [h, hp]
  · rw [hp] at h
    right
    simp [h, hp, State.new_pixbuf]

/-- Under the loader convention the fallback loop, entered with null, ends with null and the
heap as it was, or with one new pixbuf with one reference. -/
theorem try_fallbacks_contract (env : Env) (hc : loader_contract env) (names : List String)
    (s : State) :
    try_fallbacks env names (none, s) = (none, s)
      ∨ try_fallbacks env names (none, s)
          = (some s.pixbufs.length, { s with pixbufs := s.pixbufs ++ [1] }) := by
  induction names with
  | nil => left; rfl
  | cons name rest ih =>
    unfold try_fallbacks
    rcases load_icon_contract env hc name s with e | e
    · simp only [e, Option.isSome_none, Bool.false_and, Bool.false_eq_true, if_false]
      exact ih
    · right
      simp [e]

/-- Under the loader convention the theme lookup returns null and the heap as it was, or
one new pixbuf with one reference. -/
theorem lookup_icon_contract (env : Env) (hc : loader_contract env) (app_class : String)
    (s : State) :
    lookup_icon env app_class s = (none, s)
      ∨ lookup_icon env app_class s
          = (some s.pixbufs.length, { s with pixbufs := s.pixbufs ++ [1] }) := by
  unfold lookup_icon
  simp only
  generalize (if (!env.gtk_icon_theme_has_icon app_class) = true then String.map Char.toLower app_class
      else app_class) = icon_name
  rcases load_icon_contract env hc icon_name s with e | e
  · simp only [e, if_true]
    exact try_fallbacks_contract env hc fallbacks s
  · right
    simp [e]

/-- The four ways `get_app_icon` ends under the loader convention, the cached pointers
being in the heap: nothing changes; a cached pixbuf gets one more reference; a miss caches
null; a miss creates a pixbuf with two references, one of them for the new cache entry. -/
theorem get_app_icon_cases (env : Env) (hc : loader_contract env) (app_class : String)
    (s : State) (hv : theme_cache_valid s) :
    get_app_icon env app_class s = (none, s)
      ∨ (∃ p, p < s.pixbufs.length ∧ get_app_icon env app_class s = (some p, s.g_object_ref p))
      ∨ (map_find app_class s.theme_icon_cache = none
          ∧ get_app_icon env app_class s
            = (none, { s with theme_icon_cache := s.theme_icon_cache ++ [(app_class, none)] }))
      ∨ (map_find app_class s.theme_icon_cache = none
          ∧ get_app_icon env app_class s
            = (some s.pixbufs.length,
                { s with
                  pixbufs := s.pixbufs ++ [2],
                  theme_icon_cache :=
                    s.theme_icon_cache ++ [(app_class, some s.pixbufs.length)] })) := by
  unfold get_app_icon
  by_cases he : app_class = ""
  · left
    simp [he]
  · rw [if_neg he]
    cases hf : map_find app_class s.theme_icon_cache with
    | some entry =>
      cases entry with
      | none => left; rfl
      | some p => right; left; exact ⟨p, hv app_class p hf, rfl⟩
    | none =>
      right; right
      rcases lookup_icon_contract env hc app_class s with e | e
      · left
        refine ⟨rfl, ?_⟩
        simp only [e, cache_icon]
        rw [map_assign_of_find_none _ _ _ hf]
      · right
        refine ⟨rfl, ?_⟩
        simp only [e, cache_icon, State.g_object_ref]
        rw [map_assign_of_find_none _ _ _ hf, heap_update_append_length]

/-- Looking up a key in a map with entries added behind. -/
theorem map_find_append {κ ν : Type} [DecidableEq κ] (k : κ) (m extra : List (κ × ν)) :
    map_find k (m ++ extra)
      = match map_find k m with
        | some v => some v
        | none => map_find k extra := by
  induction m with
  | nil => simp [map_find]
  | cons p rest ih =>
    obtain ⟨k1, v1⟩ := p
    by_cases hk : k1 = k
    · simp [map_find, hk]
    · simp [map_find, hk, ih]

/-- The cached pointers stay in the heap when the heap does not shrink and the entries
added to the cache point into it. -/
theorem theme_cache_valid_step (s t : State) (entries : List (String × Option Nat))
    (hv : theme_cache_valid s) (hlen : s.pixbufs.length ≤ t.pixbufs.length)
    (hcache : t.theme_icon_cache = s.theme_icon_cache ++ entries)
    (hnew : ∀ c p, map_find c entries = some (some p) → p < t.pixbufs.length) :
    theme_cache_valid t := by
  intro c p h
  rw [hcache, map_find_append] at h
  cases hf : map_find c s.theme_icon_cache with
  | some v =>
    rw [hf] at h
    simp only [Option.some.injEq] at h
    subst h
    exact Nat.lt_of_lt_of_le (hv c p hf) hlen
  | none =>
    rw [hf] at h
    exact hnew c p h

/-- The count of a pixbuf after the two `g_object_ref` and the `g_object_unref` of one round. -/
theorem getD_round (heap : List Nat) (p q : Nat) :
    ((heap_update (fun n => n - 1) p (heap_update (fun n => n + 1) p
        (heap_update (fun n => n + 1) p heap)))[q]?).getD 0
      = (heap[q]?).getD 0 + (if q = p ∧ p < heap.length then 1 else 0) := by
  simp only [getElem?_heap_update]
  by_cases h : q = p
  · subst h
    by_cases hl : q < heap.length
    · simp [hl, List.getElem?_eq_getElem]
    · simp [hl, List.getElem?_eq_none (Nat.le_of_not_lt hl)]
  · simp [h]

/-- One round of the loop under the loader convention: what it places and caches, and the
references it leaves. -/
theorem place_one_accounts (env : Env) (hc : loader_contract env)
    (workspace_id base_x base_y start_offset icon_spacing : Int)
    (app_class : String) (j : Int) (acc : IconLoop) (hv : theme_cache_valid acc.state) :
    ∃ placed entries,
      (place_app_icons env workspace_id base_x base_y start_offset icon_spacing [app_class] j
          acc).workspace_app_icons = acc.workspace_app_icons ++ placed.map some
      ∧ accounts acc.state
          (place_app_icons env workspace_id base_x base_y start_offset icon_spacing [app_class] j
            acc).state placed entries
      ∧ theme_cache_valid
          (place_app_icons env workspace_id base_x base_y start_offset icon_spacing [app_class] j
            acc).state := by
  rcases get_app_icon_cases env hc app_class acc.state hv with e | ⟨p, hp, e⟩ | ⟨hf, e⟩ | ⟨hf, e⟩
  · rw [place_one_none env workspace_id base_x base_y start_offset icon_spacing app_class j acc
      (by rw [e])]
    refine ⟨[], [], ?_, ?_, ?_⟩
    · simp
    · simp [accounts, e]
    · simp only [e]
      exact hv
  · rw [place_one_some env workspace_id base_x base_y start_offset icon_spacing app_class j acc p
      (by rw [e])]
    refine ⟨[p], [], ?_, ?_, ?_⟩
    · simp
    · simp only [accounts, e, State.g_object_ref, List.map_cons, List.map_nil, List.append_nil,
        true_and, refcount, getD_round, getElem?_heap_update, length_heap_update]
      intro q
      by_cases hq : q = p
      · subst hq
        simp [hp, List.getElem?_eq_getElem]
      · have hq2 : p ≠ q := fun h => hq h.symm
        simp [hq, hq2]
    · simp only [e, State.g_object_ref]
      refine theme_cache_valid_step acc.state _ [] hv ?_ ?_ ?_
      · simp [length_heap_update]
      · simp
      · intro c q h
        simp [map_find] at h
  · rw [place_one_none env workspace_id base_x base_y start_offset icon_spacing app_class j acc
      (by rw [e])]
    refine ⟨[], [(app_class, none)], ?_, ?_, ?_⟩
    · simp
    · simp [accounts, e, refcount]
    · simp only [e]
      refine theme_cache_valid_step acc.state _ [(app_class, none)] hv ?_ rfl ?_
      · simp
      · intro c q h
        simp only [map_find] at h
        split at h <;> simp at h
  · rw [place_one_some env workspace_id base_x base_y start_offset icon_spacing app_class j acc
      acc.state.pixbufs.length (by rw [e])]
    refine ⟨[acc.state.pixbufs.length], [(app_class, some acc.state.pixbufs.length)], ?_, ?_, ?_⟩
    · simp
    · simp only [accounts, e, List.map_cons, List.map_nil, true_and, refcount, getD_round]
      intro q
      by_cases hq : q = acc.state.pixbufs.length
      · subst hq
        simp
      · have hq2 : acc.state.pixbufs.length ≠ q := fun h => hq h.symm
        simp only [hq, hq2, false_and, if_false, Nat.add_zero, List.count_cons, List.count_nil,
          Option.some.injEq, beq_iff_eq, Nat.mul_zero]
        by_cases hl : q < acc.state.pixbufs.length
        · simp [List.getElem?_append_left hl]
        · have hl2 : acc.state.pixbufs.length < q := by omega
          rw [List.getElem?_eq_none (by simp; omega), List.getElem?_eq_none (by omega)]
    · simp only [e]
      refine theme_cache_valid_step acc.state _ [(app_class, some acc.state.pixbufs.length)] hv
        ?_ rfl ?_
      · simp [length_heap_update]
      · intro c q h
        simp only [map_find] at h
        split at h
        · simp only [Option.some.injEq] at h
          subst h
          simp [length_heap_update]
        · simp at h

/-- Nothing added between a state and itself. -/
theorem accounts_refl (s : State) : accounts s s [] [] := by
  simp [accounts]

/-- What is added in two stretches adds up. -/
theorem accounts_trans (s t u : State) (p1 p2 : List Nat) (e1 e2 : List (String × Option Nat))
    (h1 : accounts s t p1 e1) (h2 : accounts t u p2 e2) :
    accounts s u (p1 ++ p2) (e1 ++ e2) := by
  obtain ⟨a1, a2, a3, a4, a5⟩ := h1
  obtain ⟨b1, b2, b3, b4, b5⟩ := h2
  refine ⟨?_, ?_, ?_, ?_, ?_⟩
  · rw [b1, a1]
    simp
  · rw [b2, a2]
    simp
  · rw [b3, a3]
  · rw [b4, a4]
  · intro p
    rw [b5 p, a5 p]
    simp only [List.count_append, List.map_append]
    omega

/-- The loop under the loader convention: what it places and caches, and the references
it leaves. -/
theorem place_app_icons_accounts (env : Env) (hc : loader_contract env)
    (workspace_id base_x base_y start_offset icon_spacing : Int)
    (app_classes : List String) (j : Int) (acc : IconLoop) (hv : theme_cache_valid acc.state) :
    ∃ placed entries,
      (place_app_icons env workspace_id base_x base_y start_offset icon_spacing app_classes j
          acc).workspace_app_icons = acc.workspace_app_icons ++ placed.map some
      ∧ accounts acc.state
          (place_app_icons env workspace_id base_x base_y start_offset icon_spacing app_classes j
            acc).state placed entries
      ∧ theme_cache_valid
          (place_app_icons env workspace_id base_x base_y start_offset icon_spacing app_classes j
            acc).state := by
  induction app_classes generalizing j acc with
  | nil => exact ⟨[], [], by simp [place_app_icons], accounts_refl _, hv⟩
  | cons app_class rest ih =>
    rw [place_app_icons_cons]
    obtain ⟨p1, e1, h1, a1, v1⟩ := place_one_accounts env hc workspace_id base_x base_y
      start_offset icon_spacing app_class j acc hv
    obtain ⟨p2, e2, h2, a2, v2⟩ := ih (j + 1) _ v1
    refine ⟨p1 ++ p2, e1 ++ e2, ?_, accounts_trans _ _ _ _ _ _ _ a1 a2, v2⟩
    rw [h2, h1]
    simp

/-- The state after the query of the classes. -/
theorem get_workspace_app_classes_snd (env : Env) (workspace_id : Int) (s : State) :
    (get_workspace_app_classes env workspace_id s).2
      = s.emit (Effect.popen (classes_command workspace_id)) := by
  unfold get_workspace_app_classes
  simp only
  split <;> rfl

/-- The method `load_workspace_app_icons` under the loader convention: what it places,
caches and stores, and the references it leaves. -/
theorem load_workspace_app_icons_accounts (env : Env) (hc : loader_contract env)
    (workspace_id : Int) (s : State) (hv : theme_cache_valid s) :
    ∃ placed entries,
      (load_workspace_app_icons env workspace_id s).widgets = s.widgets ++ placed.map app_icon_image
      ∧ (load_workspace_app_icons env workspace_id s).theme_icon_cache
          = s.theme_icon_cache ++ entries
      ∧ (load_workspace_app_icons env workspace_id s).workspace_icon_cache = s.workspace_icon_cache
      ∧ (placed = [] → (load_workspace_app_icons env workspace_id s).app_icon_cache = s.app_icon_cache)
      ∧ (placed ≠ [] → (load_workspace_app_icons env workspace_id s).app_icon_cache
          = map_assign workspace_id (placed.map some) s.app_icon_cache)
      ∧ (∀ p, refcount (load_workspace_app_icons env workspace_id s) p
          = refcount s p + 2 * placed.count p + (entries.map Prod.snd).count (some p))
      ∧ theme_cache_valid (load_workspace_app_icons env workspace_id s) := by
  unfold load_workspace_app_icons
  simp only [get_workspace_app_classes_snd]
  split
  · exact ⟨[], [], by simp [State.emit], by simp [State.emit], rfl, fun _ => rfl,
      fun h => absurd rfl h, by simp [refcount, State.emit], hv⟩
  · have hv0 : theme_cache_valid (s.emit (Effect.popen (classes_command workspace_id))) := hv
    obtain ⟨placed, entries, h1, ⟨a1, a2, a3, a4, a5⟩, v1⟩ := place_app_icons_accounts env hc
      workspace_id
      (if workspace_id = 13 then (s.emit (Effect.popen (classes_command workspace_id))).center_x
        else env.ring_cos (s.emit (Effect.popen (classes_command workspace_id))).center_x
          (s.emit (Effect.popen (classes_command workspace_id))).radius workspace_id)
      (if workspace_id = 13 then
          (s.emit (Effect.popen (classes_command workspace_id))).center_y
            + (s.emit (Effect.popen (classes_command workspace_id))).special_button_size.tdiv 2 + 20
        else env.ring_sin (s.emit (Effect.popen (classes_command workspace_id))).center_y
          (s.emit (Effect.popen (classes_command workspace_id))).radius workspace_id)
      ((-(min 4 ((get_workspace_app_classes env workspace_id s).1.length : Int) - 1)
          * max 20 ((s.emit (Effect.popen (classes_command workspace_id))).app_icon_size + 5)).tdiv 2)
      (max 20 ((s.emit (Effect.popen (classes_command workspace_id))).app_icon_size + 5))
      ((get_workspace_app_classes env workspace_id s).1.take
        (min 4 ((get_workspace_app_classes env workspace_id s).1.length : Int)).toNat) 0
      { workspace_app_icons := [], workspace_icon_widgets := [],
        state := s.emit (Effect.popen (classes_command workspace_id)) } hv0
    simp only [List.nil_append] at h1
    refine ⟨placed, entries, ?_⟩
    unfold store_app_icons
    rw [h1]
    by_cases hp : placed = []
    · subst hp
      simp only [List.map_nil, ne_eq, not_true_eq_false, if_false]
      exact ⟨a1, a2, a4, fun _ => a3, fun h => h.elim, a5, v1⟩
    · have hne : placed.map some ≠ [] := by simpa using hp
      rw [if_pos hne]
      refine ⟨a1, a2, a4, fun h => absurd h hp, fun _ => ?_, a5, v1⟩
      simp only [a3]
      rfl

/-- A pixbuf has as many slots in a vector of pointers as it has places in the list. -/
theorem count_map_some (l : List Nat) (p : Nat) : (l.map some).count (some p) = l.count p := by
  induction l with
  | nil => rfl
  | cons a l ih => simp [List.count_cons, ih]

/-- A pixbuf that `get_app_icon` returns lies in the heap. -/
theorem get_app_icon_some_lt (env : Env) (hc : loader_contract env) (app_class : String)
    (s : State) (hv : theme_cache_valid s) (p : Nat)
    (h : (get_app_icon env app_class s).1 = some p) :
    p < (get_app_icon env app_class s).2.pixbufs.length := by
  rcases get_app_icon_cases env hc app_class s hv with e | ⟨q, hq, e⟩ | ⟨_, e⟩ | ⟨_, e⟩
  · rw [e] at h
    simp at h
  · rw [e] at h ⊢
    simp only [Option.some.injEq] at h
    subst h
    simpa [State.g_object_ref, length_heap_update] using hq
  · rw [e] at h
    simp at h
  · rw [e] at h ⊢
    simp only [Option.some.injEq] at h
    subst h
    simp

/-- C15: under the loader convention (`error` is set exactly when the result is null) and
with the cached pointers in the heap. One round of the loop of `load_workspace_app_icons`
for a class for which `get_app_icon` returns a pixbuf pushes that pixbuf on the vector,
creates one image widget holding it, takes two references and releases one: the count is
one above the count after `get_app_icon` (two acquired, the one handed out released), and
no other count moves. For the whole function, the count of every pixbuf grows by the number
of new image widgets holding it, plus the number of slots holding it in the vector, plus the
number of new theme-cache slots holding it; the vector, when it is not empty, is the entry of
the workspace in `app_icon_cache`; and the cached pointers are in the heap again afterwards. -/
theorem app_icon_references_balanced (env : Env) (workspace_id : Int) (s : State)
    (hc : loader_contract env) (hv : theme_cache_valid s) :
    (∀ (base_x base_y start_offset icon_spacing j : Int) (app_class : String) (acc : IconLoop)
        (app_icon : Nat),
        theme_cache_valid acc.state →
        (get_app_icon env app_class acc.state).1 = some app_icon →
        (place_app_icons env workspace_id base_x base_y start_offset icon_spacing [app_class] j
            acc).workspace_app_icons = acc.workspace_app_icons ++ [some app_icon]
          ∧ (place_app_icons env workspace_id base_x base_y start_offset icon_spacing [app_class] j
              acc).state.widgets
              = (get_app_icon env app_class acc.state).2.widgets ++ [app_icon_image app_icon]
          ∧ (place_app_icons env workspace_id base_x base_y start_offset icon_spacing [app_class] j
              acc).state.pixbufs
              = heap_update (fun n => n - 1) app_icon
                  (heap_update (fun n => n + 1) app_icon
                    (heap_update (fun n => n + 1) app_icon
                      (get_app_icon env app_class acc.state).2.pixbufs))
          ∧ refcount (place_app_icons env workspace_id base_x base_y start_offset icon_spacing
              [app_class] j acc).state app_icon + 1
              = refcount (get_app_icon env app_class acc.state).2 app_icon + 2
          ∧ (∀ q, q ≠ app_icon →
              refcount (place_app_icons env workspace_id base_x base_y start_offset icon_spacing
                [app_class] j acc).state q
                = refcount (get_app_icon env app_class acc.state).2 q))
      ∧ (load_workspace_app_icons env workspace_id s).widgets
          = s.widgets
            ++ (new_images s (load_workspace_app_icons env workspace_id s)).map app_icon_image
      ∧ (load_workspace_app_icons env workspace_id s).theme_icon_cache
          = s.theme_icon_cache
            ++ new_theme_entries s (load_workspace_app_icons env workspace_id s)
      ∧ (load_workspace_app_icons env workspace_id s).workspace_icon_cache = s.workspace_icon_cache
      ∧ (new_images s (load_workspace_app_icons env workspace_id s) = [] →
          (load_workspace_app_icons env workspace_id s).app_icon_cache = s.app_icon_cache)
      ∧ (new_images s (load_workspace_app_icons env workspace_id s) ≠ [] →
          (load_workspace_app_icons env workspace_id s).app_icon_cache
              = map_assign workspace_id
                  ((new_images s (load_workspace_app_icons env workspace_id s)).map some)
                  s.app_icon_cache
            ∧ map_find workspace_id (load_workspace_app_icons env workspace_id s).app_icon_cache
              = some ((new_images s (load_workspace_app_icons env workspace_id s)).map some))
      ∧ (∀ p, refcount (load_workspace_app_icons env workspace_id s) p
          = refcount s p
            + (new_images s (load_workspace_app_icons env workspace_id s)).count p
            + ((new_images s (load_workspace_app_icons env workspace_id s)).map some).count (some p)
            + ((new_theme_entries s (load_workspace_app_icons env workspace_id s)).map
                Prod.snd).count (some p))
      ∧ theme_cache_valid (load_workspace_app_icons env workspace_id s) := by
  refine ⟨?_, ?_⟩
  · intro base_x base_y start_offset icon_spacing j app_class acc app_icon hva h
    have hlt := get_app_icon_some_lt env hc app_class acc.state hva app_icon h
    rw [place_one_some env workspace_id base_x base_y start_offset icon_spacing app_class j acc
      app_icon h]
    refine ⟨rfl, rfl, rfl, ?_, ?_⟩
    · simp only [refcount, getD_round]
      simp [hlt]
    · intro q hq
      simp only [refcount, getD_round]
      simp [hq]
  · obtain ⟨placed, entries, h1, h2, h3, h4, h5, h6, h7⟩ :=
      load_workspace_app_icons_accounts env hc workspace_id s hv
    have hn : new_images s (load_workspace_app_icons env workspace_id s) = placed := by
      unfold new_images
      rw [h1]
      simp [image_pixbufs_map]
    have he : new_theme_entries s (load_workspace_app_icons env workspace_id s) = entries := by
      unfold new_theme_entries
      rw [h2]
      simp
    rw [hn, he]
    refine ⟨h1, h2, h3, h4, ?_, ?_, h7⟩
    · intro hp
      refine ⟨h5 hp, ?_⟩
      rw [h5 hp]
      exact map_find_assign_same _ _ _
    · intro p
      rw [h6 p, count_map_some]
      omega

/-- The loader convention holds in the outside world of the example. -/
theorem firefox_env_contract : loader_contract firefox_env := by
  intro name size
  by_cases h : name = "Firefox" <;> simp [firefox_env, h]

/-- An empty theme cache holds no pointer. -/
theorem blank_state_valid : theme_cache_valid blank_state := by
  intro c p h
  simp [blank_state, map_find] at h

/-- Witness for C15: the classes Firefox, kitty, Firefox of workspace 2 on a fresh state. -/
theorem app_icon_references_balanced_witness :
    loader_contract firefox_env ∧ theme_cache_valid blank_state
      ∧ (∀ p, refcount (load_workspace_app_icons firefox_env 2 blank_state) p
          = refcount blank_state p
            + (new_images blank_state (load_workspace_app_icons firefox_env 2 blank_state)).count p
            + ((new_images blank_state
                (load_workspace_app_icons firefox_env 2 blank_state)).map some).count (some p)
            + ((new_theme_entries blank_state
                (load_workspace_app_icons firefox_env 2 blank_state)).map
                Prod.snd).count (some p)) :=
  ⟨firefox_env_contract, blank_state_valid,
    (app_icon_references_balanced firefox_env 2 blank_state firefox_env_contract
      blank_state_valid).2.2.2.2.2.2.1⟩

/-- The example of the witness in numbers: one pixbuf with five references, two for the
two images, two for the two slots of the vector, one for the theme cache. -/
theorem app_icon_references_example :
    (load_workspace_app_icons firefox_env 2 blank_state).pixbufs = [5]
      ∧ new_images blank_state (load_workspace_app_icons firefox_env 2 blank_state) = [0, 0]
      ∧ (load_workspace_app_icons firefox_env 2 blank_state).app_icon_cache = [(2, [some 0, some 0])]
      ∧ (load_workspace_app_icons firefox_env 2 blank_state).theme_icon_cache
          = [("Firefox", some 0), ("kitty", none)]
      ∧ (load_workspace_app_icons firefox_env 2 blank_state).widgets
          = [app_icon_image 0, app_icon_image 0]
      ∧ (get_app_icon firefox_env "Firefox" blank_state).1 = some 0
      ∧ (get_app_icon firefox_env "Firefox" blank_state).2.pixbufs = [2] := by
  refine ⟨?_, ?_, ?_, ?_, ?_, ?_, ?_⟩ <;> decide

/-- One theme query reads `app_icon_size` and the heap size only. -/
theorem load_icon_view (env : Env) (name : String) (s t : State)
    (h : s.icon_view = t.icon_view) :
    (load_icon env name s).1 = (load_icon env name t).1
      ∧ (load_icon env name s).2.2 = (load_icon env name t).2.2
      ∧ (load_icon env name s).2.1.icon_view = (load_icon env name t).2.1.icon_view := by
  simp only [State.icon_view, Prod.mk.injEq] at h
  obtain ⟨h1, h2, h3⟩ := h
  unfold load_icon
  simp only [h3, State.new_pixbuf, h2]
  split <;> simp [State.icon_view, h1, h2, h3]

/-- The fallback loop reads `app_icon_size` and the heap size only. -/
theorem try_fallbacks_view (env : Env) (names : List String) (cs ct : Option Nat × State)
    (h1 : cs.1 = ct.1) (h2 : cs.2.icon_view = ct.2.icon_view) :
    (try_fallbacks env names cs).1 = (try_fallbacks env names ct).1
      ∧ (try_fallbacks env names cs).2.icon_view = (try_fallbacks env names ct).2.icon_view := by
  induction names generalizing cs ct with
  | nil => exact ⟨h1, h2⟩
  | cons name rest ih =>
    obtain ⟨a, b, c⟩ := load_icon_view env name cs.2 ct.2 h2
    unfold try_fallbacks
    simp only [a, b]
    by_cases hcond : ((load_icon env name ct.2).1.isSome && !(load_icon env name ct.2).2.2) = true
    · simp only [hcond, if_true]
      exact ⟨trivial, c⟩
    · simp only [hcond, if_false]
      exact ih _ _ rfl c

/-- The theme lookup reads `app_icon_size` and the heap size only. -/
theorem lookup_icon_view (env : Env) (app_class : String) (s t : State)
    (h : s.icon_view = t.icon_view) :
    (lookup_icon env app_class s).1 = (lookup_icon env app_class t).1
      ∧ (lookup_icon env app_class s).2.icon_view = (lookup_icon env app_class t).2.icon_view := by
  unfold lookup_icon
  simp only
  generalize (if (!env.gtk_icon_theme_has_icon app_class) = true then String.map Char.toLower app_class
      else app_class) = icon_name
  obtain ⟨a, b, c⟩ := load_icon_view env icon_name s t h
  simp only [b]
  by_cases hcond : (load_icon env icon_name t).2.2 = true
  · simp only [hcond, if_true]
    exact try_fallbacks_view env fallbacks _ _ a c
  · simp only [hcond, if_false]
    exact ⟨a, c⟩

/-- The caching step reads the theme cache and the pointer only. -/
theorem cache_icon_view (app_class : String) (fs ft : Option Nat × State)
    (h1 : fs.1 = ft.1) (h2 : fs.2.icon_view = ft.2.icon_view) :
    (cache_icon app_class fs).1 = (cache_icon app_class ft).1
      ∧ (cache_icon app_class fs).2.icon_view = (cache_icon app_class ft).2.icon_view := by
  simp only [State.icon_view, Prod.mk.injEq] at h2
  obtain ⟨a, b, c⟩ := h2
  unfold cache_icon
  simp only [h1]
  cases ft.1 with
  | none => simp [State.icon_view, a, b, c]
  | some p => simp [State.icon_view, State.g_object_ref, length_heap_update, a, b, c]

/-- The pointer `get_app_icon` returns and what it leaves of the theme cache, the heap size
and `app_icon_size` depend on these three only. -/
theorem get_app_icon_view (env : Env) (app_class : String) (s t : State)
    (h : s.icon_view = t.icon_view) :
    (get_app_icon env app_class s).1 = (get_app_icon env app_class t).1
      ∧ (get_app_icon env app_class s).2.icon_view = (get_app_icon env app_class t).2.icon_view := by
  have h0 := h
  simp only [State.icon_view, Prod.mk.injEq] at h0
  obtain ⟨a, b, c⟩ := h0
  unfold get_app_icon
  by_cases he : app_class = ""
  · simp only [he, if_true]
    exact ⟨trivial, h⟩
  · simp only [he, if_false, a]
    cases hf : map_find app_class t.theme_icon_cache with
    | none =>
      simp only
      exact cache_icon_view app_class _ _ (lookup_icon_view env app_class s t h).1
        (lookup_icon_view env app_class s t h).2
    | some entry =>
      cases entry with
      | none => exact ⟨rfl, h⟩
      | some p =>
        refine ⟨rfl, ?_⟩
        simp [State.icon_view, State.g_object_ref, length_heap_update, a, b, c]

/-- The method `get_app_icon` changes the pixbuf heap and the theme cache only. -/
theorem get_app_icon_state (env : Env) (app_class : String) (s : State) :
    ∃ heap cache, (get_app_icon env app_class s).2
      = { s with pixbufs := heap, theme_icon_cache := cache } := by
  unfold get_app_icon
  by_cases he : app_class = ""
  · simp only [he, if_true]
    exact ⟨s.pixbufs, s.theme_icon_cache, rfl⟩
  · simp only [he, if_false]
    cases hf : map_find app_class s.theme_icon_cache with
    | none =>
      obtain ⟨heap, e⟩ := lookup_icon_state env app_class s
      simp only [cache_icon]
      cases hl : (lookup_icon env app_class s).1 with
      | none =>
        simp only [e]
        exact ⟨_, _, rfl⟩
      | some p =>
        simp only [e, State.g_object_ref]
        exact ⟨_, _, rfl⟩
    | some entry =>
      cases entry with
      | none => exact ⟨s.pixbufs, s.theme_icon_cache, rfl⟩
      | some p => exact ⟨_, s.theme_icon_cache, rfl⟩

/-- The slots of a list of pointers: the first one, then the others. -/
theorem claimed_slots_cons (slot : Int → Int × Int) (r : Option Nat) (rest : List (Option Nat))
    (j : Int) :
    claimed_slots slot (r :: rest) j = claimed_slots slot [r] j ++ claimed_slots slot rest (j + 1) := by
  cases r <;> simp [claimed_slots]

/-- The pointers that are not null: the first one, then the others. -/
theorem filter_isSome_cons (r : Option Nat) (rest : List (Option Nat)) :
    (r :: rest).filter Option.isSome = [r].filter Option.isSome ++ rest.filter Option.isSome := by
  cases r <;> simp [List.filter_cons]

/-- One round of the loop, as seen from a state with the same theme cache, heap size and
`app_icon_size`. -/
theorem place_one_slots (env : Env) (workspace_id base_x base_y start_offset icon_spacing : Int)
    (app_class : String) (j : Int) (acc : IconLoop) (t : State)
    (hview : acc.state.icon_view = t.icon_view) :
    (place_app_icons env workspace_id base_x base_y start_offset icon_spacing [app_class] j
        acc).state.icon_view = (get_app_icon env app_class t).2.icon_view
      ∧ (place_app_icons env workspace_id base_x base_y start_offset icon_spacing [app_class] j
          acc).workspace_app_icons
          = acc.workspace_app_icons ++ [(get_app_icon env app_class t).1].filter Option.isSome
      ∧ (place_app_icons env workspace_id base_x base_y start_offset icon_spacing [app_class] j
          acc).workspace_icon_widgets.length
          = acc.workspace_icon_widgets.length
            + ([(get_app_icon env app_class t).1].filter Option.isSome).length
      ∧ (place_app_icons env workspace_id base_x base_y start_offset icon_spacing [app_class] j
          acc).state.fixed_children.map Prod.snd
          = acc.state.fixed_children.map Prod.snd
            ++ claimed_slots (icon_slot workspace_id base_x base_y start_offset icon_spacing
                acc.state.app_icon_size acc.state.button_size)
              [(get_app_icon env app_class t).1] j
      ∧ ∃ widgets pixbufs fixed cache,
          (place_app_icons env workspace_id base_x base_y start_offset icon_spacing [app_class] j
            acc).state
            = { acc.state with
                widgets := widgets, pixbufs := pixbufs, fixed_children := fixed,
                theme_icon_cache := cache } := by
  obtain ⟨hr, hv⟩ := get_app_icon_view env app_class acc.state t hview
  obtain ⟨heap, cache, e⟩ := get_app_icon_state env app_class acc.state
  rw [← hr, ← hv]
  cases h : (get_app_icon env app_class acc.state).1 with
  | none =>
    rw [place_one_none env workspace_id base_x base_y start_offset icon_spacing app_class j acc h]
    refine ⟨rfl, by simp, by simp, ?_, ?_⟩
    · simp [claimed_slots, e]
    · exact ⟨acc.state.widgets, heap, acc.state.fixed_children, cache, by rw [e]⟩
  | some p =>
    rw [place_one_some env workspace_id base_x base_y start_offset icon_spacing app_class j acc p h]
    refine ⟨?_, by simp, by simp, ?_, ?_⟩
    · simp [State.icon_view, length_heap_update]
    · simp [claimed_slots, icon_slot, e]
    · exact ⟨_, _, _, cache, by rw [e]⟩

/-- The loop, as seen from a state with the same theme cache, heap size and
`app_icon_size`: it makes the `get_app_icon` calls of its classes in order, pushes the
pointers that are not null, and places their images in the slots of their indices. -/
theorem place_app_icons_slots (env : Env)
    (workspace_id base_x base_y start_offset icon_spacing size button : Int)
    (app_classes : List String) (j : Int) (acc : IconLoop) (t : State)
    (hview : acc.state.icon_view = t.icon_view)
    (hsize : acc.state.app_icon_size = size) (hbutton : acc.state.button_size = button) :
    (place_app_icons env workspace_id base_x base_y start_offset icon_spacing app_classes j
        acc).state.icon_view
        = (icon_calls (app_classes.map (fun c => (env, c))) t).icon_view
      ∧ (place_app_icons env workspace_id base_x base_y start_offset icon_spacing app_classes j
          acc).workspace_app_icons
          = acc.workspace_app_icons
            ++ (icon_results (app_classes.map (fun c => (env, c))) t).filter Option.isSome
      ∧ (place_app_icons env workspace_id base_x base_y start_offset icon_spacing app_classes j
          acc).workspace_icon_widgets.length
          = acc.workspace_icon_widgets.length
            + ((icon_results (app_classes.map (fun c => (env, c))) t).filter Option.isSome).length
      ∧ (place_app_icons env workspace_id base_x base_y start_offset icon_spacing app_classes j
          acc).state.fixed_children.map Prod.snd
          = acc.state.fixed_children.map Prod.snd
            ++ claimed_slots
                (icon_slot workspace_id base_x base_y start_offset icon_spacing size button)
                (icon_results (app_classes.map (fun c => (env, c))) t) j
      ∧ ∃ widgets pixbufs fixed cache,
          (place_app_icons env workspace_id base_x base_y start_offset icon_spacing app_classes j
            acc).state
            = { acc.state with
                widgets := widgets, pixbufs := pixbufs, fixed_children := fixed,
                theme_icon_cache := cache } := by
  induction app_classes generalizing j acc t with
  | nil =>
    refine ⟨hview, by simp [place_app_icons, icon_results], by simp [place_app_icons, icon_results],
      by simp [place_app_icons, icon_results, claimed_slots], ?_⟩
    exact ⟨acc.state.widgets, acc.state.pixbufs, acc.state.fixed_children,
      acc.state.theme_icon_cache, rfl⟩
  | cons app_class rest ih =>
    rw [place_app_icons_cons]
    obtain ⟨a1, a2, a3, a4, w, p, f, c, a5⟩ := place_one_slots env workspace_id base_x base_y
      start_offset icon_spacing app_class j acc t hview
    rw [hsize, hbutton] at a4
    obtain ⟨b1, b2, b3, b4, w2, p2, f2, c2, b5⟩ := ih (j + 1)
      (place_app_icons env workspace_id base_x base_y start_offset icon_spacing [app_class] j acc)
      (get_app_icon env app_class t).2 a1
      (by rw [a5]; exact hsize) (by rw [a5]; exact hbutton)
    simp only [List.map_cons, icon_calls, icon_results]
    have hf := filter_isSome_cons (get_app_icon env app_class t).1
      (icon_results (rest.map (fun c => (env, c))) (get_app_icon env app_class t).2)
    have hs := claimed_slots_cons
      (icon_slot workspace_id base_x base_y start_offset icon_spacing size button)
      (get_app_icon env app_class t).1
      (icon_results (rest.map (fun c => (env, c))) (get_app_icon env app_class t).2) j
    refine ⟨b1, ?_, ?_, ?_, ?_⟩
    · rw [b2, a2, hf]
      simp
    · rw [b3, a3, hf]
      simp only [List.length_append]
      omega
    · rw [b4, a4, hs]
      simp
    · exact ⟨w2, p2, f2, c2, by rw [b5, a5]⟩

/-- One pointer is returned per call. -/
theorem length_icon_results (calls : List (Env × String)) (t : State) :
    (icon_results calls t).length = calls.length := by
  induction calls generalizing t with
  | nil => rfl
  | cons call rest ih => simp [icon_results, ih]

/-- The first `min(4, n)` of `n` classes are the first four. -/
theorem take_min_four (l : List String) :
    l.take (min 4 (l.length : Int)).toNat = l.take 4 := by
  by_cases h : 4 ≤ l.length
  · have e : (min 4 (l.length : Int)).toNat = 4 := by omega
    rw [e]
  · have e : (min 4 (l.length : Int)).toNat = l.length := by omega
    rw [e, List.take_of_length_le (le_refl _), List.take_of_length_le (by omega)]

/-- Consecutive slots are `icon_spacing` apart, at the same height. -/
theorem icon_slot_succ (workspace_id base_x base_y start_offset icon_spacing size button j : Int) :
    (icon_slot workspace_id base_x base_y start_offset icon_spacing size button (j + 1)).1
        = (icon_slot workspace_id base_x base_y start_offset icon_spacing size button j).1
          + icon_spacing
      ∧ (icon_slot workspace_id base_x base_y start_offset icon_spacing size button (j + 1)).2
        = (icon_slot workspace_id base_x base_y start_offset icon_spacing size button j).2 := by
  simp only [icon_slot, and_true]
  ring

/-- No placed icon is left of the slot of the index the loop is at. -/
theorem claimed_slots_lower (workspace_id base_x base_y start_offset icon_spacing size button : Int)
    (hsp : 0 ≤ icon_spacing) (results : List (Option Nat)) (j : Int) :
    ∀ q ∈ claimed_slots
        (icon_slot workspace_id base_x base_y start_offset icon_spacing size button) results j,
      (icon_slot workspace_id base_x base_y start_offset icon_spacing size button j).1 ≤ q.1 := by
  induction results generalizing j with
  | nil => simp [claimed_slots]
  | cons r rest ih =>
    have hstep := (icon_slot_succ workspace_id base_x base_y start_offset icon_spacing size
      button j).1
    intro q hq
    cases r with
    | none =>
      simp only [claimed_slots] at hq
      have := ih (j + 1) q hq
      omega
    | some p =>
      simp only [claimed_slots, List.mem_cons] at hq
      rcases hq with e | hq
      · rw [e]
      · have := ih (j + 1) q hq
        omega

/-- Any two placed icons are at least `icon_spacing` apart, in the order placed. -/
theorem claimed_slots_pairwise
    (workspace_id base_x base_y start_offset icon_spacing size button : Int)
    (hsp : 0 ≤ icon_spacing) (results : List (Option Nat)) (j : Int) :
    List.Pairwise (fun a b => a.1 + icon_spacing ≤ b.1)
      (claimed_slots
        (icon_slot workspace_id base_x base_y start_offset icon_spacing size button) results j) := by
  induction results generalizing j with
  | nil => simp [claimed_slots]
  | cons r rest ih =>
    cases r with
    | none =>
      simp only [claimed_slots]
      exact ih (j + 1)
    | some p =>
      simp only [claimed_slots, List.pairwise_cons]
      refine ⟨?_, ih (j + 1)⟩
      intro q hq
      have h1 := claimed_slots_lower workspace_id base_x base_y start_offset icon_spacing size
        button hsp rest (j + 1) q hq
      have h2 := (icon_slot_succ workspace_id base_x base_y start_offset icon_spacing size
        button j).1
      omega

/-- What the storing step of lines 301-306 leaves of the loop state. -/
theorem store_app_icons_fields (workspace_id : Int) (app_classes : List String) (done : IconLoop) :
    (store_app_icons workspace_id app_classes done).theme_icon_cache
        = done.state.theme_icon_cache
      ∧ (store_app_icons workspace_id app_classes done).pixbufs.length = done.state.pixbufs.length
      ∧ (store_app_icons workspace_id app_classes done).fixed_children.map Prod.snd
        = done.state.fixed_children.map Prod.snd
      ∧ (done.workspace_app_icons = [] →
          store_app_icons workspace_id app_classes done = done.state)
      ∧ (done.workspace_app_icons ≠ [] →
          (store_app_icons workspace_id app_classes done).app_icon_cache
              = map_assign workspace_id done.workspace_app_icons done.state.app_icon_cache
            ∧ (store_app_icons workspace_id app_classes done).app_icon_widgets
              = map_assign workspace_id done.workspace_icon_widgets
                  done.state.app_icon_widgets) := by
  unfold store_app_icons
  by_cases h : done.workspace_app_icons = []
  · simp [h]
  · simp [h]

/-- C16: for every workspace id, state and answer of the class query, with `n` classes
returned. The `get_app_icon` calls of `load_workspace_app_icons` are those of the first
`min(4, n)` classes in order: the theme cache and the heap size it leaves are those of
these calls. The icon of loop index `j` is put in slot `j`; consecutive slots are exactly
`max(20, app_icon_size + 5)` apart, which is more than `app_icon_size`, so any two icons
placed are at least that far apart. The vector of the pointers that are not null is stored
in `app_icon_cache` exactly when it is not empty; it then has between 1 and 4 pixbufs and
the length of the vector stored in `app_icon_widgets`. -/
theorem at_most_four_app_icons (env : Env) (workspace_id : Int) (s : State) :
    (requested env (get_workspace_app_classes env workspace_id s).1).map Prod.snd
        = (get_workspace_app_classes env workspace_id s).1.take
            (min 4 (get_workspace_app_classes env workspace_id s).1.length)
      ∧ (load_workspace_app_icons env workspace_id s).theme_icon_cache
          = (icon_calls (requested env (get_workspace_app_classes env workspace_id s).1)
              s).theme_icon_cache
      ∧ (load_workspace_app_icons env workspace_id s).pixbufs.length
          = (icon_calls (requested env (get_workspace_app_classes env workspace_id s).1)
              s).pixbufs.length
      ∧ (load_workspace_app_icons env workspace_id s).fixed_children.map Prod.snd
          = s.fixed_children.map Prod.snd
            ++ claimed_slots
                (app_icon_slot env workspace_id s
                  (get_workspace_app_classes env workspace_id s).1.length)
                (icon_results (requested env (get_workspace_app_classes env workspace_id s).1) s) 0
      ∧ (∀ j : Int,
          (app_icon_slot env workspace_id s
              (get_workspace_app_classes env workspace_id s).1.length (j + 1)).1
            = (app_icon_slot env workspace_id s
                (get_workspace_app_classes env workspace_id s).1.length j).1
              + max 20 (s.app_icon_size + 5)
          ∧ (app_icon_slot env workspace_id s
              (get_workspace_app_classes env workspace_id s).1.length (j + 1)).2
            = (app_icon_slot env workspace_id s
                (get_workspace_app_classes env workspace_id s).1.length j).2)
      ∧ s.app_icon_size < max 20 (s.app_icon_size + 5)
      ∧ List.Pairwise (fun a b => a.1 + max 20 (s.app_icon_size + 5) ≤ b.1)
          (claimed_slots
            (app_icon_slot env workspace_id s
              (get_workspace_app_classes env workspace_id s).1.length)
            (icon_results (requested env (get_workspace_app_classes env workspace_id s).1) s) 0)
      ∧ ((icon_results (requested env (get_workspace_app_classes env workspace_id s).1)
            s).filter Option.isSome = [] →
          (load_workspace_app_icons env workspace_id s).app_icon_cache = s.app_icon_cache
            ∧ (load_workspace_app_icons env workspace_id s).app_icon_widgets = s.app_icon_widgets)
      ∧ ((icon_results (requested env (get_workspace_app_classes env workspace_id s).1)
            s).filter Option.isSome ≠ [] →
          (load_workspace_app_icons env workspace_id s).app_icon_cache
              = map_assign workspace_id
                  ((icon_results (requested env (get_workspace_app_classes env workspace_id s).1)
                    s).filter Option.isSome) s.app_icon_cache
            ∧ 1 ≤ ((icon_results (requested env (get_workspace_app_classes env workspace_id s).1)
                s).filter Option.isSome).length
            ∧ ((icon_results (requested env (get_workspace_app_classes env workspace_id s).1)
                s).filter Option.isSome).length ≤ 4
            ∧ ∃ widgets,
                (load_workspace_app_icons env workspace_id s).app_icon_widgets
                    = map_assign workspace_id widgets s.app_icon_widgets
                  ∧ widgets.length
                    = ((icon_results
                        (requested env (get_workspace_app_classes env workspace_id s).1)
                        s).filter Option.isSome).length) := by
  have hsp : (0 : Int) ≤ max 20 (s.app_icon_size + 5) := by omega
  have hlen4 : ((icon_results (requested env (get_workspace_app_classes env workspace_id s).1)
      s).filter Option.isSome).length ≤ 4 := by
    refine le_trans (List.length_filter_le _ _) ?_
    rw [length_icon_results]
    simp [requested]
  refine ⟨?_, ?_⟩
  · simp only [requested, List.map_map]
    have hid : (Prod.snd ∘ fun c => (env, c)) = (id : String → String) := rfl
    rw [hid, List.map_id]
    by_cases h : 4 ≤ (get_workspace_app_classes env workspace_id s).1.length
    · rw [Nat.min_eq_left h]
    · rw [Nat.min_eq_right (by omega), List.take_of_length_le (le_refl _),
        List.take_of_length_le (by omega)]
  · generalize hcl : (get_workspace_app_classes env workspace_id s).1 = classes at hlen4 ⊢
    have hload : load_workspace_app_icons env workspace_id s
        = if classes = [] then s.emit (Effect.popen (classes_command workspace_id))
          else store_app_icons workspace_id classes
            (place_app_icons env workspace_id
              (if workspace_id = 13 then s.center_x
                else env.ring_cos s.center_x s.radius workspace_id)
              (if workspace_id = 13 then s.center_y + s.special_button_size.tdiv 2 + 20
                else env.ring_sin s.center_y s.radius workspace_id)
              ((-(min 4 (classes.length : Int) - 1) * max 20 (s.app_icon_size + 5)).tdiv 2)
              (max 20 (s.app_icon_size + 5))
              (classes.take 4) 0
              { workspace_app_icons := [], workspace_icon_widgets := [],
                state := s.emit (Effect.popen (classes_command workspace_id)) }) := by
      unfold load_workspace_app_icons
      simp only [get_workspace_app_classes_snd, hcl, take_min_four]
      rfl
    rw [hload]
    by_cases hc : classes = []
    · subst hc
      simp only [if_true, requested, List.take_nil, List.map_nil, icon_calls, icon_results,
        claimed_slots, List.filter_nil, List.append_nil, List.Pairwise.nil, ne_eq,
        not_true_eq_false, true_and]
      refine ⟨rfl, rfl, rfl, ?_, by omega, fun _ => ⟨rfl, rfl⟩, fun h => h.elim⟩
      intro j
      exact icon_slot_succ _ _ _ _ _ _ _ j
    · rw [if_neg hc]
      obtain ⟨b1, b2, b3, b4, w, p, f, c, b5⟩ := place_app_icons_slots env workspace_id
        (if workspace_id = 13 then s.center_x else env.ring_cos s.center_x s.radius workspace_id)
        (if workspace_id = 13 then s.center_y + s.special_button_size.tdiv 2 + 20
          else env.ring_sin s.center_y s.radius workspace_id)
        ((-(min 4 (classes.length : Int) - 1) * max 20 (s.app_icon_size + 5)).tdiv 2)
        (max 20 (s.app_icon_size + 5)) s.app_icon_size s.button_size
        (classes.take 4) 0
        { workspace_app_icons := [], workspace_icon_widgets := [],
          state := s.emit (Effect.popen (classes_command workspace_id)) } s rfl rfl rfl
      simp only [List.nil_append, List.length_nil, Nat.zero_add] at b2 b3
      have hview := b1
      simp only [State.icon_view, Prod.mk.injEq] at hview
      have hfixed : (s.emit (Effect.popen (classes_command workspace_id))).fixed_children
          = s.fixed_children := rfl
      rw [hfixed] at b4
      obtain ⟨k1, k2, k3, k4, k5⟩ := store_app_icons_fields workspace_id classes
        (place_app_icons env workspace_id
          (if workspace_id = 13 then s.center_x else env.ring_cos s.center_x s.radius workspace_id)
          (if workspace_id = 13 then s.center_y + s.special_button_size.tdiv 2 + 20
            else env.ring_sin s.center_y s.radius workspace_id)
          ((-(min 4 (classes.length : Int) - 1) * max 20 (s.app_icon_size + 5)).tdiv 2)
          (max 20 (s.app_icon_size + 5))
          (classes.take 4) 0
          { workspace_app_icons := [], workspace_icon_widgets := [],
            state := s.emit (Effect.popen (classes_command workspace_id)) })
      rw [b2] at k4 k5
      simp only [requested] at hlen4 ⊢
      refine ⟨?_, ?_, ?_, ?_, by omega, ?_, ?_, ?_⟩
      · rw [k1]
        exact hview.1
      · rw [k2]
        exact hview.2.1
      · rw [k3]
        exact b4
      · intro j
        exact icon_slot_succ _ _ _ _ _ _ _ j
      · exact claimed_slots_pairwise _ _ _ _ _ _ _ hsp _ 0
      · intro hnil
        rw [k4 hnil, b5]
        exact ⟨rfl, rfl⟩
      · intro hne
        obtain ⟨m1, m2⟩ := k5 hne
        refine ⟨?_, Nat.succ_le_of_lt (List.length_pos.mpr hne), hlen4, ?_⟩
        · rw [m1, b5]
          rfl
        · refine ⟨_, ?_, b3⟩
          rw [m2, b5]
          rfl

/-- The example of workspace 2 with the classes Firefox, kitty, Firefox: the two icons sit
in slots 0 and 2, the slot of kitty stays empty. -/
theorem app_icon_slots_example :
    (load_workspace_app_icons firefox_env 2 blank_state).fixed_children
        = [(0, 925, 610), (1, 975, 610)]
      ∧ (load_workspace_app_icons firefox_env 2 blank_state).app_icon_widgets = [(2, [0, 1])]
      ∧ icon_results (requested firefox_env ["Firefox", "kitty", "Firefox"]) blank_state
          = [some 0, none, some 0]
      ∧ (app_icon_slot firefox_env 2 blank_state 3 0).1 = 925
      ∧ (app_icon_slot firefox_env 2 blank_state 3 1).1 = 950
      ∧ (app_icon_slot firefox_env 2 blank_state 3 2).1 = 975 := by
  refine ⟨?_, ?_, ?_, ?_, ?_, ?_⟩ <;> decide

/-! ### Long lines -/

/-- While no newline comes and the stream lasts, `fgets` fills its room. -/
theorem fgets_take_no_newline (room : Nat) (stream : List Char) (hroom : room ≤ stream.length)
    (hnl : ∀ c ∈ stream.take room, c ≠ '\n') :
    fgets_take room stream = (stream.take room, stream.drop room) := by
  induction room generalizing stream with
  | zero => simp [fgets_take]
  | succ room ih =>
    cases stream with
    | nil => simp at hroom
    | cons c rest =>
      have hc : c ≠ '\n' := hnl c (by simp)
      have hrest := ih rest (by simpa using hroom) (fun d hd => hnl d (by simp [hd]))
      simp [fgets_take, hc, hrest]

/-- A stream that starts with a character other than newline and NUL yields an entry. -/
theorem read_entries_ne_nil (size fuel : Nat) (c : Char) (rest : List Char)
    (hsize : 2 ≤ size) (hc : c ≠ '\n') (hz : c ≠ '\x00') :
    read_entries size (fuel + 1) (c :: rest) ≠ [] := by
  obtain ⟨room, hr⟩ : ∃ room, size - 1 = room + 1 := ⟨size - 2, by omega⟩
  unfold read_entries
  simp only [fgets, hr, fgets_take, if_neg hc, c_str]
  have hz2 : List.takeWhile (fun c => c != '\x00') (c :: (fgets_take room rest).1)
      = c :: List.takeWhile (fun c => c != '\x00') (fgets_take room rest).1 := by
    simp [List.takeWhile_cons, hz]
  rw [hz2]
  generalize List.takeWhile (fun c => c != '\x00') (fgets_take room rest).1 = more
  have hne : (if (c :: more).getLast? = some '\n' then (c :: more).dropLast else c :: more) ≠ [] := by
    split
    · cases more with
      | nil =>
        rename_i h
        simp at h
        exact absurd h hc
      | cons d ds => simp
    · simp
  rw [if_pos hne]
  simp

/-- A line of one title and its newline is cut after `size - 1` characters when the title
is longer than that: the first entry is the first `size - 1` characters, and the loop goes
on with what is left of the line. -/
theorem read_entries_long (size fuel : Nat) (title : List Char) (hsize : 2 ≤ size)
    (hlen : size - 1 < title.length)
    (hnl : ∀ c ∈ title, c ≠ '\n') (hnul : ∀ c ∈ title, c ≠ '\x00') :
    read_entries size (fuel + 1) (title ++ ['\n'])
      = String.mk (title.take (size - 1))
        :: read_entries size fuel (title.drop (size - 1) ++ ['\n']) := by
  have htake : (title ++ ['\n']).take (size - 1) = title.take (size - 1) :=
    List.take_append_of_le_length (by omega)
  have hdrop : (title ++ ['\n']).drop (size - 1) = title.drop (size - 1) ++ ['\n'] :=
    List.drop_append_of_le_length (by omega)
  have hmem : ∀ c ∈ title.take (size - 1), c ∈ title := fun c hc => List.mem_of_mem_take hc
  have hf := fgets_take_no_newline (size - 1) (title ++ ['\n']) (by simp; omega)
    (by rw [htake]; exact fun c hc => hnl c (hmem c hc))
  rw [htake, hdrop] at hf
  have hne : title.take (size - 1) ≠ [] := by
    intro h
    have h2 : (title.take (size - 1)).length = min (size - 1) title.length := List.length_take _ _
    rw [h, List.length_nil] at h2
    omega
  have hlast : (title.take (size - 1)).getLast? ≠ some '\n' := by
    intro h
    exact hnl '\n' (hmem _ (List.mem_of_mem_getLast? h)) rfl
  cases ht : title ++ ['\n'] with
  | nil => simp at ht
  | cons d ds =>
    simp only [read_entries, fgets]
    rw [← ht, hf]
    simp only [c_str_of_no_nul _ (fun c hc => hnul c (hmem c hc)), if_neg hlast, ne_eq, hne,
      not_false_eq_true, if_true]

/-- A title without newline and its newline are one line. -/
theorem raw_lines_one_title (title : List Char) (hnl : ∀ c ∈ title, c ≠ '\n') :
    raw_lines (title ++ ['\n']) = [title ++ ['\n']] := by
  induction title with
  | nil => simp [raw_lines]
  | cons c rest ih =>
    have hc : c ≠ '\n' := hnl c (by simp)
    have hrest := ih (fun d hd => hnl d (by simp [hd]))
    simp [raw_lines, hc, hrest]

/-- The entries of one title that fits the buffer: the title, if it is not empty. -/
theorem claimed_entries_one_title (title : List Char) (hnl : ∀ c ∈ title, c ≠ '\n')
    (hne : title ≠ []) :
    claimed_entries (title ++ ['\n']) = [String.mk title] := by
  unfold claimed_entries
  rw [raw_lines_one_title title hnl]
  simp [without_newline, hne]

/-- A title longer than `size - 1` characters comes back as more than one entry, and as
exactly two, cut after `size - 1` characters, when it is shorter than `2 * (size - 1)`. -/
theorem read_entries_split (size : Nat) (title : List Char) (hsize : 2 ≤ size)
    (hlen : size - 1 < title.length)
    (hnl : ∀ c ∈ title, c ≠ '\n') (hnul : ∀ c ∈ title, c ≠ '\x00') :
    (read_entries size (title ++ ['\n']).length (title ++ ['\n'])).head?
        = some (String.mk (title.take (size - 1)))
      ∧ 1 < (read_entries size (title ++ ['\n']).length (title ++ ['\n'])).length
      ∧ (title.length < 2 * (size - 1) →
          read_entries size (title ++ ['\n']).length (title ++ ['\n'])
            = [String.mk (title.take (size - 1)), String.mk (title.drop (size - 1))]) := by
  have hl : (title ++ ['\n']).length = (title.length - 1) + 1 + 1 := by
    simp
    omega
  rw [hl, read_entries_long size _ title hsize hlen hnl hnul]
  have hdne : title.drop (size - 1) ≠ [] := by
    intro h
    have := congrArg List.length h
    simp at this
    omega
  have hdmem : ∀ c ∈ title.drop (size - 1), c ∈ title := fun c hc => List.mem_of_mem_drop hc
  refine ⟨rfl, ?_, ?_⟩
  · cases hd : title.drop (size - 1) with
    | nil => exact absurd hd hdne
    | cons c rest =>
      have hcm : c ∈ title := hdmem c (by rw [hd]; simp)
      have hnn := read_entries_ne_nil size (title.length - 1) c (rest ++ ['\n']) hsize
        (hnl c hcm) (hnul c hcm)
      simp only [List.cons_append, List.length_cons]
      have hpos := List.length_pos.mpr hnn
      omega
  · intro h2
    have heq := read_entries_eq size (title.length - 1 + 1) (title.drop (size - 1) ++ ['\n'])
      (by simp; omega)
      (by
        rw [raw_lines_one_title _ (fun c hc => hnl c (hdmem c hc))]
        intro line hline
        simp only [List.mem_singleton] at hline
        rw [hline]
        simp
        omega)
      (by
        intro c hc
        rcases List.mem_append.mp hc with h | h
        · exact hnul c (hdmem c h)
        · simp only [List.mem_singleton] at h
          rw [h]
          decide)
    rw [heq, claimed_entries_one_title _ (fun c hc => hnl c (hdmem c hc)) hdne]

/-- The text of the label for titles that are not none: the header, the count, the lines. -/
theorem tooltip_text_count (workspace_id : Int) (titles : List String) (hne : titles ≠ []) :
    tooltip_text workspace_id titles
      = (if workspace_id = 13 then "Special Workspace (Elysia)"
          else "Workspace " ++ to_string workspace_id)
        ++ (" (" ++ to_string (titles.length : Int) ++ " apps):"
          ++ (titles.map (fun title => bullet ++ title)).foldr (fun line rest => line ++ rest) "") := by
  rw [tooltip_text_eq]
  unfold claimed_tooltip_text
  rw [if_neg hne]

/-- C21: a title without newline and NUL byte that is longer than 255 bytes, printed as one
line by the title query, comes back from `get_workspace_apps` as more than one entry, the
first being its first 255 bytes (and as exactly two entries, cut after 255 bytes, when it
has fewer than 510 bytes); the tooltip label then shows the count of entries, which is more
than the one window there is. A class name longer than 127 bytes is split in the same way
by `get_workspace_app_classes`. -/
theorem long_lines_are_split (env : Env) (workspace_id : Int) (s : State) (title : List Char)
    (hnl : ∀ c ∈ title, c ≠ '\n') (hnul : ∀ c ∈ title, c ≠ '\x00') :
    raw_lines (title ++ ['\n']) = [title ++ ['\n']]
      ∧ (255 < title.length →
          env.popen (titles_command workspace_id) = some (String.mk (title ++ ['\n'])) →
          (get_workspace_apps env workspace_id s).1.head? = some (String.mk (title.take 255))
            ∧ 1 < (get_workspace_apps env workspace_id s).1.length
            ∧ (title.length < 510 →
                (get_workspace_apps env workspace_id s).1
                  = [String.mk (title.take 255), String.mk (title.drop 255)])
            ∧ tooltip_text workspace_id (get_workspace_apps env workspace_id s).1
                = (if workspace_id = 13 then "Special Workspace (Elysia)"
                    else "Workspace " ++ to_string workspace_id)
                  ++ (" (" ++ to_string ((get_workspace_apps env workspace_id s).1.length : Int)
                    ++ " apps):"
                    ++ ((get_workspace_apps env workspace_id s).1.map
                        (fun entry => bullet ++ entry)).foldr (fun line rest => line ++ rest) "")
            ∧ (∀ x y window label, s.tooltip_window = some window →
                s.tooltip_label = some label → label < s.widgets.length →
                ((show_tooltip env workspace_id x y s).widgets[label]?).map (fun w => w.kind)
                  = some (WidgetKind.label
                      (tooltip_text workspace_id (get_workspace_apps env workspace_id s).1))))
      ∧ (127 < title.length →
          env.popen (classes_command workspace_id) = some (String.mk (title ++ ['\n'])) →
          (get_workspace_app_classes env workspace_id s).1.head?
              = some (String.mk (title.take 127))
            ∧ 1 < (get_workspace_app_classes env workspace_id s).1.length
            ∧ (title.length < 254 →
                (get_workspace_app_classes env workspace_id s).1
                  = [String.mk (title.take 127), String.mk (title.drop 127)])) := by
  refine ⟨raw_lines_one_title title hnl, ?_, ?_⟩
  · intro hlen hp
    have hsplit := read_entries_split 256 title (by decide) hlen hnl hnul
    have hget : (get_workspace_apps env workspace_id s).1
        = read_entries 256 (title ++ ['\n']).length (title ++ ['\n']) := by
      unfold get_workspace_apps
      simp only [hp]
      rfl
    rw [hget]
    have hne : read_entries 256 (title ++ ['\n']).length (title ++ ['\n']) ≠ [] := by
      intro h
      rw [h] at hsplit
      simp at hsplit
    refine ⟨hsplit.1, hsplit.2.1, fun h => hsplit.2.2 (by omega), tooltip_text_count _ _ hne, ?_⟩
    intro x y window label hw hl hlt
    rw [← hget]
    exact show_tooltip_label env workspace_id x y s window label hw hl hlt
  · intro hlen hp
    have hsplit := read_entries_split 128 title (by decide) hlen hnl hnul
    have hget : (get_workspace_app_classes env workspace_id s).1
        = read_entries 128 (title ++ ['\n']).length (title ++ ['\n']) := by
      unfold get_workspace_app_classes
      simp only [hp]
      rfl
    rw [hget]
    exact ⟨hsplit.1, hsplit.2.1, fun h => hsplit.2.2 (by omega)⟩

/-- Witness for C21: a title of 256 letters `a` comes back as two entries. -/
theorem long_lines_are_split_witness :
    1 < (get_workspace_apps (one_title_env (List.replicate 256 'a')) 2 blank_state).1.length
      ∧ (get_workspace_apps (one_title_env (List.replicate 256 'a')) 2 blank_state).1
          = [String.mk ((List.replicate 256 'a').take 255),
             String.mk ((List.replicate 256 'a').drop 255)] :=
  ⟨((long_lines_are_split (one_title_env (List.replicate 256 'a')) 2 blank_state
      (List.replicate 256 'a')
      (fun c hc => by rw [List.eq_of_mem_replicate hc]; decide)
      (fun c hc => by rw [List.eq_of_mem_replicate hc]; decide)).2.1
      (by rw [List.length_replicate]; decide) rfl).2.1,
   ((long_lines_are_split (one_title_env (List.replicate 256 'a')) 2 blank_state
      (List.replicate 256 'a')
      (fun c hc => by rw [List.eq_of_mem_replicate hc]; decide)
      (fun c hc => by rw [List.eq_of_mem_replicate hc]; decide)).2.1
      (by rw [List.length_replicate]; decide) rfl).2.2.1
      (by rw [List.length_replicate]; decide)⟩

/-- The cut on short buffers, where it can be computed: with room for 3 characters the
line `abcde` comes back as `abc` and `de`. -/
theorem read_entries_split_example :
    read_entries 4 6 "abcde\n".data = ["abc", "de"]
      ∧ read_entries 4 8 "abcdefg\n".data = ["abc", "def", "g"]
      ∧ read_entries 4 4 "abc\n".data = ["abc"]
      ∧ tooltip_text 2 ["abc", "de"] = "Workspace 2 (2 apps):" ++ bullet ++ "abc" ++ bullet ++ "de" := by
  refine ⟨?_, ?_, ?_, ?_⟩ <;> decide

/-! ### Centre button -/

/-- C24: for every screen size, after `calculate_dimensions` the centre button is put at
`(center_x - special_button_size/2, center_y - special_button_size/2)` with the size
request `special_button_size` in both directions; `special_button_size` is even, so the
half is exact, and the centre of the square, the corner plus half the size, is
`(center_x, center_y)`: twice the corner plus the size is twice the centre. -/
theorem centre_button_exactly_centred (env : Env) (s0 : State) :
    map_find 13
        (create_workspace_buttons_minimal env (calculate_dimensions env s0)).workspace_buttons
        = some (s0.widgets.length + 25)
      ∧ (create_workspace_buttons_minimal env (calculate_dimensions env s0)).fixed_children.getLast?
        = some (s0.widgets.length + 25,
            (calculate_dimensions env s0).center_x
              - (calculate_dimensions env s0).special_button_size.tdiv 2,
            (calculate_dimensions env s0).center_y
              - (calculate_dimensions env s0).special_button_size.tdiv 2)
      ∧ ((create_workspace_buttons_minimal env
            (calculate_dimensions env s0)).widgets[s0.widgets.length + 25]?).map
            (fun w => w.size_request)
        = some (some ((calculate_dimensions env s0).special_button_size,
            (calculate_dimensions env s0).special_button_size))
      ∧ (calculate_dimensions env s0).special_button_size % 2 = 0
      ∧ (calculate_dimensions env s0).special_button_size.tdiv 2 * 2
        = (calculate_dimensions env s0).special_button_size
      ∧ ((calculate_dimensions env s0).center_x
            - (calculate_dimensions env s0).special_button_size.tdiv 2)
          + (calculate_dimensions env s0).special_button_size.tdiv 2
        = (calculate_dimensions env s0).center_x
      ∧ ((calculate_dimensions env s0).center_y
            - (calculate_dimensions env s0).special_button_size.tdiv 2)
          + (calculate_dimensions env s0).special_button_size.tdiv 2
        = (calculate_dimensions env s0).center_y
      ∧ 2 * ((calculate_dimensions env s0).center_x
            - (calculate_dimensions env s0).special_button_size.tdiv 2)
          + (calculate_dimensions env s0).special_button_size
        = 2 * (calculate_dimensions env s0).center_x
      ∧ 2 * ((calculate_dimensions env s0).center_y
            - (calculate_dimensions env s0).special_button_size.tdiv 2)
          + (calculate_dimensions env s0).special_button_size
        = 2 * (calculate_dimensions env s0).center_y := by
  have hsb : (calculate_dimensions env s0).special_button_size
      = max 120 (env.times_0_08 (min env.gdk_screen_get_width env.gdk_screen_get_height)) * 2 := rfl
  have hhalf : (calculate_dimensions env s0).special_button_size.tdiv 2
      = max 120 (env.times_0_08 (min env.gdk_screen_get_width env.gdk_screen_get_height)) := by
    rw [hsb, Int.mul_tdiv_cancel _ (by decide)]
  have hlen : (calculate_dimensions env s0).widgets.length = s0.widgets.length := rfl
  have hst := stored_button env (calculate_dimensions env s0) 13 (by decide) (by decide)
  have hb : button_of (calculate_dimensions env s0).widgets.length 13 = s0.widgets.length + 25 := by
    rw [hlen]
    rfl
  rw [hb] at hst
  refine ⟨hst.1, ?_, ?_, ?_, ?_, ?_, ?_, ?_, ?_⟩
  · rw [create_workspace_buttons_minimal_eq]
    simp [hlen]
  · rw [hst.2]
    rfl
  · rw [hsb]
    exact Int.mul_emod_left _ _
  · rw [hhalf, hsb]
  · omega
  · omega
  · rw [hhalf, hsb]
    omega
  · rw [hhalf, hsb]
    omega

/-- The centre button on a 1920x1080 screen: a square of 240 with its corner at (840, 420)
and its centre at (960, 540). -/
theorem centre_button_example :
    (create_workspace_buttons_minimal quiet_env
        (calculate_dimensions quiet_env blank_state)).fixed_children.getLast?
      = some (25, 840, 420)
      ∧ (calculate_dimensions quiet_env blank_state).special_button_size = 240
      ∧ (calculate_dimensions quiet_env blank_state).center_x = 960
      ∧ (calculate_dimensions quiet_env blank_state).center_y = 540 := by
  refine ⟨?_, ?_, ?_, ?_⟩ <;> decide

/-! ### Hover before the tooltip exists -/

/-- Showing the children of `fixed` and all below them keeps the layout. -/
theorem layout_foldl_show_all (children : List (Nat × Int × Int)) (s : State) :
    (children.foldl (fun acc child => gtk_widget_show_all child.1 acc) s).layout = s.layout := by
  induction children generalizing s with
  | nil => rfl
  | cons child rest ih =>
    simp only [List.foldl_cons]
    rw [ih, layout_gtk_widget_show_all]

/-- Showing widgets logs nothing. -/
theorem log_foldl_show (ws : List Nat) (s : State) :
    (ws.foldl (fun acc x => gtk_widget_show x acc) s).log = s.log := by
  induction ws generalizing s with
  | nil => rfl
  | cons w rest ih =>
    simp only [List.foldl_cons]
    rw [ih]
    rfl

/-- The call `gtk_widget_show` logs nothing. -/
theorem log_gtk_widget_show (w : Nat) (s : State) : (gtk_widget_show w s).log = s.log := rfl

/-- The call `gtk_widget_hide` logs nothing. -/
theorem log_gtk_widget_hide (w : Nat) (s : State) : (gtk_widget_hide w s).log = s.log := rfl

/-- The call `gtk_label_set_text` logs nothing. -/
theorem log_gtk_label_set_text (text : String) (label : Nat) (s : State) :
    (gtk_label_set_text text label s).log = s.log := rfl

/-- A call on a member logs nothing when the call logs nothing. -/
theorem log_on_member (member : Option Nat) (call : Nat → State → State) (s : State)
    (h : ∀ w t, (call w t).log = t.log) : (on_member member call s).log = s.log := by
  cases member with
  | none => rfl
  | some w => exact h w s

/-- Giving up the shown pixbuf logs nothing. -/
theorem log_release_shown (image : Nat) (s : State) : (release_shown image s).log = s.log := by
  unfold release_shown
  split <;> rfl

/-- The call `gtk_image_clear` logs nothing. -/
theorem log_gtk_image_clear (image : Nat) (s : State) : (gtk_image_clear image s).log = s.log := by
  simp only [gtk_image_clear, State.update_widget]
  exact log_release_shown image s

/-- The call `gtk_image_set_from_pixbuf` logs nothing. -/
theorem log_gtk_image_set_from_pixbuf (pixbuf image : Nat) (s : State) :
    (gtk_image_set_from_pixbuf pixbuf image s).log = s.log := by
  simp only [gtk_image_set_from_pixbuf, State.update_widget]
  rw [log_release_shown]
  rfl

/-- Making the thumbnail adds to the log only. -/
theorem log_create_workspace_thumbnail_from_path (env : Env) (path : String) (s : State) :
    ∃ more, (create_workspace_thumbnail_from_path env path s).2.log = s.log ++ more := by
  unfold create_workspace_thumbnail_from_path
  simp only
  generalize env.gdk_pixbuf_new_from_file_at_size _ _ _ = loaded
  obtain ⟨error, pixbuf⟩ := loaded
  split
  · exact ⟨[], by simp⟩
  · split
    · exact ⟨[Effect.fs_exists path], rfl⟩
    · cases error <;> cases pixbuf
      · exact ⟨[Effect.fs_exists path], rfl⟩
      · exact ⟨[Effect.fs_exists path], rfl⟩
      · exact ⟨[Effect.fs_exists path,
          Effect.cerr ("Error creating thumbnail: " ++ env.thumbnail_error)], by
            simp [State.emit]⟩
      · exact ⟨[Effect.fs_exists path,
          Effect.cerr ("Error creating thumbnail: " ++ env.thumbnail_error)], by
            simp [State.emit, State.new_pixbuf]⟩

/-- Lines 558-575 add to the log only. -/
theorem log_show_thumbnail (env : Env) (workspace_id : Int) (apps : List String) (s : State) :
    ∃ more, (show_thumbnail env workspace_id apps s).log = s.log ++ more := by
  obtain ⟨more, hm⟩ := log_create_workspace_thumbnail_from_path env
    (get_screenshot_path workspace_id) s
  unfold show_thumbnail
  split
  · simp only
    split
    · refine ⟨more, ?_⟩
      rw [← hm]
      show (on_member _ gtk_widget_show _).log = _
      rw [log_on_member _ _ _ log_gtk_widget_show,
        log_on_member _ _ _ (log_gtk_image_set_from_pixbuf _)]
    · refine ⟨more, ?_⟩
      rw [← hm, log_on_member _ _ _ log_gtk_widget_hide,
        log_on_member _ _ _ log_gtk_image_clear]
  · refine ⟨[], ?_⟩
    simp only
    rw [log_on_member _ _ _ log_gtk_widget_hide, log_on_member _ _ _ log_gtk_image_clear]
    simp

/-- Past its test of `tooltip_window`, `show_tooltip` logs the title query first. -/
theorem log_show_tooltip (env : Env) (workspace_id x y : Int) (s : State) (window : Nat)
    (hw : s.tooltip_window = some window) :
    ∃ more, (show_tooltip env workspace_id x y s).log
      = s.log ++ Effect.popen (titles_command workspace_id) :: more := by
  unfold show_tooltip
  rw [hw]
  simp only
  obtain ⟨more, hm⟩ := log_show_thumbnail env workspace_id
    (get_workspace_apps env workspace_id s).1 (get_workspace_apps env workspace_id s).2
  refine ⟨more, ?_⟩
  unfold gtk_widget_show_all
  rw [log_foldl_show, log_on_member _ _ _ (log_gtk_label_set_text _), hm,
    get_workspace_apps_state]
  simp [State.emit]

/-- The constructor leaves the tooltip pointers as it found them, and so does the end of
the fade-in. -/
theorem switcher_constructor_pointers (env : Env) (source_ids : Nat × Nat × Nat)
    (w l i : Option Nat) :
    (switcher_constructor env source_ids w l i).tooltip_window = w
      ∧ (switcher_constructor env source_ids w l i).tooltip_label = l
      ∧ (switcher_constructor env source_ids w l i).tooltip_image = i := by
  have hf := layout_foldl_show_all
    (create_workspace_buttons_minimal env
      { calculate_dimensions env
          { blank_state with tooltip_window := w, tooltip_label := l, tooltip_image := i } with
        workspace_icon_path := (determine_workspace_icon_path env).getD "" }).fixed_children
    (create_workspace_buttons_minimal env
      { calculate_dimensions env
          { blank_state with tooltip_window := w, tooltip_label := l, tooltip_image := i } with
        workspace_icon_path := (determine_workspace_icon_path env).getD "" })
  rw [create_workspace_buttons_minimal_eq] at hf
  simp only [State.layout, Prod.mk.injEq] at hf
  simp only [switcher_constructor]
  rw [create_workspace_buttons_minimal_eq]
  exact ⟨hf.1, hf.2.1, hf.2.2.1⟩


/-- The end of the fade-in leaves the tooltip pointers and the log alone and sets the flag. -/
theorem fade_in_timeout_last_fields (s : State) :
    (fade_in_timeout_last s).tooltip_window = s.tooltip_window
      ∧ (fade_in_timeout_last s).tooltip_label = s.tooltip_label
      ∧ (fade_in_timeout_last s).tooltip_image = s.tooltip_image
      ∧ (fade_in_timeout_last s).fade_in_complete = true :=
  ⟨rfl, rfl, rfl, rfl⟩

/-- C22, as the code has it: `show_tooltip` returns at once, leaving the state as it is,
exactly when `tooltip_window` is null; but the constructor and the end of the fade-in leave
the three tooltip pointers as the storage of the object held them, so that they are null
only if the storage happened to be; and on a value that is not null, a hover after the
fade-in and before `create_tooltip` gets past the test and queries the compositor. -/
theorem show_tooltip_before_create_tooltip (env : Env) (source_ids : Nat × Nat × Nat) :
    (∀ workspace_id x y s, s.tooltip_window = none → show_tooltip env workspace_id x y s = s)
      ∧ (∀ w l i,
          (fade_in_timeout_last (switcher_constructor env source_ids w l i)).tooltip_window = w
            ∧ (fade_in_timeout_last (switcher_constructor env source_ids w l i)).tooltip_label = l
            ∧ (fade_in_timeout_last (switcher_constructor env source_ids w l i)).tooltip_image = i)
      ∧ (∀ l i workspace_id x y,
          show_tooltip env workspace_id x y
              (fade_in_timeout_last (switcher_constructor env source_ids none l i))
            = fade_in_timeout_last (switcher_constructor env source_ids none l i))
      ∧ (∀ garbage l i workspace_id x y,
          ∃ more,
            (show_tooltip env workspace_id x y
                (fade_in_timeout_last
                  (switcher_constructor env source_ids (some garbage) l i))).log
              = (fade_in_timeout_last
                  (switcher_constructor env source_ids (some garbage) l i)).log
                ++ Effect.popen (titles_command workspace_id) :: more)
      ∧ (∀ garbage l i anchor button,
          ∃ more,
            (on_button_enter_static env anchor button
                (fade_in_timeout_last
                  (switcher_constructor env source_ids (some garbage) l i))).1.log
              = (fade_in_timeout_last
                  (switcher_constructor env source_ids (some garbage) l i)).log
                ++ Effect.popen (titles_command
                    (g_object_get_data button "workspace"
                      (fade_in_timeout_last
                        (switcher_constructor env source_ids (some garbage) l i)))) :: more) := by
  have hnull : ∀ workspace_id x y s, s.tooltip_window = none →
      show_tooltip env workspace_id x y s = s := by
    intro workspace_id x y s h
    unfold show_tooltip
    rw [h]
  have hptr : ∀ w l i,
      (fade_in_timeout_last (switcher_constructor env source_ids w l i)).tooltip_window = w
        ∧ (fade_in_timeout_last (switcher_constructor env source_ids w l i)).tooltip_label = l
        ∧ (fade_in_timeout_last (switcher_constructor env source_ids w l i)).tooltip_image = i :=
    by
      intro w l i
      obtain ⟨f1, f2, f3, _⟩ :=
        fade_in_timeout_last_fields (switcher_constructor env source_ids w l i)
      obtain ⟨p1, p2, p3⟩ := switcher_constructor_pointers env source_ids w l i
      exact ⟨f1.trans p1, f2.trans p2, f3.trans p3⟩
  refine ⟨hnull, hptr, ?_, ?_, ?_⟩
  · intro l i workspace_id x y
    exact hnull _ _ _ _ (hptr none l i).1
  · intro garbage l i workspace_id x y
    exact log_show_tooltip env workspace_id x y _ garbage (hptr (some garbage) l i).1
  · intro garbage l i anchor button
    have hfade := (fade_in_timeout_last_fields
      (switcher_constructor env source_ids (some garbage) l i)).2.2.2
    unfold on_button_enter_static
    simp only [hfade, Bool.not_true, Bool.false_eq_true, if_false]
    exact log_show_tooltip env _ _ _ _ garbage (hptr (some garbage) l i).1

/-- The hover of C22 in the quiet outside world, with tooltip pointers that hold the value
1000: the pointer enters the button of workspace 5 (widget 9) after the fade-in and before
`create_tooltip`, and the title query of workspace 5 is run; with null pointers nothing is. -/
theorem hover_before_create_tooltip_example :
    g_object_get_data 9 "workspace"
        (fade_in_timeout_last
          (switcher_constructor quiet_env (1, 2, 3) (some 1000) (some 1000) (some 1000))) = 5
      ∧ (fade_in_timeout_last
          (switcher_constructor quiet_env (1, 2, 3) (some 1000) (some 1000) (some 1000))).log = []
      ∧ (on_button_enter_static quiet_env (500, 300) 9
          (fade_in_timeout_last
            (switcher_constructor quiet_env (1, 2, 3) (some 1000) (some 1000) (some 1000)))).1.log
          = [Effect.popen (titles_command 5)]
      ∧ (on_button_enter_static quiet_env (500, 300) 9
          (fade_in_timeout_last (switcher_constructor quiet_env (1, 2, 3) none none none))).1.log
          = []
      ∧ (on_button_enter_static quiet_env (500, 300) 9
          (switcher_constructor quiet_env (1, 2, 3) (some 1000) (some 1000) (some 1000))).1.log
          = [] := by
  refine ⟨?_, ?_, ?_, ?_, ?_⟩ <;> decide

/-! ### Tooltip image -/

/-- An update that keeps the children keeps the tree. -/
theorem tree_update_widget (s : State) (w : Nat) (f : Widget → Widget)
    (h : ∀ x, (f x).children = x.children) : (s.update_widget w f).tree = s.tree := by
  simp only [State.tree, State.update_widget]
  generalize s.widgets = l
  induction l generalizing w with
  | nil => cases w <;> rfl
  | cons a l ih =>
    cases w with
    | zero => simp [heap_update, h]
    | succ w => simp [heap_update, ih]

/-- This step keeps the tree. -/
theorem tree_gtk_widget_show (w : Nat) (s : State) : (gtk_widget_show w s).tree = s.tree :=
  tree_update_widget s w _ (fun _ => rfl)

/-- This step keeps the tree. -/
theorem tree_gtk_widget_hide (w : Nat) (s : State) : (gtk_widget_hide w s).tree = s.tree :=
  tree_update_widget s w _ (fun _ => rfl)

/-- This step keeps the tree. -/
theorem tree_gtk_label_set_text (text : String) (label : Nat) (s : State) :
    (gtk_label_set_text text label s).tree = s.tree :=
  tree_update_widget s label _ (fun _ => rfl)

/-- This step keeps the tree. -/
theorem tree_release_shown (image : Nat) (s : State) : (release_shown image s).tree = s.tree := by
  unfold release_shown
  split <;> rfl

/-- This step keeps the tree. -/
theorem tree_gtk_image_clear (image : Nat) (s : State) :
    (gtk_image_clear image s).tree = s.tree := by
  unfold gtk_image_clear
  rw [tree_update_widget (release_shown image s) image
    (fun w => { w with kind := WidgetKind.image none }) (fun _ => rfl)]
  exact tree_release_shown image s

/-- This step keeps the tree. -/
theorem tree_gtk_image_set_from_pixbuf (pixbuf image : Nat) (s : State) :
    (gtk_image_set_from_pixbuf pixbuf image s).tree = s.tree := by
  unfold gtk_image_set_from_pixbuf
  rw [tree_update_widget (release_shown image (s.g_object_ref pixbuf)) image
    (fun w => { w with kind := WidgetKind.image (some pixbuf) }) (fun _ => rfl)]
  exact tree_release_shown image (s.g_object_ref pixbuf)

/-- A call on a member keeps the tree when the call does. -/
theorem tree_on_member (member : Option Nat) (call : Nat → State → State) (s : State)
    (h : ∀ w t, (call w t).tree = t.tree) : (on_member member call s).tree = s.tree := by
  cases member with
  | none => rfl
  | some w => exact h w s

/-- This step keeps the tree. -/
theorem tree_create_workspace_thumbnail_from_path (env : Env) (path : String) (s : State) :
    (create_workspace_thumbnail_from_path env path s).2.tree = s.tree := by
  unfold create_workspace_thumbnail_from_path
  simp only
  generalize env.gdk_pixbuf_new_from_file_at_size _ _ _ = loaded
  obtain ⟨error, pixbuf⟩ := loaded
  split
  · rfl
  · split
    · rfl
    · cases error <;> cases pixbuf <;> rfl

/-- This step keeps the tree. -/
theorem tree_show_thumbnail (env : Env) (workspace_id : Int) (apps : List String) (s : State) :
    (show_thumbnail env workspace_id apps s).tree = s.tree := by
  unfold show_thumbnail
  split
  · simp only
    split
    · show (on_member _ gtk_widget_show _).tree = _
      rw [tree_on_member _ _ _ tree_gtk_widget_show,
        tree_on_member _ _ _ (tree_gtk_image_set_from_pixbuf _),
        tree_create_workspace_thumbnail_from_path]
    · rw [tree_on_member _ _ _ tree_gtk_widget_hide,
        tree_on_member _ _ _ tree_gtk_image_clear,
        tree_create_workspace_thumbnail_from_path]
  · simp only
    rw [tree_on_member _ _ _ tree_gtk_widget_hide, tree_on_member _ _ _ tree_gtk_image_clear]

/-- Showing a list of widgets keeps the tree. -/
theorem tree_foldl_show (ws : List Nat) (s : State) :
    (ws.foldl (fun acc x => gtk_widget_show x acc) s).tree = s.tree := by
  induction ws generalizing s with
  | nil => rfl
  | cons w rest ih =>
    simp only [List.foldl_cons]
    rw [ih, tree_gtk_widget_show]

/-- A widget is among those that `gtk_widget_show_all` visits from it. -/
theorem self_mem_descendants (s : State) (depth w : Nat) : w ∈ descendants s depth w := by
  cases depth with
  | zero => simp [descendants]
  | succ depth =>
    unfold descendants
    split <;> simp

/-- What is visited from a child is visited from its parent, one level up. -/
theorem mem_descendants_child (s : State) (depth w c : Nat) (cs : List Nat)
    (hw : s.tree[w]? = some cs) (hc : c ∈ cs) :
    ∀ y ∈ descendants s depth c, y ∈ descendants s (depth + 1) w := by
  intro y hy
  simp only [State.tree, List.getElem?_map] at hw
  cases hx : s.widgets[w]? with
  | none =>
    rw [hx] at hw
    simp at hw
  | some x =>
    rw [hx] at hw
    simp only [Option.map_some', Option.some.injEq] at hw
    unfold descendants
    rw [hx]
    simp only [List.mem_cons, List.mem_flatten, List.mem_map]
    right
    exact ⟨descendants s depth c, ⟨c, by rw [hw]; exact hc, rfl⟩, hy⟩

/-- A widget that is shown, or is in the list to show, is visible afterwards. -/
theorem visible_foldl_show (ws : List Nat) (s : State) (x : Nat) (hx : x < s.widgets.length)
    (h : x ∈ ws ∨ (s.widgets[x]?).map (fun w => w.visible) = some true) :
    ((ws.foldl (fun acc y => gtk_widget_show y acc) s).widgets[x]?).map (fun w => w.visible)
      = some true := by
  induction ws generalizing s with
  | nil =>
    rcases h with h | h
    · simp at h
    · exact h
  | cons w rest ih =>
    simp only [List.foldl_cons]
    apply ih
    · simpa [gtk_widget_show, State.update_widget, length_heap_update] using hx
    · by_cases hxw : x = w
      · right
        subst hxw
        simp only [gtk_widget_show, State.update_widget, getElem?_heap_update, if_true]
        rw [List.getElem?_eq_getElem hx]
        rfl
      · rcases h with h | h
        · left
          rcases List.mem_cons.mp h with h | h
          · exact absurd h hxw
          · exact h
        · right
          simp only [gtk_widget_show, State.update_widget, getElem?_heap_update, if_neg hxw]
          exact h

/-- The tree has one entry per widget. -/
theorem length_tree (s : State) : s.tree.length = s.widgets.length := by
  simp [State.tree]

/-- In the shape of `create_tooltip`, `gtk_widget_show_all(tooltip_window)` leaves the
image visible. -/
theorem visible_show_all (s : State) (window box image : Nat)
    (hne : window ≠ box) (hlt : image < s.tree.length)
    (hwin : ∃ cs, s.tree[window]? = some cs ∧ box ∈ cs)
    (hbox : ∃ cs, s.tree[box]? = some cs ∧ image ∈ cs) :
    ((gtk_widget_show_all window s).widgets[image]?).map (fun w => w.visible) = some true := by
  obtain ⟨cw, hw1, hw2⟩ := hwin
  obtain ⟨cb, hb1, hb2⟩ := hbox
  have hwl : window < s.tree.length := by
    by_contra hcon
    rw [List.getElem?_eq_none (by omega)] at hw1
    simp at hw1
  have hbl : box < s.tree.length := by
    by_contra hcon
    rw [List.getElem?_eq_none (by omega)] at hb1
    simp at hb1
  rw [length_tree] at hwl hbl hlt
  obtain ⟨depth, hd⟩ : ∃ depth, s.widgets.length = depth + 2 := ⟨s.widgets.length - 2, by omega⟩
  unfold gtk_widget_show_all
  apply visible_foldl_show _ _ _ hlt
  left
  rw [hd]
  apply mem_descendants_child s (depth + 1) window box cw hw1 hw2
  apply mem_descendants_child s depth box image cb hb1 hb2
  exact self_mem_descendants s depth image

/-- After `gtk_image_clear` the image holds no pixbuf. -/
theorem kind_gtk_image_clear (image : Nat) (s : State) (h : image < s.widgets.length) :
    ((gtk_image_clear image s).widgets[image]?).map (fun w => w.kind)
      = some (WidgetKind.image none) := by
  have hl : (release_shown image s).widgets.length = s.widgets.length := by
    unfold release_shown
    split <;> rfl
  simp only [gtk_image_clear, State.update_widget, getElem?_heap_update, if_true]
  rw [List.getElem?_eq_getElem (by omega)]
  rfl

/-- Hiding a widget changes no widget kind. -/
theorem kind_gtk_widget_hide (w : Nat) (s : State) (i : Nat) :
    ((gtk_widget_hide w s).widgets[i]?).map (fun x => x.kind)
      = (s.widgets[i]?).map (fun x => x.kind) := by
  simp only [gtk_widget_hide, State.update_widget, getElem?_heap_update]
  split
  · cases s.widgets[i]? <;> rfl
  · rfl

/-- Setting the text of another widget leaves the kind of this one. -/
theorem kind_gtk_label_set_text_ne (text : String) (label : Nat) (s : State) (i : Nat)
    (h : i ≠ label) :
    ((gtk_label_set_text text label s).widgets[i]?).map (fun x => x.kind)
      = (s.widgets[i]?).map (fun x => x.kind) := by
  simp only [gtk_label_set_text, State.update_widget, getElem?_heap_update, if_neg h]

/-- When there is no title or no thumbnail, lines 558-575 leave the image without pixbuf. -/
theorem kind_show_thumbnail (env : Env) (workspace_id : Int) (apps : List String) (s : State)
    (image : Nat) (hi : s.tooltip_image = some image) (hlt : image < s.widgets.length)
    (h : apps = []
      ∨ (create_workspace_thumbnail_from_path env (get_screenshot_path workspace_id) s).1 = none) :
    ((show_thumbnail env workspace_id apps s).widgets[image]?).map (fun w => w.kind)
      = some (WidgetKind.image none) := by
  have hclear : ∀ t : State, t.layout = s.layout →
      ((on_member (on_member t.tooltip_image gtk_image_clear t).tooltip_image gtk_widget_hide
          (on_member t.tooltip_image gtk_image_clear t)).widgets[image]?).map (fun w => w.kind)
        = some (WidgetKind.image none) := by
    intro t ht
    have hti : t.tooltip_image = some image := by
      simp only [State.layout, Prod.mk.injEq] at ht
      rw [ht.2.2.1, hi]
    have htl : image < t.widgets.length := by
      simp only [State.layout, Prod.mk.injEq] at ht
      omega
    have h2 : (on_member t.tooltip_image gtk_image_clear t).tooltip_image = some image := by
      have := layout_on_member t.tooltip_image gtk_image_clear t layout_gtk_image_clear
      simp only [State.layout, Prod.mk.injEq] at this
      rw [this.2.2.1, hti]
    rw [h2, hti]
    simp only [on_member]
    rw [kind_gtk_widget_hide]
    exact kind_gtk_image_clear image t htl
  unfold show_thumbnail
  by_cases ha : apps = []
  · simp only [ha, ne_eq, not_true_eq_false, if_false]
    exact hclear s rfl
  · have hn : (create_workspace_thumbnail_from_path env (get_screenshot_path workspace_id) s).1
        = none := by
      rcases h with h | h
      · exact absurd h ha
      · exact h
    simp only [ne_eq, ha, not_false_eq_true, if_true, hn]
    exact hclear _ (layout_create_workspace_thumbnail_from_path env _ s)

/-- A screenshot that is absent, or one whose decoding sets `error`, gives no thumbnail. -/
theorem thumbnail_none (env : Env) (path : String) (s : State)
    (h : env.fs_exists path = false
      ∨ (env.gdk_pixbuf_new_from_file_at_size path (max 200 (s.screen_width.tdiv 6))
          (max 112 ((max 200 (s.screen_width.tdiv 6) * 9).tdiv 16))).error = true) :
    (create_workspace_thumbnail_from_path env path s).1 = none := by
  unfold create_workspace_thumbnail_from_path
  simp only
  split
  · rfl
  · split
    · rfl
    · rename_i hex
      rcases h with h | h
      · rw [h] at hex
        simp at hex
      · rw [h]
        rfl


/-- C23, as the code has it: in the shape that `create_tooltip` builds, which
`show_tooltip` keeps from hover to hover, the tooltip image holds no pixbuf when
`show_tooltip` returns for a workspace without titles, with an absent screenshot or with
one whose decoding fails; but the image is visible at every return, since
`gtk_widget_show_all(tooltip_window)` (line 590) shows it again after the
`gtk_widget_hide` of lines 569 and 574. -/
theorem tooltip_image_shown_again (env : Env) (workspace_id x y : Int) (s : State)
    (window box image : Nat) (ht : tooltip_tree s window box image) :
    tooltip_tree (show_tooltip env workspace_id x y s) window box image
      ∧ ((show_tooltip env workspace_id x y s).widgets[image]?).map (fun w => w.visible)
        = some true
      ∧ ((get_workspace_apps env workspace_id s).1 = []
          ∨ env.fs_exists (get_screenshot_path workspace_id) = false
          ∨ (env.gdk_pixbuf_new_from_file_at_size (get_screenshot_path workspace_id)
              (max 200 (s.screen_width.tdiv 6))
              (max 112 ((max 200 (s.screen_width.tdiv 6) * 9).tdiv 16))).error = true →
          ((show_tooltip env workspace_id x y s).widgets[image]?).map (fun w => w.kind)
            = some (WidgetKind.image none)) := by
  obtain ⟨hw, hi, hl, hne, hlt, hwin, hbox⟩ := ht
  have hlt2 : image < s.widgets.length := by
    rw [length_tree] at hlt
    exact hlt
  have hk1 : (get_workspace_apps env workspace_id s).1 = []
      ∨ env.fs_exists (get_screenshot_path workspace_id) = false
      ∨ (env.gdk_pixbuf_new_from_file_at_size (get_screenshot_path workspace_id)
          (max 200 (s.screen_width.tdiv 6))
          (max 112 ((max 200 (s.screen_width.tdiv 6) * 9).tdiv 16))).error = true →
      ((show_thumbnail env workspace_id (get_workspace_apps env workspace_id s).1
          (get_workspace_apps env workspace_id s).2).widgets[image]?).map (fun w => w.kind)
        = some (WidgetKind.image none) := by
    intro h
    rw [get_workspace_apps_state]
    refine kind_show_thumbnail env workspace_id (get_workspace_apps env workspace_id s).1
      (s.emit (Effect.popen (titles_command workspace_id))) image hi hlt2 ?_
    rcases h with h | h
    · left
      exact h
    · right
      exact thumbnail_none env (get_screenshot_path workspace_id)
        (s.emit (Effect.popen (titles_command workspace_id))) h
  have hlay1 : (show_thumbnail env workspace_id (get_workspace_apps env workspace_id s).1
      (get_workspace_apps env workspace_id s).2).layout = s.layout := by
    rw [layout_show_thumbnail, get_workspace_apps_state, layout_emit]
  have htree1 : (show_thumbnail env workspace_id (get_workspace_apps env workspace_id s).1
      (get_workspace_apps env workspace_id s).2).tree = s.tree := by
    rw [tree_show_thumbnail, get_workspace_apps_state]
    rfl
  unfold show_tooltip
  rw [hw]
  simp only
  generalize show_thumbnail env workspace_id (get_workspace_apps env workspace_id s).1
      (get_workspace_apps env workspace_id s).2 = s1 at hk1 hlay1 htree1 ⊢
  generalize tooltip_text workspace_id (get_workspace_apps env workspace_id s).1 = text
  have hl1 : s1.tooltip_label = s.tooltip_label := by
    simp only [State.layout, Prod.mk.injEq] at hlay1
    exact hlay1.2.1
  have hlay2 : (on_member s1.tooltip_label (gtk_label_set_text text) s1).layout = s.layout := by
    rw [layout_on_member _ _ _ (layout_gtk_label_set_text _), hlay1]
  have htree2 : (on_member s1.tooltip_label (gtk_label_set_text text) s1).tree = s.tree := by
    rw [tree_on_member _ _ _ (tree_gtk_label_set_text _), htree1]
  have hk2 : ((on_member s1.tooltip_label (gtk_label_set_text text) s1).widgets[image]?).map
      (fun w => w.kind) = (s1.widgets[image]?).map (fun w => w.kind) := by
    rw [hl1]
    cases hlab : s.tooltip_label with
    | none => rfl
    | some label =>
      have hli : image ≠ label := by
        intro h
        apply hl
        rw [hlab, h]
      exact kind_gtk_label_set_text_ne text label s1 image hli
  generalize on_member s1.tooltip_label (gtk_label_set_text text) s1 = s2 at hlay2 htree2 hk2 ⊢
  have hlay3 : (gtk_widget_show_all window s2).layout = s.layout := by
    rw [layout_gtk_widget_show_all, hlay2]
  have htree3 : (gtk_widget_show_all window s2).tree = s.tree := by
    unfold gtk_widget_show_all
    rw [tree_foldl_show, htree2]
  have hvis : ((gtk_widget_show_all window s2).widgets[image]?).map (fun w => w.visible)
      = some true :=
    visible_show_all s2 window box image hne (by rw [htree2]; exact hlt)
      (by rw [htree2]; exact hwin) (by rw [htree2]; exact hbox)
  have hk3 : ((gtk_widget_show_all window s2).widgets[image]?).map (fun w => w.kind)
      = (s2.widgets[image]?).map (fun w => w.kind) := by
    unfold gtk_widget_show_all
    exact kind_foldl_show _ _ _
  generalize gtk_widget_show_all window s2 = s3 at hlay3 htree3 hvis hk3 ⊢
  simp only [State.layout, Prod.mk.injEq] at hlay3
  obtain ⟨p1, p2, p3, _⟩ := hlay3
  refine ⟨⟨?_, ?_, ?_, hne, ?_, ?_, ?_⟩, hvis, ?_⟩
  · exact p1.trans hw
  · exact p3.trans hi
  · show s3.tooltip_label ≠ some image
    rw [p2]
    exact hl
  · show image < s3.tree.length
    rw [htree3]
    exact hlt
  · show ∃ cs, s3.tree[window]? = some cs ∧ box ∈ cs
    rw [htree3]
    exact hwin
  · show ∃ cs, s3.tree[box]? = some cs ∧ image ∈ cs
    rw [htree3]
    exact hbox
  · intro h
    show (s3.widgets[image]?).map (fun w => w.kind) = some (WidgetKind.image none)
    rw [hk3, hk2]
    exact hk1 h

/-- The tooltip of a fresh 1920x1080 switcher has the shape of `create_tooltip`: window 26,
box 27, image 28. -/
theorem ready_state_tooltip_tree : tooltip_tree (ready_state quiet_env) 26 27 28 :=
  ⟨by decide, by decide, by decide, by decide, by decide, ⟨[27], by decide, by decide⟩,
    ⟨[28, 29], by decide, by decide⟩⟩

/-- Witness for C23: a hover over workspace 5, which is empty, on a fresh switcher. -/
theorem tooltip_image_shown_again_witness :
    ((show_tooltip quiet_env 5 500 300 (ready_state quiet_env)).widgets[28]?).map
        (fun w => w.visible) = some true :=
  (tooltip_image_shown_again quiet_env 5 500 300 (ready_state quiet_env) 26 27 28
    ready_state_tooltip_tree).2.1

/-- Two hovers in a row: workspace 2 with two windows and a screenshot, then workspace 5
without windows. After the first the image shows the screenshot; after the second it holds
no pixbuf, the screenshot has lost its last reference, and the image is visible. -/
theorem tooltip_image_example :
    ((show_tooltip preview_env 2 500 300 (ready_state quiet_env)).widgets[28]?).map
        (fun w => (w.kind, w.visible)) = some (WidgetKind.image (some 0), true)
      ∧ (show_tooltip preview_env 2 500 300 (ready_state quiet_env)).pixbufs = [1]
      ∧ ((show_tooltip preview_env 5 500 300
            (show_tooltip preview_env 2 500 300 (ready_state quiet_env))).widgets[28]?).map
          (fun w => (w.kind, w.visible)) = some (WidgetKind.image none, true)
      ∧ (show_tooltip preview_env 5 500 300
          (show_tooltip preview_env 2 500 300 (ready_state quiet_env))).pixbufs = [0]
      ∧ ((show_tooltip quiet_env 2 500 300 (ready_state quiet_env)).widgets[28]?).map
          (fun w => (w.kind, w.visible)) = some (WidgetKind.image none, true) := by
  refine ⟨?_, ?_, ?_, ?_, ?_⟩ <;> decide

end WorkspaceSwitcher
